import Mathlib

/-! M5Stack Tab5 board support package: I/O expanders, I2C bus registry, SD card,
backlight

A shallow embedding of `components/m5stack-tab5/m5stack_tab5.c`.

* The two PI4IOE expander chips are simulated by one register file per chip.
  The vendor calls `i2c_master_transmit` and `i2c_master_transmit_receive`
  act on that register file, append to a transaction log, and take their
  status code from an outcome function indexed by the transaction number.
* The file-scope statics of the three I2C buses are fields of `BusState`;
  the vendor calls `i2c_new_master_bus` and `i2c_del_master_bus` keep a list
  of live bus handles and a log of driver calls.
* The SD card pointers are fields of `SdState`, next to a log of the calls
  into the vendor SD card and filesystem drivers.
* Task delays are logged in milliseconds; the tick period of the kernel is a
  parameter of the functions that sleep.
* The backlight functions act on `LedcState`, a log of the calls into the
  vendor LEDC driver.
* A rail operation run by two tasks is split into its read step and its write
  step, each taken as atomic.

`uint8_t` values are natural numbers below 256; `int` bit patterns are taken
modulo `2 ^ 32`.
-/

namespace Tab5

/-! ## Status codes -/

/-- Status code of the SDK, `esp_err_t` (a 32-bit signed integer). -/
abbrev esp_err_t := Int

/-- Success value of `esp_err_t`. -/
def ESP_OK : esp_err_t := 0

/-- Generic failure value of `esp_err_t`. -/
def ESP_FAIL : esp_err_t := -1

/-! ## Simulated expander chips -/

/-- The two expander device handles, `i2c_dev_handle_pi4ioe1` (address 0x43)
and `i2c_dev_handle_pi4ioe2` (address 0x44). -/
inductive Dev where
  | i2c_dev_handle_pi4ioe1
  | i2c_dev_handle_pi4ioe2
deriving DecidableEq, Repr

def I2C_DEV_ADDR_PI4IOE1 : Nat := 0x43
def I2C_DEV_ADDR_PI4IOE2 : Nat := 0x44
def I2C_MASTER_TIMEOUT_MS : Nat := 50

def PI4IO_REG_CHIP_RESET : Nat := 0x01
def PI4IO_REG_IO_DIR : Nat := 0x03
def PI4IO_REG_OUT_SET : Nat := 0x05
def PI4IO_REG_OUT_H_IM : Nat := 0x07
def PI4IO_REG_IN_DEF_STA : Nat := 0x09
def PI4IO_REG_PULL_EN : Nat := 0x0B
def PI4IO_REG_PULL_SEL : Nat := 0x0D
def PI4IO_REG_IN_STA : Nat := 0x0F
def PI4IO_REG_INT_MASK : Nat := 0x11
def PI4IO_REG_IRQ_STA : Nat := 0x13

/-- Bus handle `i2c_master_bus_handle_t`; `none` is the null pointer. -/
abbrev i2c_master_bus_handle_t := Option Nat

/-- Address widths of `i2c_addr_bit_len_t`. -/
inductive i2c_addr_bit_len_t where
  | I2C_ADDR_BIT_LEN_7
  | I2C_ADDR_BIT_LEN_10
deriving DecidableEq, Repr

/-- Fields of `i2c_device_config_t` that the expander bring-up fills in. -/
structure i2c_device_config_t where
  dev_addr_length : i2c_addr_bit_len_t
  device_address : Nat
  scl_speed_hz : Nat
deriving DecidableEq, Repr

/-- One entry of the bus log: a transmit of the listed bytes, a
transmit-receive (bytes sent, number of bytes asked for), a task delay, the
attachment of a device to a bus, or the reset of a GPIO pin. -/
inductive I2cEvent where
  | transmit (dev : Dev) (bytes : List Nat)
  | transmit_receive (dev : Dev) (bytes : List Nat) (read_size : Nat)
  | delay_ms (ms : Nat)
  | bus_add_device (bus_handle : i2c_master_bus_handle_t) (dev_config : i2c_device_config_t)
      (ret_handle : Dev)
  | gpio_reset_pin (gpio_num : Int)
deriving DecidableEq, Repr

/-- Simulated expander register model together with the vendor I2C device
driver: `regs d r` is the byte in register `r` of chip `d`, `outcome n` is the
status code the driver returns for transaction number `n`, `count` is the
number of transactions issued so far, `log` lists them in order. -/
structure Expander where
  regs : Dev → Nat → Nat
  outcome : Nat → esp_err_t
  count : Nat
  log : List I2cEvent

/-- Vendor call `i2c_master_transmit(dev, write_buffer, write_size, timeout)`.
When the transaction succeeds and carries a register address followed by one
value, the value is stored in that register of the chip. -/
def i2c_master_transmit (dev : Dev) (write_buffer : List Nat) (write_size : Nat)
    (s : Expander) : esp_err_t × Expander :=
  let bytes := write_buffer.take write_size
  let r := s.outcome s.count
  let s1 : Expander :=
    { s with count := s.count + 1, log := s.log ++ [I2cEvent.transmit dev bytes] }
  if r = ESP_OK then
    match bytes with
    | [reg, val] =>
      (ESP_OK, { s1 with regs := fun d a => if d = dev ∧ a = reg then val else s1.regs d a })
    | _ => (ESP_OK, s1)
  else (r, s1)

/-- Vendor call `i2c_master_transmit_receive(dev, write_buffer, write_size,
read_buffer, read_size, timeout)` for a one-byte register read. When the
transaction succeeds the addressed register is copied into the read buffer;
when it fails the read buffer is left as it was. -/
def i2c_master_transmit_receive (dev : Dev) (write_buffer : List Nat) (write_size : Nat)
    (read_buffer : List Nat) (read_size : Nat) (s : Expander) :
    esp_err_t × List Nat × Expander :=
  let bytes := write_buffer.take write_size
  let r := s.outcome s.count
  let s1 : Expander :=
    { s with count := s.count + 1,
             log := s.log ++ [I2cEvent.transmit_receive dev bytes read_size] }
  if r = ESP_OK then
    (ESP_OK, read_buffer.set 0 (s.regs dev (bytes.getD 0 0)), s1)
  else (r, read_buffer, s1)

/-- Bitwise complement of a 32-bit `int` bit pattern, the C operator `~`. -/
def int_not (v : Nat) : Nat := 0xFFFFFFFF ^^^ v

/-- Macro `setbit(x, y)`, that is `x |= (0x01 << y)` on a `uint8_t` lvalue. -/
def setbit (x y : Nat) : Nat := (x ||| (0x01 <<< y)) % 256

/-- Macro `clrbit(x, y)`, that is `x &= ~(0x01 << y)` on a `uint8_t` lvalue. -/
def clrbit (x y : Nat) : Nat := (x &&& int_not (0x01 <<< y)) % 256

/-! ## Rail operations -/

def bsp_set_charge_qc_en (en : Bool) (s : Expander) : Expander :=
  let write_buf : List Nat := [0, 0]
  let read_buf : List Nat := [0]
  let write_buf := write_buf.set 0 PI4IO_REG_OUT_SET
  let (_, read_buf, s) :=
    i2c_master_transmit_receive Dev.i2c_dev_handle_pi4ioe2 write_buf 1 read_buf 1 s
  let write_buf := write_buf.set 0 PI4IO_REG_OUT_SET
  let write_buf := write_buf.set 1 (read_buf.getD 0 0)
  let write_buf :=
    if en then write_buf.set 1 (clrbit (write_buf.getD 1 0) 5)
    else write_buf.set 1 (setbit (write_buf.getD 1 0) 5)
  (i2c_master_transmit Dev.i2c_dev_handle_pi4ioe2 write_buf 2 s).2

def bsp_set_charge_en (en : Bool) (s : Expander) : Expander :=
  let write_buf : List Nat := [0, 0]
  let read_buf : List Nat := [0]
  let write_buf := write_buf.set 0 PI4IO_REG_OUT_SET
  let (_, read_buf, s) :=
    i2c_master_transmit_receive Dev.i2c_dev_handle_pi4ioe2 write_buf 1 read_buf 1 s
  let write_buf := write_buf.set 0 PI4IO_REG_OUT_SET
  let write_buf := write_buf.set 1 (read_buf.getD 0 0)
  let write_buf :=
    if en then write_buf.set 1 (setbit (write_buf.getD 1 0) 7)
    else write_buf.set 1 (clrbit (write_buf.getD 1 0) 7)
  (i2c_master_transmit Dev.i2c_dev_handle_pi4ioe2 write_buf 2 s).2

def bsp_set_usb_5v_en (en : Bool) (s : Expander) : Expander :=
  let write_buf : List Nat := [0, 0]
  let read_buf : List Nat := [0]
  let write_buf := write_buf.set 0 PI4IO_REG_OUT_SET
  let (_, read_buf, s) :=
    i2c_master_transmit_receive Dev.i2c_dev_handle_pi4ioe2 write_buf 1 read_buf 1 s
  let write_buf := write_buf.set 0 PI4IO_REG_OUT_SET
  let write_buf := write_buf.set 1 (read_buf.getD 0 0)
  let write_buf :=
    if en then write_buf.set 1 (setbit (write_buf.getD 1 0) 3)
    else write_buf.set 1 (clrbit (write_buf.getD 1 0) 3)
  (i2c_master_transmit Dev.i2c_dev_handle_pi4ioe2 write_buf 2 s).2

def bsp_set_ext_5v_en (en : Bool) (s : Expander) : Expander :=
  let write_buf : List Nat := [0, 0]
  let read_buf : List Nat := [0]
  let write_buf := write_buf.set 0 PI4IO_REG_OUT_SET
  let (_, read_buf, s) :=
    i2c_master_transmit_receive Dev.i2c_dev_handle_pi4ioe1 write_buf 1 read_buf 1 s
  let write_buf := write_buf.set 0 PI4IO_REG_OUT_SET
  let write_buf := write_buf.set 1 (read_buf.getD 0 0)
  let write_buf :=
    if en then write_buf.set 1 (setbit (write_buf.getD 1 0) 2)
    else write_buf.set 1 (clrbit (write_buf.getD 1 0) 2)
  (i2c_master_transmit Dev.i2c_dev_handle_pi4ioe1 write_buf 2 s).2

def bsp_set_ext_antenna_enable (en : Bool) (s : Expander) : Expander :=
  let write_buf : List Nat := [0, 0]
  let read_buf : List Nat := [0]
  let write_buf := write_buf.set 0 PI4IO_REG_OUT_SET
  let (_, read_buf, s) :=
    i2c_master_transmit_receive Dev.i2c_dev_handle_pi4ioe1 write_buf 1 read_buf 1 s
  let write_buf := write_buf.set 0 PI4IO_REG_OUT_SET
  let write_buf := write_buf.set 1 (read_buf.getD 0 0)
  let write_buf :=
    if en then write_buf.set 1 (setbit (write_buf.getD 1 0) 0)
    else write_buf.set 1 (clrbit (write_buf.getD 1 0) 0)
  (i2c_master_transmit Dev.i2c_dev_handle_pi4ioe1 write_buf 2 s).2

/-- The log line and the `printf` of the source have no effect on the model;
the trailing read of the output register is kept. -/
def bsp_set_wifi_power_enable (en : Bool) (s : Expander) : Expander :=
  let write_buf : List Nat := [0, 0]
  let read_buf : List Nat := [0]
  let write_buf := write_buf.set 0 PI4IO_REG_OUT_SET
  let (_, read_buf, s) :=
    i2c_master_transmit_receive Dev.i2c_dev_handle_pi4ioe2 write_buf 1 read_buf 1 s
  let write_buf := write_buf.set 0 PI4IO_REG_OUT_SET
  let write_buf := write_buf.set 1 (read_buf.getD 0 0)
  let write_buf :=
    if en then write_buf.set 1 (setbit (write_buf.getD 1 0) 0)
    else write_buf.set 1 (clrbit (write_buf.getD 1 0) 0)
  let (_, s) := i2c_master_transmit Dev.i2c_dev_handle_pi4ioe2 write_buf 2 s
  let write_buf := write_buf.set 0 PI4IO_REG_OUT_SET
  (i2c_master_transmit_receive Dev.i2c_dev_handle_pi4ioe2 write_buf 1 read_buf 1 s).2.2

def bsp_set_touchpad_power_en (en : Bool) (s : Expander) : Expander :=
  let write_buf : List Nat := [0, 0]
  let read_buf : List Nat := [0]
  let write_buf := write_buf.set 0 PI4IO_REG_OUT_SET
  let (_, read_buf, s) :=
    i2c_master_transmit_receive Dev.i2c_dev_handle_pi4ioe1 write_buf 1 read_buf 1 s
  let write_buf := write_buf.set 0 PI4IO_REG_OUT_SET
  let write_buf := write_buf.set 1 (read_buf.getD 0 0)
  let write_buf :=
    if en then write_buf.set 1 (setbit (write_buf.getD 1 0) 5)
    else write_buf.set 1 (clrbit (write_buf.getD 1 0) 5)
  (i2c_master_transmit Dev.i2c_dev_handle_pi4ioe1 write_buf 2 s).2

/-- The seven single-bit rail operations of the board. -/
inductive Rail where
  | charge_qc
  | charge
  | usb_5v
  | ext_5v
  | antenna
  | wifi_power
  | touchpad_power
deriving DecidableEq, Repr

/-- Dispatch from a rail name to the source function that drives it. -/
def set_rail : Rail → Bool → Expander → Expander
  | Rail.charge_qc => bsp_set_charge_qc_en
  | Rail.charge => bsp_set_charge_en
  | Rail.usb_5v => bsp_set_usb_5v_en
  | Rail.ext_5v => bsp_set_ext_5v_en
  | Rail.antenna => bsp_set_ext_antenna_enable
  | Rail.wifi_power => bsp_set_wifi_power_enable
  | Rail.touchpad_power => bsp_set_touchpad_power_en

/-- Chip column of the wiring table of the specification (section 4.3). -/
def wiring_chip : Rail → Dev
  | Rail.charge_qc => Dev.i2c_dev_handle_pi4ioe2
  | Rail.charge => Dev.i2c_dev_handle_pi4ioe2
  | Rail.usb_5v => Dev.i2c_dev_handle_pi4ioe2
  | Rail.ext_5v => Dev.i2c_dev_handle_pi4ioe1
  | Rail.antenna => Dev.i2c_dev_handle_pi4ioe1
  | Rail.wifi_power => Dev.i2c_dev_handle_pi4ioe2
  | Rail.touchpad_power => Dev.i2c_dev_handle_pi4ioe1

/-- Bit column of the wiring table of the specification (section 4.3). -/
def wiring_bit : Rail → Nat
  | Rail.charge_qc => 5
  | Rail.charge => 7
  | Rail.usb_5v => 3
  | Rail.ext_5v => 2
  | Rail.antenna => 0
  | Rail.wifi_power => 0
  | Rail.touchpad_power => 5

/-- Level of the rail's bit that switches the rail off: 0 for every rail
except charge-QC, whose bit is active low. -/
def off_level (r : Rail) : Bool := decide (r = Rail.charge_qc)

/-- Byte the wiring table asks a rail operation to write back, given the
byte `b` it read: the rail's bit forced to the requested level. -/
def rail_byte (r : Rail) (en : Bool) (b : Nat) : Nat :=
  if en = off_level r then clrbit b (wiring_bit r) else setbit b (wiring_bit r)

/-- Bus log entries a rail operation appends when its read returns: the read
of the output register, the write of byte `w`, and for the Wi-Fi rail the
trailing read. -/
def rail_trace (r : Rail) (w : Nat) : List I2cEvent :=
  [I2cEvent.transmit_receive (wiring_chip r) [PI4IO_REG_OUT_SET] 1,
   I2cEvent.transmit (wiring_chip r) [PI4IO_REG_OUT_SET, w]] ++
  (if r = Rail.wifi_power then
    [I2cEvent.transmit_receive (wiring_chip r) [PI4IO_REG_OUT_SET] 1] else [])

/-- A state of the simulated chips in which every transaction succeeds. -/
def Expander.healthy (regs : Dev → Nat → Nat) : Expander :=
  { regs := regs, outcome := fun _ => ESP_OK, count := 0, log := [] }

/-! ## I2C bus registry -/

/-- Clock sources of `i2c_clock_source_t` that the registry uses. -/
inductive i2c_clock_source_t where
  | I2C_CLK_SRC_DEFAULT
deriving DecidableEq, Repr

/-- Pin enumerator `GPIO_NUM_31` of the SDK type `gpio_num_t`, whose header is
not among the sources: enumerator `GPIO_NUM_n` is pin number `n`, as the grove
call site has it, which writes the literals `54` and `53` and comments them
`BSP_EXT_I2C_SCL` and `BSP_EXT_I2C_SDA`. -/
def GPIO_NUM_31 : Int := 31
/-- Pin enumerator `GPIO_NUM_32` of the SDK. -/
def GPIO_NUM_32 : Int := 32
/-- Pin enumerator `GPIO_NUM_53` of the SDK. -/
def GPIO_NUM_53 : Int := 53
/-- Pin enumerator `GPIO_NUM_54` of the SDK. -/
def GPIO_NUM_54 : Int := 54

def BSP_I2C_NUM : Int := 0
def BSP_I2C_SCL : Int := GPIO_NUM_32
def BSP_I2C_SDA : Int := GPIO_NUM_31
def BSP_EXT_I2C_NUM : Int := 1
def BSP_EXT_I2C_SCL : Int := GPIO_NUM_54
def BSP_EXT_I2C_SDA : Int := GPIO_NUM_53

/-- Fields of `i2c_master_bus_config_t` that the registry fills in. -/
structure i2c_master_bus_config_t where
  clk_source : i2c_clock_source_t
  i2c_port : Int
  scl_io_num : Int
  sda_io_num : Int
  enable_internal_pullup : Bool
deriving DecidableEq, Repr

/-- The three buses of the registry. A value of this type also stands for the
address of the bus's static handle variable (`&i2c_handle`,
`&ext_i2c_bus_handle`, `&grove_i2c_bus_handle`). -/
inductive Bus where
  | system
  | external
  | grove
deriving DecidableEq, Repr

/-- One call into the vendor bus driver, with its arguments. -/
inductive DriverCall where
  | new_master_bus (conf : i2c_master_bus_config_t) (ret_bus_handle : Bus)
  | del_master_bus (bus_handle : i2c_master_bus_handle_t)
deriving DecidableEq, Repr

/-- File-scope statics of the three buses together with the vendor bus
driver: `live` lists the handles the driver has created and not deleted, each
with the variable it was returned through; `next_handle` is the next fresh
handle; `outcome n` is the status code of driver call number `n`; `calls` is
the log of driver calls. -/
structure BusState where
  i2c_initialized : Bool
  i2c_handle : i2c_master_bus_handle_t
  ext_i2c_initialized : Bool
  ext_i2c_bus_handle : i2c_master_bus_handle_t
  grove_i2c_initialized : Bool
  grove_i2c_bus_handle : i2c_master_bus_handle_t
  live : List (Nat × Bus)
  next_handle : Nat
  outcome : Nat → esp_err_t
  calls : List DriverCall

/-- State at program start: the initialisers of the statics, no live bus. -/
def BusState.boot (outcome : Nat → esp_err_t) : BusState :=
  { i2c_initialized := false, i2c_handle := none,
    ext_i2c_initialized := false, ext_i2c_bus_handle := none,
    grove_i2c_initialized := false, grove_i2c_bus_handle := none,
    live := [], next_handle := 1, outcome := outcome, calls := [] }

/-- Assignment through the out-pointer of `i2c_new_master_bus`. -/
def BusState.store (s : BusState) (ret_bus_handle : Bus) (h : i2c_master_bus_handle_t) :
    BusState :=
  match ret_bus_handle with
  | Bus.system => { s with i2c_handle := h }
  | Bus.external => { s with ext_i2c_bus_handle := h }
  | Bus.grove => { s with grove_i2c_bus_handle := h }

/-- Vendor call `i2c_new_master_bus(&conf, ret_bus_handle)`: on success a fresh
handle becomes live and is stored through `ret_bus_handle`; on failure the
variable is left as it was. -/
def i2c_new_master_bus (conf : i2c_master_bus_config_t) (ret_bus_handle : Bus)
    (s : BusState) : esp_err_t × BusState :=
  let r := s.outcome s.calls.length
  let s1 : BusState := { s with calls := s.calls ++ [DriverCall.new_master_bus conf ret_bus_handle] }
  if r = ESP_OK then
    (ESP_OK, ({ s1 with live := s1.live ++ [(s1.next_handle, ret_bus_handle)],
                         next_handle := s1.next_handle + 1 }).store ret_bus_handle
                (some s1.next_handle))
  else (r, s1)

/-- Vendor call `i2c_del_master_bus(bus_handle)`: on success the handle is no
longer live. -/
def i2c_del_master_bus (bus_handle : i2c_master_bus_handle_t) (s : BusState) :
    esp_err_t × BusState :=
  let r := s.outcome s.calls.length
  let s1 : BusState := { s with calls := s.calls ++ [DriverCall.del_master_bus bus_handle] }
  if r = ESP_OK then
    (ESP_OK, { s1 with live := s1.live.filter (fun p => some p.1 != bus_handle) })
  else (r, s1)

/-- Modelled from the spec: the macro `BSP_ERROR_CHECK_RETURN_ERR` of
`bsp_err_check.h`, a header of this component that is not among the sources.
The specification has a failed driver call propagate its error code unchanged
to the caller ("fails with a driver-level error if creation fails"), so the
macro makes the enclosing function return `x` at once when `x` is not
`ESP_OK`: the result is `some x` for that early return and `none` to go on. -/
def BSP_ERROR_CHECK_RETURN_ERR (x : esp_err_t) : Option esp_err_t :=
  if x ≠ ESP_OK then some x else none

def bsp_i2c_init (s : BusState) : esp_err_t × BusState :=
  if s.i2c_initialized then (ESP_OK, s)
  else
    let i2c_bus_conf : i2c_master_bus_config_t :=
      { clk_source := i2c_clock_source_t.I2C_CLK_SRC_DEFAULT,
        sda_io_num := BSP_I2C_SDA,
        scl_io_num := BSP_I2C_SCL,
        i2c_port := BSP_I2C_NUM,
        enable_internal_pullup := true }
    let (rc, s) := i2c_new_master_bus i2c_bus_conf Bus.system s
    match BSP_ERROR_CHECK_RETURN_ERR rc with
    | some e => (e, s)
    | none => (ESP_OK, { s with i2c_initialized := true })

def bsp_i2c_deinit (s : BusState) : esp_err_t × BusState :=
  let (rc, s) := i2c_del_master_bus s.i2c_handle s
  match BSP_ERROR_CHECK_RETURN_ERR rc with
  | some e => (e, s)
  | none => (ESP_OK, { s with i2c_initialized := false })

def bsp_i2c_get_handle (s : BusState) : i2c_master_bus_handle_t × BusState :=
  (s.i2c_handle, s)

def bsp_ext_i2c_init (s : BusState) : esp_err_t × BusState :=
  if s.ext_i2c_initialized then (ESP_OK, s)
  else
    let i2c_mst_config : i2c_master_bus_config_t :=
      { clk_source := i2c_clock_source_t.I2C_CLK_SRC_DEFAULT,
        i2c_port := BSP_EXT_I2C_NUM,
        scl_io_num := BSP_EXT_I2C_SCL,
        sda_io_num := BSP_EXT_I2C_SDA,
        enable_internal_pullup := true }
    let (_, s) := i2c_new_master_bus i2c_mst_config Bus.external s
    (ESP_OK, { s with ext_i2c_initialized := true })

def bsp_ext_i2c_deinit (s : BusState) : esp_err_t × BusState :=
  let s := { s with ext_i2c_initialized := false }
  i2c_del_master_bus s.ext_i2c_bus_handle s

def bsp_ext_i2c_get_handle (s : BusState) : i2c_master_bus_handle_t × BusState :=
  (s.ext_i2c_bus_handle, s)

def bsp_grove_i2c_init (s : BusState) : esp_err_t × BusState :=
  if s.grove_i2c_initialized then (ESP_OK, s)
  else
    let i2c_mst_config : i2c_master_bus_config_t :=
      { clk_source := i2c_clock_source_t.I2C_CLK_SRC_DEFAULT,
        i2c_port := BSP_EXT_I2C_NUM,
        scl_io_num := 54,
        sda_io_num := 53,
        enable_internal_pullup := true }
    let (_, s) := i2c_new_master_bus i2c_mst_config Bus.grove s
    (ESP_OK, { s with grove_i2c_initialized := true })

def bsp_grove_i2c_deinit (s : BusState) : esp_err_t × BusState :=
  let s := { s with grove_i2c_initialized := false }
  i2c_del_master_bus s.grove_i2c_bus_handle s

def bsp_grove_i2c_get_handle (s : BusState) : i2c_master_bus_handle_t × BusState :=
  (s.grove_i2c_bus_handle, s)

/-- Dispatch from a bus to its init function. -/
def bus_init : Bus → BusState → esp_err_t × BusState
  | Bus.system => bsp_i2c_init
  | Bus.external => bsp_ext_i2c_init
  | Bus.grove => bsp_grove_i2c_init

/-- Dispatch from a bus to its deinit function. -/
def bus_deinit : Bus → BusState → esp_err_t × BusState
  | Bus.system => bsp_i2c_deinit
  | Bus.external => bsp_ext_i2c_deinit
  | Bus.grove => bsp_grove_i2c_deinit

/-- Dispatch from a bus to its get-handle function. -/
def bus_get_handle : Bus → BusState → i2c_master_bus_handle_t × BusState
  | Bus.system => bsp_i2c_get_handle
  | Bus.external => bsp_ext_i2c_get_handle
  | Bus.grove => bsp_grove_i2c_get_handle

/-- The initialized flag of a bus. -/
def BusState.initialized (s : BusState) : Bus → Bool
  | Bus.system => s.i2c_initialized
  | Bus.external => s.ext_i2c_initialized
  | Bus.grove => s.grove_i2c_initialized

/-- The cached handle of a bus. -/
def BusState.handle (s : BusState) : Bus → i2c_master_bus_handle_t
  | Bus.system => s.i2c_handle
  | Bus.external => s.ext_i2c_bus_handle
  | Bus.grove => s.grove_i2c_bus_handle

/-- Live handles that were created by the init of bus `b`. -/
def BusState.live_of (s : BusState) (b : Bus) : List Nat :=
  (s.live.filter (fun p => p.2 = b)).map (fun p => p.1)

/-- A call of the registry made by a client. -/
inductive BusOp where
  | init (b : Bus)
  | deinit (b : Bus)
deriving DecidableEq, Repr

/-- Run one registry call, dropping its status code. -/
def BusOp.step : BusOp → BusState → BusState
  | BusOp.init b, s => (bus_init b s).2
  | BusOp.deinit b, s => (bus_deinit b s).2

/-- Run a finite sequence of registry calls from left to right. -/
def run_ops (ops : List BusOp) (s : BusState) : BusState :=
  ops.foldl (fun st op => op.step st) s

/-- The configuration that the init of bus `b` hands to the driver, read off
the driver log of an init run from the boot state. -/
def init_config (b : Bus) : Option i2c_master_bus_config_t :=
  match (bus_init b (BusState.boot (fun _ => ESP_OK))).2.calls with
  | [DriverCall.new_master_bus conf _] => some conf
  | _ => none

/-- Two bus configurations are distinguished by their pin/port constants. -/
@[reducible] def configs_differ (c d : i2c_master_bus_config_t) : Prop :=
  c.i2c_port ≠ d.i2c_port ∨ c.scl_io_num ≠ d.scl_io_num ∨ c.sda_io_num ≠ d.sda_io_num

/-- Invariant of the system bus: at most one live handle was created by
`bsp_i2c_init`, and such a handle is the cached one of an initialized bus. -/
def system_bus_inv (s : BusState) : Prop :=
  (s.live.filter (fun p => p.2 = Bus.system)).length ≤ 1 ∧
  ∀ n, (n, Bus.system) ∈ s.live → s.i2c_initialized = true ∧ s.i2c_handle = some n

/-! ## SD card -/

/-- Invalid-state value of `esp_err_t` in the SDK. -/
def ESP_ERR_INVALID_STATE : esp_err_t := 0x103

/-- Card pointer `sdmmc_card_t*`; `none` is the null pointer. -/
abbrev sdmmc_card_ptr := Option Nat

/-- Power control handle `sd_pwr_ctrl_handle_t`; `none` is the null pointer. -/
abbrev sd_pwr_ctrl_handle_t := Option Nat

/-- Mount point argument `char*`; `none` is the null pointer. -/
abbrev mount_point_t := Option String

def BSP_LDO_PROBE_SD_CHAN : Nat := 4
def BSP_LDO_PROBE_SD_VOLTAGE_MV : Nat := 3300
def SDMMC_BUS_WIDTH : Nat := 4

/-- Pin enumerator `GPIO_NUM_39` of the SDK. -/
def GPIO_NUM_39 : Int := 39
/-- Pin enumerator `GPIO_NUM_40` of the SDK. -/
def GPIO_NUM_40 : Int := 40
/-- Pin enumerator `GPIO_NUM_41` of the SDK. -/
def GPIO_NUM_41 : Int := 41
/-- Pin enumerator `GPIO_NUM_42` of the SDK. -/
def GPIO_NUM_42 : Int := 42
/-- Pin enumerator `GPIO_NUM_43` of the SDK. -/
def GPIO_NUM_43 : Int := 43
/-- Pin enumerator `GPIO_NUM_44` of the SDK. -/
def GPIO_NUM_44 : Int := 44

def GPIO_SDMMC_CLK : Int := GPIO_NUM_43
def GPIO_SDMMC_CMD : Int := GPIO_NUM_44
def GPIO_SDMMC_D0 : Int := GPIO_NUM_39
def GPIO_SDMMC_D1 : Int := GPIO_NUM_40
def GPIO_SDMMC_D2 : Int := GPIO_NUM_41
def GPIO_SDMMC_D3 : Int := GPIO_NUM_42

/-- Host slots of the SDK. -/
inductive sdmmc_host_slot_t where
  | SDMMC_HOST_SLOT_0
  | SDMMC_HOST_SLOT_1
deriving DecidableEq, Repr

/-- Card clock settings of the SDK. -/
inductive sdmmc_freq_t where
  | SDMMC_FREQ_DEFAULT
  | SDMMC_FREQ_HIGHSPEED
deriving DecidableEq, Repr

/-- Fields of `sdmmc_host_t` that `bsp_sdcard_init` assigns on top of
`SDMMC_HOST_DEFAULT()`. -/
structure sdmmc_host_t where
  slot : sdmmc_host_slot_t
  max_freq_khz : sdmmc_freq_t
  pwr_ctrl_handle : sd_pwr_ctrl_handle_t
deriving DecidableEq, Repr

/-- Fields of `sdmmc_slot_config_t` that `bsp_sdcard_init` assigns on top of
`SDMMC_SLOT_CONFIG_DEFAULT()`. -/
structure sdmmc_slot_config_t where
  width : Nat
  clk : Int
  cmd : Int
  d0 : Int
  d1 : Int
  d2 : Int
  d3 : Int
deriving DecidableEq, Repr

structure esp_vfs_fat_sdmmc_mount_config_t where
  format_if_mount_failed : Bool
  max_files : Nat
  allocation_unit_size : Nat
deriving DecidableEq, Repr

/-- One call into the vendor SD card and filesystem drivers, with its
arguments. -/
inductive SdCall where
  | sd_pwr_ctrl_new_on_chip_ldo (ldo_chan_id : Nat)
  | esp_vfs_fat_sdmmc_mount (mount_point : mount_point_t) (host : sdmmc_host_t)
      (slot_config : sdmmc_slot_config_t) (mount_config : esp_vfs_fat_sdmmc_mount_config_t)
  | sdmmc_card_print_info (card : sdmmc_card_ptr)
  | esp_vfs_fat_sdcard_unmount (mount_point : mount_point_t) (card : sdmmc_card_ptr)
deriving DecidableEq, Repr

/-- The SD card variables of the component together with the vendor drivers:
the public global `bsp_sdcard`, the file-private `card`, the function-static
`pwr_ctrl_handle` of `bsp_sdcard_init`; `outcome n` is the status code of
driver call number `n`, `calls` is the log of driver calls, `next_ptr` is the
next fresh pointer the drivers hand out. -/
structure SdState where
  bsp_sdcard : sdmmc_card_ptr
  card : sdmmc_card_ptr
  pwr_ctrl_handle : sd_pwr_ctrl_handle_t
  outcome : Nat → esp_err_t
  calls : List SdCall
  next_ptr : Nat

/-- State at program start: the three pointers are null. -/
def SdState.boot (outcome : Nat → esp_err_t) : SdState :=
  { bsp_sdcard := none, card := none, pwr_ctrl_handle := none,
    outcome := outcome, calls := [], next_ptr := 1 }

/-- Vendor call `sd_pwr_ctrl_new_on_chip_ldo(&ldo_config, &pwr_ctrl_handle)`:
on success a fresh handle is stored in `pwr_ctrl_handle`. -/
def sd_pwr_ctrl_new_on_chip_ldo (ldo_chan_id : Nat) (s : SdState) : esp_err_t × SdState :=
  let r := s.outcome s.calls.length
  let s1 : SdState := { s with calls := s.calls ++ [SdCall.sd_pwr_ctrl_new_on_chip_ldo ldo_chan_id] }
  if r = ESP_OK then
    (ESP_OK, { s1 with pwr_ctrl_handle := some s1.next_ptr, next_ptr := s1.next_ptr + 1 })
  else (r, s1)

/-- Vendor call `esp_vfs_fat_sdmmc_mount(mount_point, &host, &slot_config,
&mount_config, &card)`: on success a fresh card structure is stored in `card`;
on failure `card` is left as it was. -/
def esp_vfs_fat_sdmmc_mount (mount_point : mount_point_t) (host : sdmmc_host_t)
    (slot_config : sdmmc_slot_config_t) (mount_config : esp_vfs_fat_sdmmc_mount_config_t)
    (s : SdState) : esp_err_t × SdState :=
  let r := s.outcome s.calls.length
  let s1 : SdState :=
    { s with calls := s.calls ++
        [SdCall.esp_vfs_fat_sdmmc_mount mount_point host slot_config mount_config] }
  if r = ESP_OK then
    (ESP_OK, { s1 with card := some s1.next_ptr, next_ptr := s1.next_ptr + 1 })
  else (r, s1)

/-- Vendor call `sdmmc_card_print_info(stdout, card)`. -/
def sdmmc_card_print_info (card : sdmmc_card_ptr) (s : SdState) : SdState :=
  { s with calls := s.calls ++ [SdCall.sdmmc_card_print_info card] }

/-- Vendor call `esp_vfs_fat_sdcard_unmount(mount_point, card)`. -/
def esp_vfs_fat_sdcard_unmount (mount_point : mount_point_t) (card : sdmmc_card_ptr)
    (s : SdState) : esp_err_t × SdState :=
  (s.outcome s.calls.length,
    { s with calls := s.calls ++ [SdCall.esp_vfs_fat_sdcard_unmount mount_point card] })

/-- The error log lines of the source have no effect on the model. -/
def bsp_sdcard_init (mount_point : mount_point_t) (max_files : Nat) (s : SdState) :
    esp_err_t × SdState :=
  if s.card ≠ none then (ESP_ERR_INVALID_STATE, s)
  else
    let ldo_chan_id := BSP_LDO_PROBE_SD_CHAN
    let (ret_val, s) :=
      if s.pwr_ctrl_handle = none then sd_pwr_ctrl_new_on_chip_ldo ldo_chan_id s
      else (ESP_OK, s)
    if ret_val ≠ ESP_OK then (ret_val, s)
    else
      let host : sdmmc_host_t :=
        { slot := sdmmc_host_slot_t.SDMMC_HOST_SLOT_0,
          max_freq_khz := sdmmc_freq_t.SDMMC_FREQ_HIGHSPEED,
          pwr_ctrl_handle := s.pwr_ctrl_handle }
      let slot_config : sdmmc_slot_config_t :=
        { width := SDMMC_BUS_WIDTH,
          clk := GPIO_SDMMC_CLK,
          cmd := GPIO_SDMMC_CMD,
          d0 := GPIO_SDMMC_D0,
          d1 := GPIO_SDMMC_D1,
          d2 := GPIO_SDMMC_D2,
          d3 := GPIO_SDMMC_D3 }
      let mount_config : esp_vfs_fat_sdmmc_mount_config_t :=
        { format_if_mount_failed := false, max_files := max_files,
          allocation_unit_size := 16 * 1024 }
      let (ret_val, s) := esp_vfs_fat_sdmmc_mount mount_point host slot_config mount_config s
      if ret_val ≠ ESP_OK then (ret_val, s)
      else (ret_val, sdmmc_card_print_info s.card s)

def bsp_sdcard_deinit (mount_point : mount_point_t) (s : SdState) : esp_err_t × SdState :=
  if mount_point = none then (ESP_ERR_INVALID_STATE, s)
  else
    let (ret_val, s) := esp_vfs_fat_sdcard_unmount mount_point s.card s
    (ret_val, { s with card := none })

/-! ## Expander bring-up, detection and pulse sequences -/

/-- Pin enumerator `GPIO_NUM_23` of the SDK. -/
def GPIO_NUM_23 : Int := 23

/-- Vendor call `i2c_master_bus_add_device(bus_handle, &dev_config,
&ret_handle)`: the attachment takes its status code from the outcome function
like a transaction, and `ret_handle` names the handle variable it fills. -/
def i2c_master_bus_add_device (bus_handle : i2c_master_bus_handle_t)
    (dev_config : i2c_device_config_t) (ret_handle : Dev) (s : Expander) :
    esp_err_t × Expander :=
  (s.outcome s.count,
    { s with count := s.count + 1,
             log := s.log ++ [I2cEvent.bus_add_device bus_handle dev_config ret_handle] })

/-- Kernel call `vTaskDelay(xTicksToDelay)`: the calling task sleeps for that
many ticks of `portTICK_PERIOD_MS` milliseconds each. The tick period is a
constant of the kernel configuration, which is not among the sources, and is
a parameter here. -/
def vTaskDelay (portTICK_PERIOD_MS : Nat) (xTicksToDelay : Nat) (s : Expander) : Expander :=
  { s with log := s.log ++ [I2cEvent.delay_ms (xTicksToDelay * portTICK_PERIOD_MS)] }

/-- Driver call `gpio_reset_pin(gpio_num)`. -/
def gpio_reset_pin (gpio_num : Int) (s : Expander) : Expander :=
  { s with log := s.log ++ [I2cEvent.gpio_reset_pin gpio_num] }

/-- Modelled from the spec: the SDK macro `ESP_ERROR_CHECK`, whose header is
not among the sources. The specification has a failure of the bring-up abort
the whole board bring-up, so the macro aborts the program when `x` is not
`ESP_OK`: the result is `true` for the abort and `false` to go on. -/
def ESP_ERROR_CHECK (x : esp_err_t) : Bool := decide (x ≠ ESP_OK)

/-- How a run of a `void` function that may abort the program ends, with the
state of the bus at that point. -/
inductive Run where
  | returned (s : Expander)
  | aborted (s : Expander)

/-- The state of the bus at the end of a run. -/
def Run.state : Run → Expander
  | Run.returned s => s
  | Run.aborted s => s

/-- Whether the run ended by an abort. -/
def Run.is_aborted : Run → Bool
  | Run.returned _ => false
  | Run.aborted _ => true

def bsp_io_expander_pi4ioe_init (bus_handle : i2c_master_bus_handle_t) (s : Expander) : Run :=
  let write_buf : List Nat := [0, 0]
  let read_buf : List Nat := [0]
  let dev_cfg1 : i2c_device_config_t :=
    { dev_addr_length := i2c_addr_bit_len_t.I2C_ADDR_BIT_LEN_7,
      device_address := I2C_DEV_ADDR_PI4IOE1,
      scl_speed_hz := 400000 }
  let r := i2c_master_bus_add_device bus_handle dev_cfg1 Dev.i2c_dev_handle_pi4ioe1 s
  if ESP_ERROR_CHECK r.1 then Run.aborted r.2
  else
    let s := r.2
    let write_buf := write_buf.set 0 PI4IO_REG_CHIP_RESET
    let write_buf := write_buf.set 1 0xFF
    let s := (i2c_master_transmit Dev.i2c_dev_handle_pi4ioe1 write_buf 2 s).2
    let write_buf := write_buf.set 0 PI4IO_REG_CHIP_RESET
    let s := (i2c_master_transmit_receive Dev.i2c_dev_handle_pi4ioe1 write_buf 1
      read_buf 1 s).2.2
    let write_buf := write_buf.set 0 PI4IO_REG_IO_DIR
    let write_buf := write_buf.set 1 0b01111111
    let s := (i2c_master_transmit Dev.i2c_dev_handle_pi4ioe1 write_buf 2 s).2
    let write_buf := write_buf.set 0 PI4IO_REG_OUT_H_IM
    let write_buf := write_buf.set 1 0b00000000
    let s := (i2c_master_transmit Dev.i2c_dev_handle_pi4ioe1 write_buf 2 s).2
    let write_buf := write_buf.set 0 PI4IO_REG_PULL_SEL
    let write_buf := write_buf.set 1 0b01111111
    let s := (i2c_master_transmit Dev.i2c_dev_handle_pi4ioe1 write_buf 2 s).2
    let write_buf := write_buf.set 0 PI4IO_REG_PULL_EN
    let write_buf := write_buf.set 1 0b01111111
    let s := (i2c_master_transmit Dev.i2c_dev_handle_pi4ioe1 write_buf 2 s).2
    let write_buf := write_buf.set 0 PI4IO_REG_OUT_SET
    let write_buf := write_buf.set 1 0b01110110
    let s := (i2c_master_transmit Dev.i2c_dev_handle_pi4ioe1 write_buf 2 s).2
    let dev_cfg2 : i2c_device_config_t :=
      { dev_addr_length := i2c_addr_bit_len_t.I2C_ADDR_BIT_LEN_7,
        device_address := I2C_DEV_ADDR_PI4IOE2,
        scl_speed_hz := 400000 }
    let r := i2c_master_bus_add_device bus_handle dev_cfg2 Dev.i2c_dev_handle_pi4ioe2 s
    if ESP_ERROR_CHECK r.1 then Run.aborted r.2
    else
      let s := r.2
      let write_buf := write_buf.set 0 PI4IO_REG_CHIP_RESET
      let write_buf := write_buf.set 1 0xFF
      let s := (i2c_master_transmit Dev.i2c_dev_handle_pi4ioe2 write_buf 2 s).2
      let write_buf := write_buf.set 0 PI4IO_REG_CHIP_RESET
      let s := (i2c_master_transmit_receive Dev.i2c_dev_handle_pi4ioe2 write_buf 1
        read_buf 1 s).2.2
      let write_buf := write_buf.set 0 PI4IO_REG_IO_DIR
      let write_buf := write_buf.set 1 0b10111001
      let s := (i2c_master_transmit Dev.i2c_dev_handle_pi4ioe2 write_buf 2 s).2
      let write_buf := write_buf.set 0 PI4IO_REG_OUT_H_IM
      let write_buf := write_buf.set 1 0b00000110
      let s := (i2c_master_transmit Dev.i2c_dev_handle_pi4ioe2 write_buf 2 s).2
      let write_buf := write_buf.set 0 PI4IO_REG_PULL_SEL
      let write_buf := write_buf.set 1 0b10111001
      let s := (i2c_master_transmit Dev.i2c_dev_handle_pi4ioe2 write_buf 2 s).2
      let write_buf := write_buf.set 0 PI4IO_REG_PULL_EN
      let write_buf := write_buf.set 1 0b11111001
      let s := (i2c_master_transmit Dev.i2c_dev_handle_pi4ioe2 write_buf 2 s).2
      let write_buf := write_buf.set 0 PI4IO_REG_IN_DEF_STA
      let write_buf := write_buf.set 1 0b01000000
      let s := (i2c_master_transmit Dev.i2c_dev_handle_pi4ioe2 write_buf 2 s).2
      let write_buf := write_buf.set 0 PI4IO_REG_INT_MASK
      let write_buf := write_buf.set 1 0b10111111
      let s := (i2c_master_transmit Dev.i2c_dev_handle_pi4ioe2 write_buf 2 s).2
      let write_buf := write_buf.set 0 PI4IO_REG_OUT_SET
      let write_buf := write_buf.set 1 0b00001001
      let s := (i2c_master_transmit Dev.i2c_dev_handle_pi4ioe2 write_buf 2 s).2
      Run.returned s

/-- Body of the `for` loop of `bsp_generate_poweroff_signal`, run for the
remaining `n` iterations. -/
def poweroff_loop (portTICK_PERIOD_MS : Nat) : Nat → List Nat → Expander → Expander
  | 0, _, s => s
  | n + 1, write_buf, s =>
    let write_buf := write_buf.set 1 (setbit (write_buf.getD 1 0) 4)
    let s := (i2c_master_transmit Dev.i2c_dev_handle_pi4ioe2 write_buf 2 s).2
    let s := vTaskDelay portTICK_PERIOD_MS (100 / portTICK_PERIOD_MS) s
    let write_buf := write_buf.set 1 (clrbit (write_buf.getD 1 0) 4)
    let s := (i2c_master_transmit Dev.i2c_dev_handle_pi4ioe2 write_buf 2 s).2
    let s := vTaskDelay portTICK_PERIOD_MS (100 / portTICK_PERIOD_MS) s
    poweroff_loop portTICK_PERIOD_MS n write_buf s

/-- The warning log line of the source has no effect on the model. -/
def bsp_generate_poweroff_signal (portTICK_PERIOD_MS : Nat) (s : Expander) : Expander :=
  let write_buf : List Nat := [0, 0]
  let read_buf : List Nat := [0]
  let write_buf := write_buf.set 0 PI4IO_REG_OUT_SET
  let r := i2c_master_transmit_receive Dev.i2c_dev_handle_pi4ioe2 write_buf 1 read_buf 1 s
  let read_buf := r.2.1
  let s := r.2.2
  let write_buf := write_buf.set 1 (read_buf.getD 0 0)
  poweroff_loop portTICK_PERIOD_MS 3 write_buf s

def bsp_headphone_detect (s : Expander) : Bool × Expander :=
  let write_buf : List Nat := [0, 0]
  let read_buf : List Nat := [0]
  let write_buf := write_buf.set 0 PI4IO_REG_IN_STA
  let r := i2c_master_transmit_receive Dev.i2c_dev_handle_pi4ioe1 write_buf 1 read_buf 1 s
  let read_buf := r.2.1
  let s := r.2.2
  let ret := false
  let ret := if read_buf.getD 0 0 &&& 0b10000000 ≠ 0 then true else ret
  (ret, s)

def bsp_usb_c_detect (s : Expander) : Bool × Expander :=
  let write_buf : List Nat := [0, 0]
  let read_buf : List Nat := [0]
  let write_buf := write_buf.set 0 PI4IO_REG_IN_STA
  let r := i2c_master_transmit_receive Dev.i2c_dev_handle_pi4ioe2 write_buf 1 read_buf 1 s
  let read_buf := r.2.1
  let s := r.2.2
  let ret := false
  let ret := if read_buf.getD 0 0 &&& 0b01000000 ≠ 0 then true else ret
  (ret, s)

/-- The log lines of the source have no effect on the model. -/
def bsp_reset_tp (portTICK_PERIOD_MS : Nat) (s : Expander) : Expander :=
  let s := gpio_reset_pin GPIO_NUM_23 s
  let write_buf : List Nat := [0, 0]
  let read_buf : List Nat := [0]
  let write_buf := write_buf.set 0 PI4IO_REG_OUT_SET
  let r := i2c_master_transmit_receive Dev.i2c_dev_handle_pi4ioe1 write_buf 1 read_buf 1 s
  let read_buf := r.2.1
  let s := r.2.2
  let write_buf := write_buf.set 0 PI4IO_REG_OUT_SET
  let write_buf := write_buf.set 1 (read_buf.getD 0 0)
  let write_buf := write_buf.set 1 (clrbit (write_buf.getD 1 0) 4)
  let write_buf := write_buf.set 1 (clrbit (write_buf.getD 1 0) 5)
  let s := (i2c_master_transmit Dev.i2c_dev_handle_pi4ioe1 write_buf 2 s).2
  let s := vTaskDelay portTICK_PERIOD_MS (100 / portTICK_PERIOD_MS) s
  let write_buf := write_buf.set 0 PI4IO_REG_OUT_SET
  let write_buf := write_buf.set 1 (read_buf.getD 0 0)
  let write_buf := write_buf.set 1 (setbit (write_buf.getD 1 0) 4)
  let write_buf := write_buf.set 1 (setbit (write_buf.getD 1 0) 5)
  let s := (i2c_master_transmit Dev.i2c_dev_handle_pi4ioe1 write_buf 2 s).2
  vTaskDelay portTICK_PERIOD_MS (100 / portTICK_PERIOD_MS) s

/-- What the caller of a rail operation can observe of a call: the value
it returns, which is none since the functions are declared `void`, the
registers of the chips and the traffic on the bus. -/
def caller_view (r : Rail) (en : Bool) (s : Expander) :
    Unit × (Dev → Nat → Nat) × List I2cEvent :=
  ((), (set_rail r en s).regs, (set_rail r en s).log)

/-- Attachment of the expander with 7-bit address `addr` at 400 kHz, as it
shows on the bus log. -/
def attach_event (bus_handle : i2c_master_bus_handle_t) (addr : Nat) (d : Dev) : I2cEvent :=
  I2cEvent.bus_add_device bus_handle
    { dev_addr_length := i2c_addr_bit_len_t.I2C_ADDR_BIT_LEN_7, device_address := addr,
      scl_speed_hz := 400000 } d

/-- Register transactions of the bring-up on expander 1, in order. -/
def pi4ioe1_sequence : List I2cEvent :=
  [I2cEvent.transmit Dev.i2c_dev_handle_pi4ioe1 [0x01, 0xFF],
   I2cEvent.transmit_receive Dev.i2c_dev_handle_pi4ioe1 [0x01] 1,
   I2cEvent.transmit Dev.i2c_dev_handle_pi4ioe1 [0x03, 0b01111111],
   I2cEvent.transmit Dev.i2c_dev_handle_pi4ioe1 [0x07, 0b00000000],
   I2cEvent.transmit Dev.i2c_dev_handle_pi4ioe1 [0x0D, 0b01111111],
   I2cEvent.transmit Dev.i2c_dev_handle_pi4ioe1 [0x0B, 0b01111111],
   I2cEvent.transmit Dev.i2c_dev_handle_pi4ioe1 [0x05, 0b01110110]]

/-- Register transactions of the bring-up on expander 2, in order. -/
def pi4ioe2_sequence : List I2cEvent :=
  [I2cEvent.transmit Dev.i2c_dev_handle_pi4ioe2 [0x01, 0xFF],
   I2cEvent.transmit_receive Dev.i2c_dev_handle_pi4ioe2 [0x01] 1,
   I2cEvent.transmit Dev.i2c_dev_handle_pi4ioe2 [0x03, 0b10111001],
   I2cEvent.transmit Dev.i2c_dev_handle_pi4ioe2 [0x07, 0b00000110],
   I2cEvent.transmit Dev.i2c_dev_handle_pi4ioe2 [0x0D, 0b10111001],
   I2cEvent.transmit Dev.i2c_dev_handle_pi4ioe2 [0x0B, 0b11111001],
   I2cEvent.transmit Dev.i2c_dev_handle_pi4ioe2 [0x09, 0b01000000],
   I2cEvent.transmit Dev.i2c_dev_handle_pi4ioe2 [0x11, 0b10111111],
   I2cEvent.transmit Dev.i2c_dev_handle_pi4ioe2 [0x05, 0b00001001]]

/-- The transactions of a bus log that are addressed to chip `d`. -/
def events_to (d : Dev) (log : List I2cEvent) : List I2cEvent :=
  log.filter (fun e =>
    match e with
    | I2cEvent.transmit d1 _ => decide (d1 = d)
    | I2cEvent.transmit_receive d1 _ _ => decide (d1 = d)
    | _ => false)

/-- The per-chip sequence as the specification states it: reset write of
0xFF, read of the reset register, then one write each to the direction,
high-impedance, pull-select, pull-enable and output registers, and no other
transaction. -/
def spec_chip_sequence (d : Dev) (evs : List I2cEvent) : Prop :=
  ∃ dir him psel pen out, evs =
    [I2cEvent.transmit d [0x01, 0xFF],
     I2cEvent.transmit_receive d [0x01] 1,
     I2cEvent.transmit d [0x03, dir],
     I2cEvent.transmit d [0x07, him],
     I2cEvent.transmit d [0x0D, psel],
     I2cEvent.transmit d [0x0B, pen],
     I2cEvent.transmit d [0x05, out]]

/-- The value last written to register `reg` of chip `d` on a bus log. -/
def last_written (d : Dev) (reg : Nat) (log : List I2cEvent) : Option Nat :=
  (log.filterMap (fun e =>
    match e with
    | I2cEvent.transmit d1 [r, v] => if d1 = d ∧ r = reg then some v else none
    | _ => none)).getLast?

/-- The value that the bring-up writes to register `reg` of chip `d`, read off
the bus log of a bring-up in which every transaction succeeds. -/
def init_register_value (d : Dev) (reg : Nat) : Option Nat :=
  last_written d reg
    (bsp_io_expander_pi4ioe_init none (Expander.healthy (fun _ _ => 0))).state.log

/-- The pins that the comment above the write of the initial output value
names as driven high: for expander 1 the comment reads P1(SPK_EN),
P2(EXT5V_EN), P4(LCD_RST), P5(TP_RST), P6(CAM)RST, for expander 2 it reads
P0(WLAN_PWR_EN), P3(USB5V_EN), P7(CHG_EN). -/
def documented_high : Dev → List Nat
  | Dev.i2c_dev_handle_pi4ioe1 => [1, 2, 4, 5, 6]
  | Dev.i2c_dev_handle_pi4ioe2 => [0, 3, 7]

/-- First half of a rail operation, run as one step of a task: the
statements up to and including the read transaction. The result is the read
buffer, which is local to the task, and the new state of the bus. -/
def rail_read_step (r : Rail) (s : Expander) : List Nat × Expander :=
  let write_buf : List Nat := [0, 0]
  let read_buf : List Nat := [0]
  let write_buf := write_buf.set 0 PI4IO_REG_OUT_SET
  let res := i2c_master_transmit_receive (wiring_chip r) write_buf 1 read_buf 1 s
  (res.2.1, res.2.2)

/-- Second half of a rail operation, run as one step of a task: the
statements from the copy of the read buffer to the write transaction. -/
def rail_write_step (r : Rail) (en : Bool) (read_buf : List Nat) (s : Expander) : Expander :=
  let write_buf : List Nat := [PI4IO_REG_OUT_SET, 0]
  let write_buf := write_buf.set 0 PI4IO_REG_OUT_SET
  let write_buf := write_buf.set 1 (read_buf.getD 0 0)
  let write_buf := write_buf.set 1 (rail_byte r en (write_buf.getD 1 0))
  (i2c_master_transmit (wiring_chip r) write_buf 2 s).2

/-- Two tasks running a rail operation each, interleaved so that both reads
come before both writes: read of the first, read of the second, write of the
first, write of the second. -/
def reads_before_writes (r1 r2 : Rail) (en1 en2 : Bool) (s : Expander) : Expander :=
  let a := rail_read_step r1 s
  let b := rail_read_step r2 a.2
  let s := rail_write_step r1 en1 a.1 b.2
  rail_write_step r2 en2 b.1 s

/-! ## Display backlight -/

/-- Speed modes of `ledc_mode_t` that the backlight uses. -/
inductive ledc_mode_t where
  | LEDC_LOW_SPEED_MODE
deriving DecidableEq, Repr

/-- Channels of `ledc_channel_t`. -/
inductive ledc_channel_t where
  | LEDC_CHANNEL_0
  | LEDC_CHANNEL_1
deriving DecidableEq, Repr

def LCD_LEDC_CH : ledc_channel_t := ledc_channel_t.LEDC_CHANNEL_1

/-- One call into the vendor LEDC driver, with its arguments. -/
inductive LedcCall where
  | ledc_set_duty (speed_mode : ledc_mode_t) (channel : ledc_channel_t) (duty : Nat)
  | ledc_update_duty (speed_mode : ledc_mode_t) (channel : ledc_channel_t)
deriving DecidableEq, Repr

/-- The vendor LEDC driver: `outcome n` is the status code of driver call
number `n`, `calls` is the log of driver calls. -/
structure LedcState where
  outcome : Nat → esp_err_t
  calls : List LedcCall

/-- Vendor call `ledc_set_duty(speed_mode, channel, duty)`. -/
def ledc_set_duty (speed_mode : ledc_mode_t) (channel : ledc_channel_t) (duty : Nat)
    (s : LedcState) : esp_err_t × LedcState :=
  (s.outcome s.calls.length,
    { s with calls := s.calls ++ [LedcCall.ledc_set_duty speed_mode channel duty] })

/-- Vendor call `ledc_update_duty(speed_mode, channel)`. -/
def ledc_update_duty (speed_mode : ledc_mode_t) (channel : ledc_channel_t)
    (s : LedcState) : esp_err_t × LedcState :=
  (s.outcome s.calls.length,
    { s with calls := s.calls ++ [LedcCall.ledc_update_duty speed_mode channel] })

/-- Value of an `int` expression whose mathematical result is `x`: the result
taken modulo `2 ^ 32` into the range of a 32-bit signed integer. -/
def int32_wrap (x : Int) : Int := (x + 2 ^ 31) % 2 ^ 32 - 2 ^ 31

/-- Conversion of an `int` to `uint32_t`. -/
def uint32_of_int (x : Int) : Nat := (x % 2 ^ 32).toNat

/-- The log line of the source has no effect on the model. The product and
the quotient are computed in `int`, with the division of C that truncates
toward zero, and the result is converted to `uint32_t`. -/
def bsp_display_brightness_set (brightness_percent : Int) (s : LedcState) :
    esp_err_t × LedcState :=
  let brightness_percent := if brightness_percent > 100 then 100 else brightness_percent
  let brightness_percent := if brightness_percent < 0 then 0 else brightness_percent
  let duty_cycle : Nat := uint32_of_int (Int.tdiv (int32_wrap (4095 * brightness_percent)) 100)
  let r := ledc_set_duty ledc_mode_t.LEDC_LOW_SPEED_MODE LCD_LEDC_CH duty_cycle s
  match BSP_ERROR_CHECK_RETURN_ERR r.1 with
  | some e => (e, r.2)
  | none =>
    let r := ledc_update_duty ledc_mode_t.LEDC_LOW_SPEED_MODE LCD_LEDC_CH r.2
    match BSP_ERROR_CHECK_RETURN_ERR r.1 with
    | some e => (e, r.2)
    | none => (ESP_OK, r.2)

def bsp_display_backlight_off (s : LedcState) : esp_err_t × LedcState :=
  bsp_display_brightness_set 0 s

def bsp_display_backlight_on (s : LedcState) : esp_err_t × LedcState :=
  bsp_display_brightness_set 100 s

/-- A call of the SD card interface made by a client. -/
inductive SdOp where
  | init (mount_point : mount_point_t) (max_files : Nat)
  | deinit (mount_point : mount_point_t)

/-- Run one SD card call, dropping its status code. -/
def SdOp.step : SdOp → SdState → SdState
  | SdOp.init mount_point max_files, s => (bsp_sdcard_init mount_point max_files s).2
  | SdOp.deinit mount_point, s => (bsp_sdcard_deinit mount_point s).2

/-- Run a finite sequence of SD card calls from left to right. -/
def run_sd_ops (ops : List SdOp) (s : SdState) : SdState :=
  ops.foldl (fun st op => op.step st) s

/-! # Theorems -/

/-! ## Bit-level facts about `setbit` and `clrbit` -/

theorem testBit_byte_high {x i : Nat} (hx : x < 256) (hi : 8 ≤ i) : x.testBit i = false := by
  apply Nat.testBit_lt_two_pow
  calc x < 2 ^ 8 := hx
    _ ≤ 2 ^ i := Nat.pow_le_pow_right (by decide) hi

theorem setbit_lt (x y : Nat) : setbit x y < 256 := by
  unfold setbit
  exact Nat.mod_lt _ (by decide)

theorem clrbit_lt (x y : Nat) : clrbit x y < 256 := by
  unfold clrbit
  exact Nat.mod_lt _ (by decide)

theorem testBit_setbit {x y : Nat} (hx : x < 256) (hy : y < 8) (i : Nat) :
    (setbit x y).testBit i = (decide (i = y) || x.testBit i) := by
  unfold setbit
  change ((x ||| (1 <<< y)) % 2 ^ 8).testBit i = _
  rw [Nat.testBit_mod_two_pow, Nat.testBit_or, Nat.one_shiftLeft, Nat.testBit_two_pow]
  by_cases hi : i < 8
  · simp [hi, Bool.or_comm, eq_comm]
  · have h1 : x.testBit i = false := testBit_byte_high hx (by omega)
    have h2 : ¬ i = y := by omega
    simp [hi, h1, h2]

theorem testBit_clrbit {x y : Nat} (hx : x < 256) (i : Nat) :
    (clrbit x y).testBit i = (!decide (i = y) && x.testBit i) := by
  unfold clrbit int_not
  change ((x &&& ((2 ^ 32 - 1) ^^^ (1 <<< y))) % 2 ^ 8).testBit i = _
  rw [Nat.testBit_mod_two_pow, Nat.testBit_and, Nat.testBit_xor, Nat.one_shiftLeft,
    Nat.testBit_two_pow, Nat.testBit_two_pow_sub_one]
  by_cases hi : i < 8
  · have h32 : i < 32 := by omega
    by_cases hy2 : y = i
    · subst hy2; simp [hi, h32]
    · have : ¬ i = y := fun h => hy2 h.symm
      simp [hi, h32, hy2, this, Bool.and_comm]
  · have h1 : x.testBit i = false := testBit_byte_high hx (by omega)
    simp [hi, h1]

theorem wiring_bit_lt (r : Rail) : wiring_bit r < 8 := by
  cases r <;> decide

theorem rail_byte_lt (r : Rail) (en : Bool) (b : Nat) : rail_byte r en b < 256 := by
  unfold rail_byte
  split
  · exact clrbit_lt _ _
  · exact setbit_lt _ _

theorem testBit_rail_byte (r : Rail) (en : Bool) {b : Nat} (hb : b < 256) (i : Nat) :
    (rail_byte r en b).testBit i =
      if i = wiring_bit r then (en != off_level r) else b.testBit i := by
  unfold rail_byte
  by_cases h : en = off_level r
  · rw [if_pos h, testBit_clrbit hb]
    by_cases hi : i = wiring_bit r <;> simp [hi, h]
  · rw [if_neg h, testBit_setbit hb (wiring_bit_lt r)]
    by_cases hi : i = wiring_bit r
    · simp [hi, h]
    · simp [hi]

/-- Log of a rail operation whose read transaction succeeds (the write may
succeed or fail). -/
theorem set_rail_log (r : Rail) (en : Bool) (s : Expander)
    (hread : s.outcome s.count = ESP_OK) :
    (set_rail r en s).log =
      s.log ++ rail_trace r (rail_byte r en (s.regs (wiring_chip r) PI4IO_REG_OUT_SET)) := by
  cases r <;> cases en <;>
    simp [set_rail, bsp_set_charge_qc_en, bsp_set_charge_en, bsp_set_usb_5v_en,
      bsp_set_ext_5v_en, bsp_set_ext_antenna_enable, bsp_set_wifi_power_enable,
      bsp_set_touchpad_power_en, i2c_master_transmit, i2c_master_transmit_receive, hread,
      rail_trace, rail_byte, off_level, wiring_chip, wiring_bit, PI4IO_REG_OUT_SET] <;>
    split_ifs <;> simp

/-- The outcome function of the driver is never changed by a rail operation. -/
theorem set_rail_outcome (r : Rail) (en : Bool) (s : Expander) :
    (set_rail r en s).outcome = s.outcome := by
  cases r <;> cases en <;>
    simp [set_rail, bsp_set_charge_qc_en, bsp_set_charge_en, bsp_set_usb_5v_en,
      bsp_set_ext_5v_en, bsp_set_ext_antenna_enable, bsp_set_wifi_power_enable,
      bsp_set_touchpad_power_en, i2c_master_transmit, i2c_master_transmit_receive] <;>
    split_ifs <;> simp

/-- Register file after a rail operation whose read and write both succeed. -/
theorem set_rail_regs (r : Rail) (en : Bool) (s : Expander)
    (hread : s.outcome s.count = ESP_OK) (hwrite : s.outcome (s.count + 1) = ESP_OK) :
    (set_rail r en s).regs = fun d a =>
      if d = wiring_chip r ∧ a = PI4IO_REG_OUT_SET then
        rail_byte r en (s.regs (wiring_chip r) PI4IO_REG_OUT_SET)
      else s.regs d a := by
  cases r <;> cases en <;>
    simp [set_rail, bsp_set_charge_qc_en, bsp_set_charge_en, bsp_set_usb_5v_en,
      bsp_set_ext_5v_en, bsp_set_ext_antenna_enable, bsp_set_wifi_power_enable,
      bsp_set_touchpad_power_en, i2c_master_transmit, i2c_master_transmit_receive, hread,
      hwrite, rail_byte, off_level, wiring_chip, wiring_bit, PI4IO_REG_OUT_SET] <;>
    split_ifs <;> simp

/-- Output register of the targeted chip after `set_R(true)` followed by
`set_R(false)` when no transaction fails. -/
theorem toggle_regs (r : Rail) (s : Expander) (hok : ∀ n, s.outcome n = ESP_OK) :
    (set_rail r false (set_rail r true s)).regs (wiring_chip r) PI4IO_REG_OUT_SET =
      rail_byte r false (rail_byte r true (s.regs (wiring_chip r) PI4IO_REG_OUT_SET)) := by
  have h1 := set_rail_regs r true s (hok _) (hok _)
  have ho : ∀ n, (set_rail r true s).outcome n = ESP_OK := by
    intro n; rw [set_rail_outcome]; exact hok n
  rw [set_rail_regs r false _ (ho _) (ho _), h1]
  simp

/-! ## Claims on the rail operations -/

/-- C1 (as stated, refuted): with every transaction succeeding, USB 5V
enable(true) followed by enable(false) on an output register holding 0x08
leaves 0x00, so the round trip does not restore every initial byte. -/
theorem toggle_round_trip_refuted :
    ¬ (∀ (r : Rail) (s : Expander), (∀ n, s.outcome n = ESP_OK) →
        s.regs (wiring_chip r) PI4IO_REG_OUT_SET < 256 →
        (set_rail r false (set_rail r true s)).regs (wiring_chip r) PI4IO_REG_OUT_SET =
          s.regs (wiring_chip r) PI4IO_REG_OUT_SET) := by
  intro h
  have h1 := h Rail.usb_5v (Expander.healthy (fun _ _ => 0x08)) (fun _ => rfl) (by decide)
  rw [toggle_regs _ _ (fun _ => rfl)] at h1
  revert h1
  decide

/-- C1 (amended): with every transaction succeeding, `set_R(true)` followed by
`set_R(false)` leaves the output register of the targeted chip equal to the
initial byte `b` with the rail's bit at its off level (cleared, and set for
charge-QC) and the other bits as in `b`; the register equals `b` again exactly
when the rail's bit of `b` was at the off level before the calls. -/
theorem toggle_round_trip (r : Rail) (s : Expander) (hok : ∀ n, s.outcome n = ESP_OK)
    (hb : s.regs (wiring_chip r) PI4IO_REG_OUT_SET < 256) :
    (∀ i, ((set_rail r false (set_rail r true s)).regs (wiring_chip r)
              PI4IO_REG_OUT_SET).testBit i =
            if i = wiring_bit r then off_level r
            else (s.regs (wiring_chip r) PI4IO_REG_OUT_SET).testBit i) ∧
    ((set_rail r false (set_rail r true s)).regs (wiring_chip r) PI4IO_REG_OUT_SET =
        s.regs (wiring_chip r) PI4IO_REG_OUT_SET ↔
      (s.regs (wiring_chip r) PI4IO_REG_OUT_SET).testBit (wiring_bit r) = off_level r) := by
  have hbits : ∀ i, ((set_rail r false (set_rail r true s)).regs (wiring_chip r)
              PI4IO_REG_OUT_SET).testBit i =
            if i = wiring_bit r then off_level r
            else (s.regs (wiring_chip r) PI4IO_REG_OUT_SET).testBit i := by
    intro i
    rw [toggle_regs r s hok, testBit_rail_byte r false (rail_byte_lt _ _ _),
      testBit_rail_byte r true hb]
    by_cases hi : i = wiring_bit r
    · cases hoff : off_level r <;> simp [hi]
    · simp [hi]
  refine ⟨hbits, ?_, ?_⟩
  · intro heq
    have h := hbits (wiring_bit r)
    rw [heq] at h
    simpa using h
  · intro hbit
    apply Nat.eq_of_testBit_eq
    intro i
    rw [hbits i]
    by_cases hi : i = wiring_bit r
    · simp [hi, hbit]
    · simp [hi]

/-- Witness for C1 (amended): external 5V rail on a healthy chip whose output
register holds 0x76. -/
theorem toggle_round_trip_witness :
    (∀ i, ((set_rail Rail.ext_5v false (set_rail Rail.ext_5v true
              (Expander.healthy (fun _ _ => 0x76)))).regs (wiring_chip Rail.ext_5v)
              PI4IO_REG_OUT_SET).testBit i =
            if i = wiring_bit Rail.ext_5v then off_level Rail.ext_5v
            else ((Expander.healthy (fun _ _ => 0x76)).regs (wiring_chip Rail.ext_5v)
              PI4IO_REG_OUT_SET).testBit i) ∧
    ((set_rail Rail.ext_5v false (set_rail Rail.ext_5v true
          (Expander.healthy (fun _ _ => 0x76)))).regs (wiring_chip Rail.ext_5v)
          PI4IO_REG_OUT_SET =
        (Expander.healthy (fun _ _ => 0x76)).regs (wiring_chip Rail.ext_5v) PI4IO_REG_OUT_SET ↔
      ((Expander.healthy (fun _ _ => 0x76)).regs (wiring_chip Rail.ext_5v)
          PI4IO_REG_OUT_SET).testBit (wiring_bit Rail.ext_5v) = off_level Rail.ext_5v) :=
  toggle_round_trip Rail.ext_5v (Expander.healthy (fun _ _ => 0x76)) (fun _ => rfl)
    (by decide)

/-- C2: when the read of expander-2's output register (0x05) returns byte `b`,
`bsp_set_charge_qc_en(true)` transmits `b` with bit 5 cleared and
`bsp_set_charge_qc_en(false)` transmits `b` with bit 5 set, the other bits
being those of `b`; every other rail operation called with `true` transmits
the byte it read with its own bit set. -/
theorem charge_qc_polarity_inverted (s : Expander) (hread : s.outcome s.count = ESP_OK)
    (hb : s.regs Dev.i2c_dev_handle_pi4ioe2 0x05 < 256) :
    (∀ en : Bool, ∃ w,
      (bsp_set_charge_qc_en en s).log =
        s.log ++ [I2cEvent.transmit_receive Dev.i2c_dev_handle_pi4ioe2 [0x05] 1,
                  I2cEvent.transmit Dev.i2c_dev_handle_pi4ioe2 [0x05, w]] ∧
      ∀ i, w.testBit i =
        if i = 5 then !en else (s.regs Dev.i2c_dev_handle_pi4ioe2 0x05).testBit i) ∧
    (∀ (r : Rail) (t : Expander), r ≠ Rail.charge_qc → t.outcome t.count = ESP_OK →
      t.regs (wiring_chip r) 0x05 < 256 → ∃ w,
        (set_rail r true t).log = t.log ++ rail_trace r w ∧
        ∀ i, w.testBit i =
          if i = wiring_bit r then true else (t.regs (wiring_chip r) 0x05).testBit i) := by
  constructor
  · intro en
    refine ⟨rail_byte Rail.charge_qc en (s.regs Dev.i2c_dev_handle_pi4ioe2 0x05), ?_, ?_⟩
    · have h := set_rail_log Rail.charge_qc en s hread
      simpa [set_rail, rail_trace, wiring_chip, PI4IO_REG_OUT_SET] using h
    · intro i
      have h := testBit_rail_byte Rail.charge_qc en hb i
      simpa [wiring_bit, off_level] using h
  · intro r t hr hread' hb'
    refine ⟨rail_byte r true (t.regs (wiring_chip r) 0x05), set_rail_log r true t hread', ?_⟩
    intro i
    rw [testBit_rail_byte r true hb' i]
    have hoff : off_level r = false := by simp [off_level, hr]
    simp [hoff]

/-- Witness for C2: a healthy expander 2 whose output register holds 0x29. -/
theorem charge_qc_polarity_inverted_witness :
    (∀ en : Bool, ∃ w,
      (bsp_set_charge_qc_en en (Expander.healthy (fun _ _ => 0x29))).log =
        (Expander.healthy (fun _ _ => 0x29)).log ++
          [I2cEvent.transmit_receive Dev.i2c_dev_handle_pi4ioe2 [0x05] 1,
           I2cEvent.transmit Dev.i2c_dev_handle_pi4ioe2 [0x05, w]] ∧
      ∀ i, w.testBit i =
        if i = 5 then !en
        else ((Expander.healthy (fun _ _ => 0x29)).regs
          Dev.i2c_dev_handle_pi4ioe2 0x05).testBit i) ∧
    (∀ (r : Rail) (t : Expander), r ≠ Rail.charge_qc → t.outcome t.count = ESP_OK →
      t.regs (wiring_chip r) 0x05 < 256 → ∃ w,
        (set_rail r true t).log = t.log ++ rail_trace r w ∧
        ∀ i, w.testBit i =
          if i = wiring_bit r then true else (t.regs (wiring_chip r) 0x05).testBit i) :=
  charge_qc_polarity_inverted (Expander.healthy (fun _ _ => 0x29)) rfl (by decide)

/-- C3: for each non-inverted rail operation, bound to its (chip, bit) pair
of the wiring table, and every byte `b` returned by the read of that chip's
output register, the operation transmits to register 0x05 of the same chip the
byte `b` with that bit set when `en` is true and cleared when `en` is false,
all other bits as in `b`; when the write succeeds the register holds that
byte. -/
theorem set_rail_writes_wired_bit (r : Rail) (en : Bool) (s : Expander)
    (hr : r ≠ Rail.charge_qc) (hread : s.outcome s.count = ESP_OK)
    (hb : s.regs (wiring_chip r) 0x05 < 256) :
    ∃ w, (set_rail r en s).log = s.log ++ rail_trace r w ∧
      (∀ i, w.testBit i =
        if i = wiring_bit r then en else (s.regs (wiring_chip r) 0x05).testBit i) ∧
      (s.outcome (s.count + 1) = ESP_OK → (set_rail r en s).regs (wiring_chip r) 0x05 = w) := by
  refine ⟨rail_byte r en (s.regs (wiring_chip r) 0x05), set_rail_log r en s hread, ?_, ?_⟩
  · intro i
    rw [testBit_rail_byte r en hb i]
    have hoff : off_level r = false := by simp [off_level, hr]
    simp [hoff]
  · intro hwrite
    rw [set_rail_regs r en s hread hwrite]
    simp [PI4IO_REG_OUT_SET]

/-- Witness for C3: touchpad power switched off on a healthy expander 1 whose
output register holds 0x76. -/
theorem set_rail_writes_wired_bit_witness :
    ∃ w, (set_rail Rail.touchpad_power false (Expander.healthy (fun _ _ => 0x76))).log =
        (Expander.healthy (fun _ _ => 0x76)).log ++ rail_trace Rail.touchpad_power w ∧
      (∀ i, w.testBit i =
        if i = wiring_bit Rail.touchpad_power then false
        else ((Expander.healthy (fun _ _ => 0x76)).regs
          (wiring_chip Rail.touchpad_power) 0x05).testBit i) ∧
      ((Expander.healthy (fun _ _ => 0x76)).outcome
          ((Expander.healthy (fun _ _ => 0x76)).count + 1) = ESP_OK →
        (set_rail Rail.touchpad_power false (Expander.healthy (fun _ _ => 0x76))).regs
          (wiring_chip Rail.touchpad_power) 0x05 = w) :=
  set_rail_writes_wired_bit Rail.touchpad_power false (Expander.healthy (fun _ _ => 0x76))
    (by decide) rfl (by decide)

/-! ## Bus registry: effect of one call -/

/-- An init that returns `ESP_OK` leaves the bus marked initialized. -/
theorem bus_init_ok_sets_flag (b : Bus) (s : BusState) (h : (bus_init b s).1 = ESP_OK) :
    (bus_init b s).2.initialized b = true := by
  cases b
  · by_cases hi : s.i2c_initialized = true
    · simp [bus_init, bsp_i2c_init, hi, BusState.initialized]
    · by_cases ho : s.outcome s.calls.length = ESP_OK
      · simp [bus_init, bsp_i2c_init, hi, i2c_new_master_bus, ho, BSP_ERROR_CHECK_RETURN_ERR,
          BusState.initialized]
      · simp [bus_init, bsp_i2c_init, hi, i2c_new_master_bus, ho,
          BSP_ERROR_CHECK_RETURN_ERR] at h
  · by_cases hi : s.ext_i2c_initialized = true
    · simp [bus_init, bsp_ext_i2c_init, hi, BusState.initialized]
    · simp [bus_init, bsp_ext_i2c_init, hi, BusState.initialized]
  · by_cases hi : s.grove_i2c_initialized = true
    · simp [bus_init, bsp_grove_i2c_init, hi, BusState.initialized]
    · simp [bus_init, bsp_grove_i2c_init, hi, BusState.initialized]

/-- An init on a bus that is marked initialized returns `ESP_OK` and changes
nothing. -/
theorem bus_init_of_initialized (b : Bus) (s : BusState) (h : s.initialized b = true) :
    bus_init b s = (ESP_OK, s) := by
  cases b <;>
    simp_all [bus_init, bsp_i2c_init, bsp_ext_i2c_init, bsp_grove_i2c_init,
      BusState.initialized]

/-- An init on a bus that is not marked initialized makes exactly one driver
call, the bus creation with the configuration `init_config` reports. -/
theorem bus_init_calls (b : Bus) (s : BusState) (h : s.initialized b = false) :
    ∃ conf, init_config b = some conf ∧
      (bus_init b s).2.calls = s.calls ++ [DriverCall.new_master_bus conf b] := by
  cases b
  · refine ⟨_, rfl, ?_⟩
    by_cases ho : s.outcome s.calls.length = ESP_OK <;>
      simp_all [bus_init, bsp_i2c_init, i2c_new_master_bus, BSP_ERROR_CHECK_RETURN_ERR,
        BusState.initialized, BusState.store, BusState.boot]
  · refine ⟨_, rfl, ?_⟩
    by_cases ho : s.outcome s.calls.length = ESP_OK <;>
      simp_all [bus_init, bsp_ext_i2c_init, i2c_new_master_bus,
        BusState.initialized, BusState.store, BusState.boot]
  · refine ⟨_, rfl, ?_⟩
    by_cases ho : s.outcome s.calls.length = ESP_OK <;>
      simp_all [bus_init, bsp_grove_i2c_init, i2c_new_master_bus,
        BusState.initialized, BusState.store, BusState.boot]

/-- No deinit touches the cached handle of its bus. -/
theorem bus_deinit_handle (b : Bus) (s : BusState) :
    (bus_deinit b s).2.handle b = s.handle b := by
  cases b
  · by_cases ho : s.outcome s.calls.length = ESP_OK <;>
      simp [bus_deinit, bsp_i2c_deinit, i2c_del_master_bus, ho, BSP_ERROR_CHECK_RETURN_ERR,
        BusState.handle]
  · by_cases ho : s.outcome s.calls.length = ESP_OK <;>
      simp [bus_deinit, bsp_ext_i2c_deinit, i2c_del_master_bus, ho, BusState.handle]
  · by_cases ho : s.outcome s.calls.length = ESP_OK <;>
      simp [bus_deinit, bsp_grove_i2c_deinit, i2c_del_master_bus, ho, BusState.handle]

/-- A deinit that returns `ESP_OK` leaves the bus marked not initialized. -/
theorem bus_deinit_ok_clears_flag (b : Bus) (s : BusState)
    (h : (bus_deinit b s).1 = ESP_OK) : (bus_deinit b s).2.initialized b = false := by
  cases b
  · by_cases ho : s.outcome s.calls.length = ESP_OK
    · simp [bus_deinit, bsp_i2c_deinit, i2c_del_master_bus, ho, BSP_ERROR_CHECK_RETURN_ERR,
        BusState.initialized]
    · simp [bus_deinit, bsp_i2c_deinit, i2c_del_master_bus, ho,
        BSP_ERROR_CHECK_RETURN_ERR] at h
  · by_cases ho : s.outcome s.calls.length = ESP_OK <;>
      simp [bus_deinit, bsp_ext_i2c_deinit, i2c_del_master_bus, ho, BusState.initialized]
  · by_cases ho : s.outcome s.calls.length = ESP_OK <;>
      simp [bus_deinit, bsp_grove_i2c_deinit, i2c_del_master_bus, ho, BusState.initialized]

/-- On the system bus a failed bus deletion makes deinit return the driver's
error code and leaves the statics as they were. -/
theorem bsp_i2c_deinit_failure (s : BusState) (ho : s.outcome s.calls.length ≠ ESP_OK) :
    bsp_i2c_deinit s =
      (s.outcome s.calls.length,
        { s with calls := s.calls ++ [DriverCall.del_master_bus s.i2c_handle] }) := by
  simp [bsp_i2c_deinit, i2c_del_master_bus, ho, BSP_ERROR_CHECK_RETURN_ERR]

/-- On the system bus a failed bus creation makes init return the driver's
error code and leaves the bus not initialized. -/
theorem bsp_i2c_init_failure (s : BusState) (hi : s.i2c_initialized = false)
    (ho : s.outcome s.calls.length ≠ ESP_OK) :
    (bsp_i2c_init s).1 = s.outcome s.calls.length ∧
      (bsp_i2c_init s).2.i2c_initialized = false ∧
      (bsp_i2c_init s).2.i2c_handle = s.i2c_handle := by
  simp [bsp_i2c_init, hi, i2c_new_master_bus, ho, BSP_ERROR_CHECK_RETURN_ERR]

/-! ## Claims on the bus registry -/

/-- C4 (as stated, refuted): on the system bus, when the driver's bus creation
fails, the first of two consecutive init calls does not return `ESP_OK` and
the second one calls the driver again. -/
theorem init_twice_refuted :
    ¬ (∀ (b : Bus) (s : BusState),
        (bus_init b s).1 = ESP_OK ∧ (bus_init b (bus_init b s).2).1 = ESP_OK ∧
        (bus_init b (bus_init b s).2).2.calls = (bus_init b s).2.calls ∧
        (bus_init b (bus_init b s).2).2.handle b = (bus_init b s).2.handle b ∧
        (bus_init b (bus_init b s).2).2.initialized b = (bus_init b s).2.initialized b) := by
  intro h
  have h1 := (h Bus.system (BusState.boot (fun _ => ESP_FAIL))).1
  revert h1
  decide

/-- C4 (amended): for each of the three buses, if init is called twice with no
deinit in between and the first call returns `ESP_OK`, then the second call
returns `ESP_OK`, makes no driver call and leaves the cached handle, the
initialized flag and every other part of the state unchanged. -/
theorem init_twice_idempotent (b : Bus) (s : BusState) (h : (bus_init b s).1 = ESP_OK) :
    (bus_init b (bus_init b s).2).1 = ESP_OK ∧
    (bus_init b (bus_init b s).2).2.calls = (bus_init b s).2.calls ∧
    (bus_init b (bus_init b s).2).2.handle b = (bus_init b s).2.handle b ∧
    (bus_init b (bus_init b s).2).2.initialized b = (bus_init b s).2.initialized b ∧
    (bus_init b (bus_init b s).2).2 = (bus_init b s).2 := by
  have h2 := bus_init_of_initialized b (bus_init b s).2 (bus_init_ok_sets_flag b s h)
  rw [h2]
  simp

/-- Witness for C4 (amended): the system bus from the boot state with a driver
that succeeds. -/
theorem init_twice_idempotent_witness :
    (bus_init Bus.system (bus_init Bus.system (BusState.boot (fun _ => ESP_OK))).2).1
        = ESP_OK ∧
    (bus_init Bus.system (bus_init Bus.system (BusState.boot (fun _ => ESP_OK))).2).2.calls
        = (bus_init Bus.system (BusState.boot (fun _ => ESP_OK))).2.calls ∧
    (bus_init Bus.system
        (bus_init Bus.system (BusState.boot (fun _ => ESP_OK))).2).2.handle Bus.system
        = (bus_init Bus.system (BusState.boot (fun _ => ESP_OK))).2.handle Bus.system ∧
    (bus_init Bus.system
        (bus_init Bus.system (BusState.boot (fun _ => ESP_OK))).2).2.initialized Bus.system
        = (bus_init Bus.system (BusState.boot (fun _ => ESP_OK))).2.initialized Bus.system ∧
    (bus_init Bus.system (bus_init Bus.system (BusState.boot (fun _ => ESP_OK))).2).2
        = (bus_init Bus.system (BusState.boot (fun _ => ESP_OK))).2 :=
  init_twice_idempotent Bus.system (BusState.boot (fun _ => ESP_OK)) (by decide)

/-- C5 (code evaluated at the failing input): from the boot state with a
driver whose bus creation fails with `ESP_FAIL`, `bsp_ext_i2c_init` and
`bsp_grove_i2c_init` call the bus creation, return `ESP_OK` and mark the bus
initialized with a null handle, whereas `bsp_i2c_init` returns `ESP_FAIL` and
leaves its bus not initialized. -/
theorem ext_grove_init_drop_creation_error :
    ((bsp_ext_i2c_init (BusState.boot (fun _ => ESP_FAIL))).1 = ESP_OK ∧
      (bsp_ext_i2c_init (BusState.boot (fun _ => ESP_FAIL))).2.calls.length = 1 ∧
      (bsp_ext_i2c_init (BusState.boot (fun _ => ESP_FAIL))).2.ext_i2c_initialized = true ∧
      (bsp_ext_i2c_init (BusState.boot (fun _ => ESP_FAIL))).2.ext_i2c_bus_handle = none) ∧
    ((bsp_grove_i2c_init (BusState.boot (fun _ => ESP_FAIL))).1 = ESP_OK ∧
      (bsp_grove_i2c_init (BusState.boot (fun _ => ESP_FAIL))).2.calls.length = 1 ∧
      (bsp_grove_i2c_init (BusState.boot (fun _ => ESP_FAIL))).2.grove_i2c_initialized = true ∧
      (bsp_grove_i2c_init (BusState.boot (fun _ => ESP_FAIL))).2.grove_i2c_bus_handle = none) ∧
    ((bsp_i2c_init (BusState.boot (fun _ => ESP_FAIL))).1 = ESP_FAIL ∧
      (bsp_i2c_init (BusState.boot (fun _ => ESP_FAIL))).2.i2c_initialized = false) := by
  decide

/-- C6 (as stated, refuted): on the system bus, after a successful init and a
successful deinit from the boot state, get_handle returns the handle the
driver created, not the null handle. -/
theorem deinit_clears_handle_refuted :
    ¬ (∀ (b : Bus) (s : BusState), (bus_init b s).1 = ESP_OK →
        (bus_deinit b (bus_init b s).2).1 = ESP_OK →
        (bus_get_handle b (bus_deinit b (bus_init b s).2).2).1 = none) := by
  intro h
  have h1 := h Bus.system (BusState.boot (fun _ => ESP_OK)) (by decide) (by decide)
  revert h1
  decide

/-- C6 (amended): for each of the three buses, after a successful init
followed by a successful deinit the initialized flag is false and the cached
handle is the one the init left: get_handle returns the same handle as before
the deinit, and when the init created the bus this is the non-null handle that
the driver returned. -/
theorem deinit_keeps_cached_handle (b : Bus) (s : BusState)
    (h1 : (bus_init b s).1 = ESP_OK) (h2 : (bus_deinit b (bus_init b s).2).1 = ESP_OK) :
    (bus_deinit b (bus_init b s).2).2.initialized b = false ∧
    (bus_get_handle b (bus_deinit b (bus_init b s).2).2).1 =
      (bus_get_handle b (bus_init b s).2).1 ∧
    (s.initialized b = false → s.outcome s.calls.length = ESP_OK →
      (bus_get_handle b (bus_deinit b (bus_init b s).2).2).1 = some s.next_handle) := by
  have hg : ∀ t : BusState, (bus_get_handle b t).1 = t.handle b := by
    intro t; cases b <;> rfl
  have hkeep := bus_deinit_handle b (bus_init b s).2
  refine ⟨bus_deinit_ok_clears_flag b _ h2, ?_, ?_⟩
  · rw [hg, hg, hkeep]
  · intro hi ho
    rw [hg, hkeep]
    cases b <;>
      simp_all [bus_init, bsp_i2c_init, bsp_ext_i2c_init, bsp_grove_i2c_init,
        i2c_new_master_bus, BSP_ERROR_CHECK_RETURN_ERR, BusState.initialized,
        BusState.handle, BusState.store]

/-- Witness for C6 (amended): the external bus from the boot state with a
driver that succeeds. -/
theorem deinit_keeps_cached_handle_witness :
    (bus_deinit Bus.external
        (bus_init Bus.external (BusState.boot (fun _ => ESP_OK))).2).2.initialized
        Bus.external = false ∧
    (bus_get_handle Bus.external (bus_deinit Bus.external
        (bus_init Bus.external (BusState.boot (fun _ => ESP_OK))).2).2).1 =
      (bus_get_handle Bus.external
        (bus_init Bus.external (BusState.boot (fun _ => ESP_OK))).2).1 ∧
    ((BusState.boot (fun _ => ESP_OK)).initialized Bus.external = false →
      (BusState.boot (fun _ => ESP_OK)).outcome
        (BusState.boot (fun _ => ESP_OK)).calls.length = ESP_OK →
      (bus_get_handle Bus.external (bus_deinit Bus.external
        (bus_init Bus.external (BusState.boot (fun _ => ESP_OK))).2).2).1 =
        some (BusState.boot (fun _ => ESP_OK)).next_handle) :=
  deinit_keeps_cached_handle Bus.external (BusState.boot (fun _ => ESP_OK))
    (by decide) (by decide)

/-- C7 (as stated, refuted): on the system bus, initialized from the boot
state, a deinit whose bus deletion fails returns with the initialized flag
still true. -/
theorem deinit_always_clears_flag_refuted :
    ¬ (∀ (b : Bus) (s : BusState), (bus_deinit b s).2.initialized b = false) := by
  intro h
  have h1 := h Bus.system
    (bsp_i2c_init (BusState.boot (fun n => if n = 1 then ESP_FAIL else ESP_OK))).2
  revert h1
  decide

/-- C7 (amended): for each of the three buses, when the driver's bus deletion
succeeds, so that deinit returns `ESP_OK`, the initialized flag is false after
deinit returns, and the next init calls the driver's bus creation again. -/
theorem deinit_ok_clears_flag (b : Bus) (s : BusState) (h : (bus_deinit b s).1 = ESP_OK) :
    (bus_deinit b s).2.initialized b = false ∧
    ∃ conf, (bus_init b (bus_deinit b s).2).2.calls =
      (bus_deinit b s).2.calls ++ [DriverCall.new_master_bus conf b] := by
  have hf := bus_deinit_ok_clears_flag b s h
  obtain ⟨conf, _, hc⟩ := bus_init_calls b (bus_deinit b s).2 hf
  exact ⟨hf, conf, hc⟩

/-- Witness for C7 (amended): the grove bus, initialized from the boot state
with a driver that succeeds. -/
theorem deinit_ok_clears_flag_witness :
    (bus_deinit Bus.grove
        (bus_init Bus.grove (BusState.boot (fun _ => ESP_OK))).2).2.initialized
        Bus.grove = false ∧
    ∃ conf, (bus_init Bus.grove (bus_deinit Bus.grove
        (bus_init Bus.grove (BusState.boot (fun _ => ESP_OK))).2).2).2.calls =
      (bus_deinit Bus.grove (bus_init Bus.grove (BusState.boot (fun _ => ESP_OK))).2).2.calls
        ++ [DriverCall.new_master_bus conf Bus.grove] :=
  deinit_ok_clears_flag Bus.grove (bus_init Bus.grove (BusState.boot (fun _ => ESP_OK))).2
    (by decide)

/-- C8 (code evaluated at the failing input): with a driver whose second call
(the bus deletion) fails and whose other calls succeed, the sequence init,
deinit, init on the external bus, and likewise on the grove bus, ends with two
live handles created by that bus's init; the same sequence on the system bus
ends with one. -/
theorem ext_grove_two_live_handles :
    (run_ops [BusOp.init Bus.external, BusOp.deinit Bus.external, BusOp.init Bus.external]
        (BusState.boot (fun n => if n = 1 then ESP_FAIL else ESP_OK))).live_of Bus.external
      = [1, 2] ∧
    (run_ops [BusOp.init Bus.grove, BusOp.deinit Bus.grove, BusOp.init Bus.grove]
        (BusState.boot (fun n => if n = 1 then ESP_FAIL else ESP_OK))).live_of Bus.grove
      = [1, 2] ∧
    (run_ops [BusOp.init Bus.system, BusOp.deinit Bus.system, BusOp.init Bus.system]
        (BusState.boot (fun n => if n = 1 then ESP_FAIL else ESP_OK))).live_of Bus.system
      = [1] := by
  decide

/-- C9: every init, deinit and get_handle call on one bus leaves the
initialized flag and the cached handle of each other bus unchanged. -/
theorem bus_instances_independent (a b : Bus) (s : BusState) (hab : a ≠ b) :
    ((bus_init a s).2.initialized b = s.initialized b ∧
      (bus_init a s).2.handle b = s.handle b) ∧
    ((bus_deinit a s).2.initialized b = s.initialized b ∧
      (bus_deinit a s).2.handle b = s.handle b) ∧
    ((bus_get_handle a s).2.initialized b = s.initialized b ∧
      (bus_get_handle a s).2.handle b = s.handle b) := by
  have hget : (bus_get_handle a s).2 = s := by cases a <;> rfl
  rw [hget]
  refine ⟨?_, ?_, rfl, rfl⟩
  · cases a <;> cases b <;> first
      | exact absurd rfl hab
      | (simp only [bus_init, bsp_i2c_init, bsp_ext_i2c_init, bsp_grove_i2c_init,
          i2c_new_master_bus, BSP_ERROR_CHECK_RETURN_ERR, BusState.initialized,
          BusState.handle, BusState.store]
         split_ifs <;> simp)
  · cases a <;> cases b <;> first
      | exact absurd rfl hab
      | (simp only [bus_deinit, bsp_i2c_deinit, bsp_ext_i2c_deinit, bsp_grove_i2c_deinit,
          i2c_del_master_bus, BSP_ERROR_CHECK_RETURN_ERR, BusState.initialized,
          BusState.handle]
         split_ifs <;> simp)

/-- Witness for C9: calls on the external bus seen from the system bus, in the
state reached by initializing the system bus. -/
theorem bus_instances_independent_witness :
    ((bus_init Bus.external
          (bus_init Bus.system (BusState.boot (fun _ => ESP_OK))).2).2.initialized Bus.system =
        (bus_init Bus.system (BusState.boot (fun _ => ESP_OK))).2.initialized Bus.system ∧
      (bus_init Bus.external
          (bus_init Bus.system (BusState.boot (fun _ => ESP_OK))).2).2.handle Bus.system =
        (bus_init Bus.system (BusState.boot (fun _ => ESP_OK))).2.handle Bus.system) ∧
    ((bus_deinit Bus.external
          (bus_init Bus.system (BusState.boot (fun _ => ESP_OK))).2).2.initialized Bus.system =
        (bus_init Bus.system (BusState.boot (fun _ => ESP_OK))).2.initialized Bus.system ∧
      (bus_deinit Bus.external
          (bus_init Bus.system (BusState.boot (fun _ => ESP_OK))).2).2.handle Bus.system =
        (bus_init Bus.system (BusState.boot (fun _ => ESP_OK))).2.handle Bus.system) ∧
    ((bus_get_handle Bus.external
          (bus_init Bus.system (BusState.boot (fun _ => ESP_OK))).2).2.initialized Bus.system =
        (bus_init Bus.system (BusState.boot (fun _ => ESP_OK))).2.initialized Bus.system ∧
      (bus_get_handle Bus.external
          (bus_init Bus.system (BusState.boot (fun _ => ESP_OK))).2).2.handle Bus.system =
        (bus_init Bus.system (BusState.boot (fun _ => ESP_OK))).2.handle Bus.system) :=
  bus_instances_independent Bus.external Bus.system
    (bus_init Bus.system (BusState.boot (fun _ => ESP_OK))).2 (by decide)

/-- C10 (as stated, refuted): the configurations that the external and the
grove init pass to the driver have the same port number, the same SCL pin and
the same SDA pin. -/
theorem ext_grove_configs_not_distinguished :
    ¬ (∀ a b : Bus, a ≠ b → ∃ c d, init_config a = some c ∧ init_config b = some d ∧
        configs_differ c d) := by
  intro h
  obtain ⟨c, d, hc, hd, hdiff⟩ := h Bus.external Bus.grove (by decide)
  have hc' : c = ⟨i2c_clock_source_t.I2C_CLK_SRC_DEFAULT, 1, 54, 53, true⟩ :=
    (Option.some.inj hc).symm
  have hd' : d = ⟨i2c_clock_source_t.I2C_CLK_SRC_DEFAULT, 1, 54, 53, true⟩ :=
    (Option.some.inj hd).symm
  subst hc' hd'
  revert hdiff
  decide

/-- C10 (amended): the system init passes port 0, SCL pin 32, SDA pin 31 and
both the external and the grove init pass port 1, SCL pin 54, SDA pin 53, so
the system configuration differs from the other two in the port number, the
SCL pin and the SDA pin, while the external and the grove configurations are
equal. -/
theorem bus_configs :
    ∃ cs ce cg, init_config Bus.system = some cs ∧ init_config Bus.external = some ce ∧
      init_config Bus.grove = some cg ∧
      cs = ⟨i2c_clock_source_t.I2C_CLK_SRC_DEFAULT, 0, 32, 31, true⟩ ∧
      ce = ⟨i2c_clock_source_t.I2C_CLK_SRC_DEFAULT, 1, 54, 53, true⟩ ∧
      cg = ce ∧
      (cs.i2c_port ≠ ce.i2c_port ∧ cs.scl_io_num ≠ ce.scl_io_num ∧
        cs.sda_io_num ≠ ce.sda_io_num) ∧
      (cs.i2c_port ≠ cg.i2c_port ∧ cs.scl_io_num ≠ cg.scl_io_num ∧
        cs.sda_io_num ≠ cg.sda_io_num) :=
  ⟨_, _, _, rfl, rfl, rfl, rfl, rfl, rfl, by decide, by decide⟩

/-! ## The system bus keeps at most one live handle -/

theorem system_bus_inv_boot (outcome : Nat → esp_err_t) :
    system_bus_inv (BusState.boot outcome) := by
  simp [system_bus_inv, BusState.boot]

theorem system_bus_inv_step (op : BusOp) (s : BusState) (h : system_bus_inv s) :
    system_bus_inv (op.step s) := by
  obtain ⟨hlen, hown⟩ := h
  cases op with
  | init b =>
    cases b
    · by_cases hi : s.i2c_initialized = true
      · simp only [BusOp.step, bus_init, bsp_i2c_init, hi, if_true]
        exact ⟨hlen, hown⟩
      · have hnone' : ∀ n, ¬ (n, Bus.system) ∈ s.live := by
          intro n hn
          exact hi (hown n hn).1
        have hnone : s.live.filter (fun p => p.2 = Bus.system) = [] := by
          rw [List.filter_eq_nil_iff]
          rintro ⟨n, b⟩ hp hsys
          have hb : b = Bus.system := by simpa using hsys
          subst hb
          exact hnone' n hp
        by_cases ho : s.outcome s.calls.length = ESP_OK
        · simp [BusOp.step, bus_init, bsp_i2c_init, hi, i2c_new_master_bus, ho,
            BSP_ERROR_CHECK_RETURN_ERR, BusState.store, system_bus_inv, List.filter_append,
            hnone]
          rintro n (hn | hn)
          · exact absurd hn (hnone' n)
          · exact hn.symm
        · simpa [BusOp.step, bus_init, bsp_i2c_init, hi, i2c_new_master_bus, ho,
            BSP_ERROR_CHECK_RETURN_ERR, system_bus_inv, hnone] using hnone'
    · by_cases hi : s.ext_i2c_initialized = true
      · simpa [BusOp.step, bus_init, bsp_ext_i2c_init, hi, system_bus_inv] using ⟨hlen, hown⟩
      · by_cases ho : s.outcome s.calls.length = ESP_OK
        · simpa [BusOp.step, bus_init, bsp_ext_i2c_init, hi, i2c_new_master_bus, ho,
            BusState.store, system_bus_inv, List.filter_append] using ⟨hlen, hown⟩
        · simpa [BusOp.step, bus_init, bsp_ext_i2c_init, hi, i2c_new_master_bus, ho,
            system_bus_inv] using ⟨hlen, hown⟩
    · by_cases hi : s.grove_i2c_initialized = true
      · simpa [BusOp.step, bus_init, bsp_grove_i2c_init, hi, system_bus_inv]
          using ⟨hlen, hown⟩
      · by_cases ho : s.outcome s.calls.length = ESP_OK
        · simpa [BusOp.step, bus_init, bsp_grove_i2c_init, hi, i2c_new_master_bus, ho,
            BusState.store, system_bus_inv, List.filter_append] using ⟨hlen, hown⟩
        · simpa [BusOp.step, bus_init, bsp_grove_i2c_init, hi, i2c_new_master_bus, ho,
            system_bus_inv] using ⟨hlen, hown⟩
  | deinit b =>
    have hsub : ∀ h : i2c_master_bus_handle_t,
        ((s.live.filter (fun p => some p.1 != h)).filter (fun p => p.2 = Bus.system)).length
          ≤ 1 := by
      intro h
      rw [List.filter_comm]
      exact le_trans (List.length_filter_le _ _) hlen
    cases b
    · by_cases ho : s.outcome s.calls.length = ESP_OK
      · refine ⟨?_, ?_⟩
        · simpa [BusOp.step, bus_deinit, bsp_i2c_deinit, i2c_del_master_bus, ho,
            BSP_ERROR_CHECK_RETURN_ERR] using hsub s.i2c_handle
        · intro n hn
          simp [BusOp.step, bus_deinit, bsp_i2c_deinit, i2c_del_master_bus, ho,
            BSP_ERROR_CHECK_RETURN_ERR] at hn
          exact absurd (hown n hn.1).2.symm hn.2
      · simpa [BusOp.step, bus_deinit, bsp_i2c_deinit, i2c_del_master_bus, ho,
          BSP_ERROR_CHECK_RETURN_ERR, system_bus_inv] using ⟨hlen, hown⟩
    · by_cases ho : s.outcome s.calls.length = ESP_OK
      · refine ⟨?_, ?_⟩
        · simpa [BusOp.step, bus_deinit, bsp_ext_i2c_deinit, i2c_del_master_bus, ho]
            using hsub s.ext_i2c_bus_handle
        · intro n hn
          simp [BusOp.step, bus_deinit, bsp_ext_i2c_deinit, i2c_del_master_bus, ho] at hn
          simpa [BusOp.step, bus_deinit, bsp_ext_i2c_deinit, i2c_del_master_bus, ho]
            using hown n hn.1
      · simpa [BusOp.step, bus_deinit, bsp_ext_i2c_deinit, i2c_del_master_bus, ho,
          system_bus_inv] using ⟨hlen, hown⟩
    · by_cases ho : s.outcome s.calls.length = ESP_OK
      · refine ⟨?_, ?_⟩
        · simpa [BusOp.step, bus_deinit, bsp_grove_i2c_deinit, i2c_del_master_bus, ho]
            using hsub s.grove_i2c_bus_handle
        · intro n hn
          simp [BusOp.step, bus_deinit, bsp_grove_i2c_deinit, i2c_del_master_bus, ho] at hn
          simpa [BusOp.step, bus_deinit, bsp_grove_i2c_deinit, i2c_del_master_bus, ho]
            using hown n hn.1
      · simpa [BusOp.step, bus_deinit, bsp_grove_i2c_deinit, i2c_del_master_bus, ho,
          system_bus_inv] using ⟨hlen, hown⟩

theorem system_bus_inv_run (ops : List BusOp) (s : BusState) (h : system_bus_inv s) :
    system_bus_inv (run_ops ops s) := by
  induction ops generalizing s with
  | nil => exact h
  | cons op rest ih => exact ih (op.step s) (system_bus_inv_step op s h)

/-- For every driver behaviour and every finite sequence of init and deinit
calls on the three buses from the boot state, at most one handle created by
`bsp_i2c_init` is live. -/
theorem system_bus_at_most_one_live (outcome : Nat → esp_err_t) (ops : List BusOp) :
    ((run_ops ops (BusState.boot outcome)).live_of Bus.system).length ≤ 1 := by
  have h := (system_bus_inv_run ops _ (system_bus_inv_boot outcome)).1
  simpa [BusState.live_of] using h

/-! ## SD card -/

/-- An SD card init that returns `ESP_OK` leaves `card` non-null. -/
theorem bsp_sdcard_init_ok_card (mount_point : mount_point_t) (max_files : Nat) (s : SdState)
    (h : (bsp_sdcard_init mount_point max_files s).1 = ESP_OK) :
    (bsp_sdcard_init mount_point max_files s).2.card ≠ none := by
  have hne : ESP_ERR_INVALID_STATE ≠ ESP_OK := by decide
  unfold bsp_sdcard_init at h ⊢
  by_cases hc : s.card = none
  · by_cases hp : s.pwr_ctrl_handle = none
    · by_cases h0 : s.outcome s.calls.length = ESP_OK
      · by_cases h1 : s.outcome (s.calls.length + 1) = ESP_OK
        · simp [hc, hp, h0, h1, sd_pwr_ctrl_new_on_chip_ldo, esp_vfs_fat_sdmmc_mount,
            sdmmc_card_print_info]
        · simp [hc, hp, h0, h1, sd_pwr_ctrl_new_on_chip_ldo, esp_vfs_fat_sdmmc_mount] at h
      · simp [hc, hp, h0, sd_pwr_ctrl_new_on_chip_ldo] at h
    · by_cases h0 : s.outcome s.calls.length = ESP_OK
      · simp [hc, hp, h0, esp_vfs_fat_sdmmc_mount, sdmmc_card_print_info]
      · simp [hc, hp, h0, esp_vfs_fat_sdmmc_mount] at h
  · simp [hc, hne] at h

/-- An SD card init on a non-null `card` is rejected with
`ESP_ERR_INVALID_STATE` and changes nothing. -/
theorem bsp_sdcard_init_rejected (mount_point : mount_point_t) (max_files : Nat) (s : SdState)
    (h : s.card ≠ none) :
    bsp_sdcard_init mount_point max_files s = (ESP_ERR_INVALID_STATE, s) := by
  simp [bsp_sdcard_init, h]

/-- An SD card init on a null `card` makes at least one driver call. -/
theorem bsp_sdcard_init_calls_driver (mount_point : mount_point_t) (max_files : Nat)
    (s : SdState) (h : s.card = none) :
    s.calls.length < (bsp_sdcard_init mount_point max_files s).2.calls.length := by
  unfold bsp_sdcard_init
  by_cases hp : s.pwr_ctrl_handle = none
  · by_cases h0 : s.outcome s.calls.length = ESP_OK
    · by_cases h1 : s.outcome (s.calls.length + 1) = ESP_OK
      · simp [h, hp, h0, h1, sd_pwr_ctrl_new_on_chip_ldo, esp_vfs_fat_sdmmc_mount,
          sdmmc_card_print_info]
      · simp [h, hp, h0, h1, sd_pwr_ctrl_new_on_chip_ldo, esp_vfs_fat_sdmmc_mount]
    · simp [h, hp, h0, sd_pwr_ctrl_new_on_chip_ldo]
  · by_cases h0 : s.outcome s.calls.length = ESP_OK
    · simp [h, hp, h0, esp_vfs_fat_sdmmc_mount, sdmmc_card_print_info]
    · simp [h, hp, h0, esp_vfs_fat_sdmmc_mount]

/-- C11: if `bsp_sdcard_init` has succeeded and `bsp_sdcard_deinit` has not
been called since, a second `bsp_sdcard_init`, with any mount point and any
`max_files`, returns `ESP_ERR_INVALID_STATE`, makes no driver call and leaves
the card handle, as the whole state, unchanged. -/
theorem sdcard_init_twice_rejected (mount_point mount_point2 : mount_point_t)
    (max_files max_files2 : Nat) (s : SdState)
    (h : (bsp_sdcard_init mount_point max_files s).1 = ESP_OK) :
    (bsp_sdcard_init mount_point2 max_files2 (bsp_sdcard_init mount_point max_files s).2).1 =
      ESP_ERR_INVALID_STATE ∧
    (bsp_sdcard_init mount_point2 max_files2
        (bsp_sdcard_init mount_point max_files s).2).2.calls =
      (bsp_sdcard_init mount_point max_files s).2.calls ∧
    (bsp_sdcard_init mount_point2 max_files2
        (bsp_sdcard_init mount_point max_files s).2).2.card =
      (bsp_sdcard_init mount_point max_files s).2.card ∧
    (bsp_sdcard_init mount_point2 max_files2 (bsp_sdcard_init mount_point max_files s).2).2 =
      (bsp_sdcard_init mount_point max_files s).2 := by
  rw [bsp_sdcard_init_rejected _ _ _ (bsp_sdcard_init_ok_card mount_point max_files s h)]
  simp

/-- Witness for C11: a first init on `/sdcard` from the boot state with
drivers that succeed, then an init on `/sd2`. -/
theorem sdcard_init_twice_rejected_witness :
    (bsp_sdcard_init (some "/sd2") 2
        (bsp_sdcard_init (some "/sdcard") 5 (SdState.boot (fun _ => ESP_OK))).2).1 =
      ESP_ERR_INVALID_STATE ∧
    (bsp_sdcard_init (some "/sd2") 2
        (bsp_sdcard_init (some "/sdcard") 5 (SdState.boot (fun _ => ESP_OK))).2).2.calls =
      (bsp_sdcard_init (some "/sdcard") 5 (SdState.boot (fun _ => ESP_OK))).2.calls ∧
    (bsp_sdcard_init (some "/sd2") 2
        (bsp_sdcard_init (some "/sdcard") 5 (SdState.boot (fun _ => ESP_OK))).2).2.card =
      (bsp_sdcard_init (some "/sdcard") 5 (SdState.boot (fun _ => ESP_OK))).2.card ∧
    (bsp_sdcard_init (some "/sd2") 2
        (bsp_sdcard_init (some "/sdcard") 5 (SdState.boot (fun _ => ESP_OK))).2).2 =
      (bsp_sdcard_init (some "/sdcard") 5 (SdState.boot (fun _ => ESP_OK))).2 :=
  sdcard_init_twice_rejected (some "/sdcard") (some "/sd2") 5 2
    (SdState.boot (fun _ => ESP_OK)) (by decide)

/-- C12: `bsp_sdcard_deinit` called with a null mount point returns
`ESP_ERR_INVALID_STATE`, makes no driver call and leaves the card handle, as
the whole state, unchanged; when a card is mounted, a following
`bsp_sdcard_init` is still rejected with `ESP_ERR_INVALID_STATE`. -/
theorem sdcard_deinit_null_mount_point (s : SdState) :
    (bsp_sdcard_deinit none s).1 = ESP_ERR_INVALID_STATE ∧
    (bsp_sdcard_deinit none s).2.calls = s.calls ∧
    (bsp_sdcard_deinit none s).2.card = s.card ∧
    (bsp_sdcard_deinit none s).2 = s ∧
    (s.card ≠ none → ∀ (mount_point : mount_point_t) (max_files : Nat),
      (bsp_sdcard_init mount_point max_files (bsp_sdcard_deinit none s).2).1 =
        ESP_ERR_INVALID_STATE) := by
  refine ⟨rfl, rfl, rfl, rfl, ?_⟩
  intro hc mount_point max_files
  have hd : (bsp_sdcard_deinit none s).2 = s := rfl
  rw [hd, bsp_sdcard_init_rejected _ _ _ hc]

/-- Witness for C12: the state with a card mounted on `/sdcard`. -/
theorem sdcard_deinit_null_mount_point_witness :
    (bsp_sdcard_init (some "/sdcard") 5 (SdState.boot (fun _ => ESP_OK))).2.card ≠ none ∧
    ∀ (mount_point : mount_point_t) (max_files : Nat),
      (bsp_sdcard_init mount_point max_files (bsp_sdcard_deinit none
        (bsp_sdcard_init (some "/sdcard") 5 (SdState.boot (fun _ => ESP_OK))).2).2).1 =
        ESP_ERR_INVALID_STATE :=
  ⟨by decide,
   (sdcard_deinit_null_mount_point
      (bsp_sdcard_init (some "/sdcard") 5 (SdState.boot (fun _ => ESP_OK))).2).2.2.2.2
      (by decide)⟩

/-- C13: for every non-null mount point and every result of the unmount
driver call, `bsp_sdcard_deinit` calls the unmount with that mount point and
the current card, returns the unmount status unchanged and leaves the card
handle null, so that the next `bsp_sdcard_init` passes the already-initialized
check and calls the driver. -/
theorem sdcard_deinit_returns_unmount_status (m : String) (s : SdState)
    (mount_point : mount_point_t) (max_files : Nat) :
    (bsp_sdcard_deinit (some m) s).1 = s.outcome s.calls.length ∧
    (bsp_sdcard_deinit (some m) s).2.calls =
      s.calls ++ [SdCall.esp_vfs_fat_sdcard_unmount (some m) s.card] ∧
    (bsp_sdcard_deinit (some m) s).2.card = none ∧
    (bsp_sdcard_deinit (some m) s).2.calls.length <
      (bsp_sdcard_init mount_point max_files (bsp_sdcard_deinit (some m) s).2).2.calls.length := by
  have hcard : (bsp_sdcard_deinit (some m) s).2.card = none := by
    simp [bsp_sdcard_deinit, esp_vfs_fat_sdcard_unmount]
  refine ⟨?_, ?_, hcard, bsp_sdcard_init_calls_driver _ _ _ hcard⟩
  · simp [bsp_sdcard_deinit, esp_vfs_fat_sdcard_unmount]
  · simp [bsp_sdcard_deinit, esp_vfs_fat_sdcard_unmount]

/-! ## Expander: effect of one driver call on the log -/

theorem i2c_master_transmit_log (dev : Dev) (buf : List Nat) (n : Nat) (s : Expander) :
    (i2c_master_transmit dev buf n s).2.log = s.log ++ [I2cEvent.transmit dev (buf.take n)] := by
  simp only [i2c_master_transmit]
  split_ifs
  · split <;> rfl
  · rfl

theorem i2c_master_transmit_count (dev : Dev) (buf : List Nat) (n : Nat) (s : Expander) :
    (i2c_master_transmit dev buf n s).2.count = s.count + 1 := by
  simp only [i2c_master_transmit]
  split_ifs
  · split <;> rfl
  · rfl

theorem i2c_master_transmit_outcome (dev : Dev) (buf : List Nat) (n : Nat) (s : Expander) :
    (i2c_master_transmit dev buf n s).2.outcome = s.outcome := by
  simp only [i2c_master_transmit]
  split_ifs
  · split <;> rfl
  · rfl

theorem i2c_master_transmit_receive_log (dev : Dev) (buf rbuf : List Nat) (n m : Nat)
    (s : Expander) :
    (i2c_master_transmit_receive dev buf n rbuf m s).2.2.log =
      s.log ++ [I2cEvent.transmit_receive dev (buf.take n) m] := by
  simp only [i2c_master_transmit_receive]
  split_ifs <;> rfl

theorem i2c_master_transmit_receive_count (dev : Dev) (buf rbuf : List Nat) (n m : Nat)
    (s : Expander) :
    (i2c_master_transmit_receive dev buf n rbuf m s).2.2.count = s.count + 1 := by
  simp only [i2c_master_transmit_receive]
  split_ifs <;> rfl

theorem i2c_master_transmit_receive_outcome (dev : Dev) (buf rbuf : List Nat) (n m : Nat)
    (s : Expander) :
    (i2c_master_transmit_receive dev buf n rbuf m s).2.2.outcome = s.outcome := by
  simp only [i2c_master_transmit_receive]
  split_ifs <;> rfl

theorem i2c_master_transmit_receive_regs (dev : Dev) (buf rbuf : List Nat) (n m : Nat)
    (s : Expander) :
    (i2c_master_transmit_receive dev buf n rbuf m s).2.2.regs = s.regs := by
  simp only [i2c_master_transmit_receive]
  split_ifs <;> rfl

/-- The read buffer after a transmit-receive: the addressed register when the
transaction succeeds, the old content when it fails. -/
theorem i2c_master_transmit_receive_buf (dev : Dev) (buf rbuf : List Nat) (n m : Nat)
    (s : Expander) :
    (i2c_master_transmit_receive dev buf n rbuf m s).2.1 =
      if s.outcome s.count = ESP_OK then rbuf.set 0 (s.regs dev ((buf.take n).getD 0 0))
      else rbuf := by
  simp only [i2c_master_transmit_receive]
  split_ifs <;> rfl

/-- A mask with a single bit gives a non-zero result exactly when that bit is
set. -/
theorem and_bit_ne_zero (x k : Nat) : x &&& 2 ^ k ≠ 0 ↔ x.testBit k = true := by
  rw [Nat.and_two_pow]
  cases x.testBit k <;> simp

/-! ## Claims on detection -/

/-- C16: when the read of the input-status register (0x0F) succeeds and
returns the byte held by the chip, `bsp_headphone_detect` issues that one read
on expander 1 and nothing else and returns true exactly when bit 7 of the byte
is set, and `bsp_usb_c_detect` issues that one read on expander 2 and nothing
else and returns true exactly when bit 6 of the byte is set; neither issues a
write and the registers are unchanged. -/
theorem detect_reads_status_bit (s : Expander) (hread : s.outcome s.count = ESP_OK) :
    ((bsp_headphone_detect s).1 = (s.regs Dev.i2c_dev_handle_pi4ioe1 0x0F).testBit 7 ∧
      (bsp_headphone_detect s).2.log =
        s.log ++ [I2cEvent.transmit_receive Dev.i2c_dev_handle_pi4ioe1 [0x0F] 1] ∧
      (bsp_headphone_detect s).2.regs = s.regs) ∧
    ((bsp_usb_c_detect s).1 = (s.regs Dev.i2c_dev_handle_pi4ioe2 0x0F).testBit 6 ∧
      (bsp_usb_c_detect s).2.log =
        s.log ++ [I2cEvent.transmit_receive Dev.i2c_dev_handle_pi4ioe2 [0x0F] 1] ∧
      (bsp_usb_c_detect s).2.regs = s.regs) := by
  have h7 := and_bit_ne_zero (s.regs Dev.i2c_dev_handle_pi4ioe1 0x0F) 7
  have h6 := and_bit_ne_zero (s.regs Dev.i2c_dev_handle_pi4ioe2 0x0F) 6
  refine ⟨⟨?_, ?_, ?_⟩, ?_, ?_, ?_⟩
  · simp only [bsp_headphone_detect, i2c_master_transmit_receive_buf, hread, if_true,
      PI4IO_REG_IN_STA]
    by_cases hb : (s.regs Dev.i2c_dev_handle_pi4ioe1 0x0F).testBit 7 = true
    · have := h7.mpr hb
      simpa [hb] using this
    · have hb' : (s.regs Dev.i2c_dev_handle_pi4ioe1 0x0F).testBit 7 = false := by
        simpa using hb
      have : ¬ (s.regs Dev.i2c_dev_handle_pi4ioe1 0x0F &&& 2 ^ 7 ≠ 0) := fun h => hb (h7.mp h)
      simpa [hb'] using this
  · simp [bsp_headphone_detect, i2c_master_transmit_receive_log, PI4IO_REG_IN_STA]
  · simp [bsp_headphone_detect, i2c_master_transmit_receive_regs]
  · simp only [bsp_usb_c_detect, i2c_master_transmit_receive_buf, hread, if_true,
      PI4IO_REG_IN_STA]
    by_cases hb : (s.regs Dev.i2c_dev_handle_pi4ioe2 0x0F).testBit 6 = true
    · have := h6.mpr hb
      simpa [hb] using this
    · have hb' : (s.regs Dev.i2c_dev_handle_pi4ioe2 0x0F).testBit 6 = false := by
        simpa using hb
      have : ¬ (s.regs Dev.i2c_dev_handle_pi4ioe2 0x0F &&& 2 ^ 6 ≠ 0) := fun h => hb (h6.mp h)
      simpa [hb'] using this
  · simp [bsp_usb_c_detect, i2c_master_transmit_receive_log, PI4IO_REG_IN_STA]
  · simp [bsp_usb_c_detect, i2c_master_transmit_receive_regs]

/-- Witness for C16: healthy chips whose input-status registers hold 0xC0. -/
theorem detect_reads_status_bit_witness :
    ((bsp_headphone_detect (Expander.healthy (fun _ _ => 0xC0))).1 =
        ((Expander.healthy (fun _ _ => 0xC0)).regs Dev.i2c_dev_handle_pi4ioe1 0x0F).testBit 7 ∧
      (bsp_headphone_detect (Expander.healthy (fun _ _ => 0xC0))).2.log =
        (Expander.healthy (fun _ _ => 0xC0)).log ++
          [I2cEvent.transmit_receive Dev.i2c_dev_handle_pi4ioe1 [0x0F] 1] ∧
      (bsp_headphone_detect (Expander.healthy (fun _ _ => 0xC0))).2.regs =
        (Expander.healthy (fun _ _ => 0xC0)).regs) ∧
    ((bsp_usb_c_detect (Expander.healthy (fun _ _ => 0xC0))).1 =
        ((Expander.healthy (fun _ _ => 0xC0)).regs Dev.i2c_dev_handle_pi4ioe2 0x0F).testBit 6 ∧
      (bsp_usb_c_detect (Expander.healthy (fun _ _ => 0xC0))).2.log =
        (Expander.healthy (fun _ _ => 0xC0)).log ++
          [I2cEvent.transmit_receive Dev.i2c_dev_handle_pi4ioe2 [0x0F] 1] ∧
      (bsp_usb_c_detect (Expander.healthy (fun _ _ => 0xC0))).2.regs =
        (Expander.healthy (fun _ _ => 0xC0)).regs) :=
  detect_reads_status_bit (Expander.healthy (fun _ _ => 0xC0)) rfl

/-- C17: when the read transaction fails, leaving the reply buffer as the
function initialised it, `bsp_headphone_detect` and `bsp_usb_c_detect` return
false, whatever the error code and whatever the input-status registers hold;
their result is a boolean, so the error code does not reach the caller. -/
theorem detect_read_failure_returns_false (s : Expander)
    (hfail : s.outcome s.count ≠ ESP_OK) :
    (bsp_headphone_detect s).1 = false ∧ (bsp_usb_c_detect s).1 = false := by
  constructor
  · simp [bsp_headphone_detect, i2c_master_transmit_receive_buf, hfail]
  · simp [bsp_usb_c_detect, i2c_master_transmit_receive_buf, hfail]

/-- Witness for C17: both lines high (input-status registers 0xC0) and a
driver whose transactions fail with `ESP_FAIL`. -/
theorem detect_read_failure_returns_false_witness :
    (bsp_headphone_detect
        { regs := fun _ _ => 0xC0, outcome := fun _ => ESP_FAIL, count := 0, log := [] }).1
      = false ∧
    (bsp_usb_c_detect
        { regs := fun _ _ => 0xC0, outcome := fun _ => ESP_FAIL, count := 0, log := [] }).1
      = false :=
  detect_read_failure_returns_false
    { regs := fun _ _ => 0xC0, outcome := fun _ => ESP_FAIL, count := 0, log := [] }
    (by decide)

/-! ## Claims on the pulse sequences -/

theorem vTaskDelay_log (p t : Nat) (s : Expander) :
    (vTaskDelay p t s).log = s.log ++ [I2cEvent.delay_ms (t * p)] := rfl

theorem setbit_clrbit_setbit {x k : Nat} (hx : x < 256) (hk : k < 8) :
    setbit (clrbit (setbit x k) k) k = setbit x k := by
  apply Nat.eq_of_testBit_eq
  intro i
  rw [testBit_setbit (clrbit_lt _ _) hk, testBit_clrbit (setbit_lt _ _), testBit_setbit hx hk]
  by_cases hi : i = k <;> simp [hi]

theorem clrbit_setbit_clrbit {x k : Nat} (hx : x < 256) (hk : k < 8) :
    clrbit (setbit (clrbit x k) k) k = clrbit x k := by
  apply Nat.eq_of_testBit_eq
  intro i
  rw [testBit_clrbit (setbit_lt _ _), testBit_setbit (clrbit_lt _ _) hk, testBit_clrbit hx]
  by_cases hi : i = k <;> simp [hi]

/-- Log of the power-off loop: each iteration appends a write, a delay, a
write and a delay. -/
theorem poweroff_loop_log (p : Nat) (n : Nat) (write_buf : List Nat) (s : Expander) :
    (poweroff_loop p (n + 1) write_buf s).log =
      (poweroff_loop p n
        ((write_buf.set 1 (setbit (write_buf.getD 1 0) 4)).set 1
          (clrbit ((write_buf.set 1 (setbit (write_buf.getD 1 0) 4)).getD 1 0) 4))
        (vTaskDelay p (100 / p)
          (i2c_master_transmit Dev.i2c_dev_handle_pi4ioe2
            ((write_buf.set 1 (setbit (write_buf.getD 1 0) 4)).set 1
              (clrbit ((write_buf.set 1 (setbit (write_buf.getD 1 0) 4)).getD 1 0) 4)) 2
            (vTaskDelay p (100 / p)
              (i2c_master_transmit Dev.i2c_dev_handle_pi4ioe2
                (write_buf.set 1 (setbit (write_buf.getD 1 0) 4)) 2 s).2)).2)).log := rfl

/-- The trace of `bsp_generate_poweroff_signal` in terms of the byte `r` left
in the read buffer. -/
theorem poweroff_log_of_buffer (p : Nat) (s : Expander) (hp : p ∣ 100) (r : Nat)
    (hr : r < 256)
    (hbuf : (i2c_master_transmit_receive Dev.i2c_dev_handle_pi4ioe2 [PI4IO_REG_OUT_SET, 0] 1
      [0] 1 s).2.1 = [r]) :
    (bsp_generate_poweroff_signal p s).log =
      s.log ++ [I2cEvent.transmit_receive Dev.i2c_dev_handle_pi4ioe2 [0x05] 1,
        I2cEvent.transmit Dev.i2c_dev_handle_pi4ioe2 [0x05, setbit r 4], I2cEvent.delay_ms 100,
        I2cEvent.transmit Dev.i2c_dev_handle_pi4ioe2 [0x05, clrbit (setbit r 4) 4],
        I2cEvent.delay_ms 100,
        I2cEvent.transmit Dev.i2c_dev_handle_pi4ioe2 [0x05, setbit r 4], I2cEvent.delay_ms 100,
        I2cEvent.transmit Dev.i2c_dev_handle_pi4ioe2 [0x05, clrbit (setbit r 4) 4],
        I2cEvent.delay_ms 100,
        I2cEvent.transmit Dev.i2c_dev_handle_pi4ioe2 [0x05, setbit r 4], I2cEvent.delay_ms 100,
        I2cEvent.transmit Dev.i2c_dev_handle_pi4ioe2 [0x05, clrbit (setbit r 4) 4],
        I2cEvent.delay_ms 100] := by
  have hd : 100 / p * p = 100 := Nat.div_mul_cancel hp
  have h1 := setbit_clrbit_setbit hr (by decide : 4 < 8)
  have h2 : clrbit (setbit (clrbit (setbit r 4) 4) 4) 4 = clrbit (setbit r 4) 4 := by
    rw [h1]
  simp only [bsp_generate_poweroff_signal, List.set_cons_zero, hbuf, List.getD_cons_zero,
    List.set_cons_succ, poweroff_loop_log, poweroff_loop, vTaskDelay_log,
    i2c_master_transmit_log, i2c_master_transmit_receive_log, hd, List.getD_cons_succ]
  simp [PI4IO_REG_OUT_SET, h1, h2]

/-- C14: for every initial byte of expander-2's output register, and a tick
period that divides 100 ms, the bus log of `bsp_generate_poweroff_signal` is
the read of the output register followed by exactly: write with bit 4 set,
delay 100 ms, write with bit 4 cleared, delay 100 ms, three times over; the six
writes go to register 0x05 of expander 2, and this holds whatever the outcome
of each transaction. -/
theorem poweroff_trace (p : Nat) (s : Expander) (hp : p ∣ 100)
    (hb : s.regs Dev.i2c_dev_handle_pi4ioe2 0x05 < 256) :
    ∃ w1 w0, w1.testBit 4 = true ∧ w0.testBit 4 = false ∧
      (bsp_generate_poweroff_signal p s).log =
        s.log ++ [I2cEvent.transmit_receive Dev.i2c_dev_handle_pi4ioe2 [0x05] 1,
          I2cEvent.transmit Dev.i2c_dev_handle_pi4ioe2 [0x05, w1], I2cEvent.delay_ms 100,
          I2cEvent.transmit Dev.i2c_dev_handle_pi4ioe2 [0x05, w0], I2cEvent.delay_ms 100,
          I2cEvent.transmit Dev.i2c_dev_handle_pi4ioe2 [0x05, w1], I2cEvent.delay_ms 100,
          I2cEvent.transmit Dev.i2c_dev_handle_pi4ioe2 [0x05, w0], I2cEvent.delay_ms 100,
          I2cEvent.transmit Dev.i2c_dev_handle_pi4ioe2 [0x05, w1], I2cEvent.delay_ms 100,
          I2cEvent.transmit Dev.i2c_dev_handle_pi4ioe2 [0x05, w0], I2cEvent.delay_ms 100] := by
  have key : ∀ r, r < 256 →
      (i2c_master_transmit_receive Dev.i2c_dev_handle_pi4ioe2 [PI4IO_REG_OUT_SET, 0] 1
        [0] 1 s).2.1 = [r] →
      ∃ w1 w0, w1.testBit 4 = true ∧ w0.testBit 4 = false ∧
      (bsp_generate_poweroff_signal p s).log =
        s.log ++ [I2cEvent.transmit_receive Dev.i2c_dev_handle_pi4ioe2 [0x05] 1,
          I2cEvent.transmit Dev.i2c_dev_handle_pi4ioe2 [0x05, w1], I2cEvent.delay_ms 100,
          I2cEvent.transmit Dev.i2c_dev_handle_pi4ioe2 [0x05, w0], I2cEvent.delay_ms 100,
          I2cEvent.transmit Dev.i2c_dev_handle_pi4ioe2 [0x05, w1], I2cEvent.delay_ms 100,
          I2cEvent.transmit Dev.i2c_dev_handle_pi4ioe2 [0x05, w0], I2cEvent.delay_ms 100,
          I2cEvent.transmit Dev.i2c_dev_handle_pi4ioe2 [0x05, w1], I2cEvent.delay_ms 100,
          I2cEvent.transmit Dev.i2c_dev_handle_pi4ioe2 [0x05, w0], I2cEvent.delay_ms 100] := by
    intro r hr hbuf
    refine ⟨setbit r 4, clrbit (setbit r 4) 4, ?_, ?_, poweroff_log_of_buffer p s hp r hr hbuf⟩
    · rw [testBit_setbit hr (by decide)]; simp
    · rw [testBit_clrbit (setbit_lt _ _)]; simp
  by_cases ho : s.outcome s.count = ESP_OK
  · apply key (s.regs Dev.i2c_dev_handle_pi4ioe2 0x05) hb
    rw [i2c_master_transmit_receive_buf]
    simp [ho, PI4IO_REG_OUT_SET]
  · apply key 0 (by decide)
    rw [i2c_master_transmit_receive_buf]
    simp [ho]

/-- Witness for C14: a 10 ms tick and a healthy expander 2 whose output
register holds 0x09. -/
theorem poweroff_trace_witness :
    ∃ w1 w0, w1.testBit 4 = true ∧ w0.testBit 4 = false ∧
      (bsp_generate_poweroff_signal 10 (Expander.healthy (fun _ _ => 0x09))).log =
        (Expander.healthy (fun _ _ => 0x09)).log ++
         [I2cEvent.transmit_receive Dev.i2c_dev_handle_pi4ioe2 [0x05] 1,
          I2cEvent.transmit Dev.i2c_dev_handle_pi4ioe2 [0x05, w1], I2cEvent.delay_ms 100,
          I2cEvent.transmit Dev.i2c_dev_handle_pi4ioe2 [0x05, w0], I2cEvent.delay_ms 100,
          I2cEvent.transmit Dev.i2c_dev_handle_pi4ioe2 [0x05, w1], I2cEvent.delay_ms 100,
          I2cEvent.transmit Dev.i2c_dev_handle_pi4ioe2 [0x05, w0], I2cEvent.delay_ms 100,
          I2cEvent.transmit Dev.i2c_dev_handle_pi4ioe2 [0x05, w1], I2cEvent.delay_ms 100,
          I2cEvent.transmit Dev.i2c_dev_handle_pi4ioe2 [0x05, w0], I2cEvent.delay_ms 100] :=
  poweroff_trace 10 (Expander.healthy (fun _ _ => 0x09)) (by decide) (by decide)

/-- C15 (as stated, refuted): with bits 4 and 5 of expander-1's output
register at different levels (0x56, the state after touchpad power was
switched off), the first write of `bsp_reset_tp` is 0x46, which differs from
the byte read in bit 4 and not in bit 5: exactly one of the two bits has
changed. -/
theorem reset_tp_single_bit_change :
    ¬ (∀ (s : Expander) (w : Nat), s.outcome s.count = ESP_OK →
        s.regs Dev.i2c_dev_handle_pi4ioe1 0x05 < 256 → s.log = [] →
        I2cEvent.transmit Dev.i2c_dev_handle_pi4ioe1 [0x05, w] ∈ (bsp_reset_tp 10 s).log →
        ¬ ((w.testBit 4 = (s.regs Dev.i2c_dev_handle_pi4ioe1 0x05).testBit 4) ↔
            ¬ (w.testBit 5 = (s.regs Dev.i2c_dev_handle_pi4ioe1 0x05).testBit 5))) := by
  intro h
  have h1 := h (Expander.healthy (fun _ _ => 0x56)) 0x46 rfl (by decide) rfl (by decide)
  revert h1
  decide

/-- C15 (amended): for every byte `b` returned by the read of expander-1's
output register, and a tick period that divides 100 ms, `bsp_reset_tp` resets
GPIO 23, reads the register and then issues exactly: one write of `b` with
bits 4 and 5 both cleared, a 100 ms delay, one write of `b` with bits 4 and 5
both set, a 100 ms delay; in each write bits 4 and 5 are at the same level, and
bits 0-3, 6 and 7 of both written bytes equal those of `b`. -/
theorem reset_tp_sequence (p : Nat) (s : Expander) (hp : p ∣ 100)
    (hread : s.outcome s.count = ESP_OK)
    (hb : s.regs Dev.i2c_dev_handle_pi4ioe1 0x05 < 256) :
    ∃ w0 w1,
      (bsp_reset_tp p s).log =
        s.log ++ [I2cEvent.gpio_reset_pin 23,
          I2cEvent.transmit_receive Dev.i2c_dev_handle_pi4ioe1 [0x05] 1,
          I2cEvent.transmit Dev.i2c_dev_handle_pi4ioe1 [0x05, w0], I2cEvent.delay_ms 100,
          I2cEvent.transmit Dev.i2c_dev_handle_pi4ioe1 [0x05, w1], I2cEvent.delay_ms 100] ∧
      (∀ i, w0.testBit i =
        if i = 4 ∨ i = 5 then false
        else (s.regs Dev.i2c_dev_handle_pi4ioe1 0x05).testBit i) ∧
      (∀ i, w1.testBit i =
        if i = 4 ∨ i = 5 then true
        else (s.regs Dev.i2c_dev_handle_pi4ioe1 0x05).testBit i) ∧
      w0.testBit 4 = w0.testBit 5 ∧ w1.testBit 4 = w1.testBit 5 := by
  have hd : 100 / p * p = 100 := Nat.div_mul_cancel hp
  have hw0 : ∀ i, (clrbit (clrbit (s.regs Dev.i2c_dev_handle_pi4ioe1 0x05) 4) 5).testBit i =
      if i = 4 ∨ i = 5 then false
      else (s.regs Dev.i2c_dev_handle_pi4ioe1 0x05).testBit i := by
    intro i
    rw [testBit_clrbit (clrbit_lt _ _), testBit_clrbit hb]
    by_cases h4 : i = 4
    · simp [h4]
    · by_cases h5 : i = 5 <;> simp [h4, h5]
  have hw1 : ∀ i, (setbit (setbit (s.regs Dev.i2c_dev_handle_pi4ioe1 0x05) 4) 5).testBit i =
      if i = 4 ∨ i = 5 then true
      else (s.regs Dev.i2c_dev_handle_pi4ioe1 0x05).testBit i := by
    intro i
    rw [testBit_setbit (setbit_lt _ _) (by decide), testBit_setbit hb (by decide)]
    by_cases h4 : i = 4
    · simp [h4]
    · by_cases h5 : i = 5 <;> simp [h4, h5]
  refine ⟨clrbit (clrbit (s.regs Dev.i2c_dev_handle_pi4ioe1 0x05) 4) 5,
    setbit (setbit (s.regs Dev.i2c_dev_handle_pi4ioe1 0x05) 4) 5, ?_, hw0, hw1, ?_, ?_⟩
  · have hcnt : (gpio_reset_pin GPIO_NUM_23 s).outcome (gpio_reset_pin GPIO_NUM_23 s).count
        = ESP_OK := hread
    simp only [bsp_reset_tp, vTaskDelay_log, i2c_master_transmit_log,
      i2c_master_transmit_receive_log, i2c_master_transmit_receive_buf, hcnt, if_true, hd]
    simp [gpio_reset_pin, PI4IO_REG_OUT_SET, GPIO_NUM_23]
  · rw [hw0 4, hw0 5]; simp
  · rw [hw1 4, hw1 5]; simp

/-- Witness for C15 (amended): a 10 ms tick and a healthy expander 1 whose
output register holds 0x56. -/
theorem reset_tp_sequence_witness :
    ∃ w0 w1,
      (bsp_reset_tp 10 (Expander.healthy (fun _ _ => 0x56))).log =
        (Expander.healthy (fun _ _ => 0x56)).log ++ [I2cEvent.gpio_reset_pin 23,
          I2cEvent.transmit_receive Dev.i2c_dev_handle_pi4ioe1 [0x05] 1,
          I2cEvent.transmit Dev.i2c_dev_handle_pi4ioe1 [0x05, w0], I2cEvent.delay_ms 100,
          I2cEvent.transmit Dev.i2c_dev_handle_pi4ioe1 [0x05, w1], I2cEvent.delay_ms 100] ∧
      (∀ i, w0.testBit i =
        if i = 4 ∨ i = 5 then false
        else ((Expander.healthy (fun _ _ => 0x56)).regs
          Dev.i2c_dev_handle_pi4ioe1 0x05).testBit i) ∧
      (∀ i, w1.testBit i =
        if i = 4 ∨ i = 5 then true
        else ((Expander.healthy (fun _ _ => 0x56)).regs
          Dev.i2c_dev_handle_pi4ioe1 0x05).testBit i) ∧
      w0.testBit 4 = w0.testBit 5 ∧ w1.testBit 4 = w1.testBit 5 :=
  reset_tp_sequence 10 (Expander.healthy (fun _ _ => 0x56)) (by decide) rfl (by decide)

/-! ## Claims on failed transactions of the rail operations -/

/-- Log of a rail operation whose read transaction fails: the write is still
issued, computed from the zero-initialised read buffer. -/
theorem set_rail_log_read_failed (r : Rail) (en : Bool) (s : Expander)
    (hread : s.outcome s.count ≠ ESP_OK) :
    (set_rail r en s).log = s.log ++ rail_trace r (rail_byte r en 0) := by
  cases r <;> cases en <;>
    simp [set_rail, bsp_set_charge_qc_en, bsp_set_charge_en, bsp_set_usb_5v_en,
      bsp_set_ext_5v_en, bsp_set_ext_antenna_enable, bsp_set_wifi_power_enable,
      bsp_set_touchpad_power_en, i2c_master_transmit, i2c_master_transmit_receive, hread,
      rail_trace, rail_byte, off_level, wiring_chip, wiring_bit, PI4IO_REG_OUT_SET] <;>
    split_ifs <;> simp

/-- The registers and the bus log after a rail operation depend on which
transactions fail, not on the error codes they fail with. -/
theorem set_rail_error_code_irrelevant (r : Rail) (en : Bool) (s t : Expander)
    (hregs : t.regs = s.regs) (hcount : t.count = s.count) (hlog : t.log = s.log)
    (hpat : ∀ n, t.outcome n = ESP_OK ↔ s.outcome n = ESP_OK) :
    (set_rail r en t).regs = (set_rail r en s).regs ∧
      (set_rail r en t).log = (set_rail r en s).log := by
  obtain ⟨tregs, toutcome, tcount, tlog⟩ := t
  simp only at hregs hcount hlog hpat
  subst hregs hcount hlog
  by_cases h0 : s.outcome s.count = ESP_OK <;>
  by_cases h1 : s.outcome (s.count + 1) = ESP_OK <;>
  by_cases h2 : s.outcome (s.count + 1 + 1) = ESP_OK <;>
  cases r <;> cases en <;>
    simp [set_rail, bsp_set_charge_qc_en, bsp_set_charge_en, bsp_set_usb_5v_en,
      bsp_set_ext_5v_en, bsp_set_ext_antenna_enable, bsp_set_wifi_power_enable,
      bsp_set_touchpad_power_en, i2c_master_transmit, i2c_master_transmit_receive, hpat,
      h0, h1, h2]

/-- C18 (as stated, refuted): no function of what the caller of a rail
operation can observe (the `void` result, the registers, the bus traffic)
gives back the error code of a failed read: two runs that differ only in the
error code, `ESP_FAIL` or `ESP_ERR_INVALID_STATE`, look the same. -/
theorem set_rail_error_not_propagated :
    ¬ ∃ status : Unit × (Dev → Nat → Nat) × List I2cEvent → esp_err_t,
        ∀ (r : Rail) (en : Bool) (s : Expander), s.outcome s.count ≠ ESP_OK →
          status (caller_view r en s) = s.outcome s.count := by
  rintro ⟨status, h⟩
  have h1 := h Rail.usb_5v true
    { regs := fun _ _ => 0x09, outcome := fun _ => ESP_FAIL, count := 0, log := [] }
    (by decide)
  have h2 := h Rail.usb_5v true
    { regs := fun _ _ => 0x09, outcome := fun _ => ESP_ERR_INVALID_STATE, count := 0, log := [] }
    (by decide)
  have hv := set_rail_error_code_irrelevant Rail.usb_5v true
    { regs := fun _ _ => 0x09, outcome := fun _ => ESP_FAIL, count := 0, log := [] }
    { regs := fun _ _ => 0x09, outcome := fun _ => ESP_ERR_INVALID_STATE, count := 0, log := [] }
    rfl rfl rfl
    (by intro n; show (ESP_ERR_INVALID_STATE = ESP_OK ↔ ESP_FAIL = ESP_OK); decide)
  have hview : caller_view Rail.usb_5v true
      { regs := fun _ _ => 0x09, outcome := fun _ => ESP_ERR_INVALID_STATE, count := 0,
        log := [] } =
      caller_view Rail.usb_5v true
      { regs := fun _ _ => 0x09, outcome := fun _ => ESP_FAIL, count := 0, log := [] } := by
    simp only [caller_view, hv.1, hv.2]
  rw [hview, h1] at h2
  revert h2
  decide

/-- C18 (amended): for every rail operation and every outcome of its
transactions, a failed read or write is not retried, the operation issuing its
one read and its one write (the Wi-Fi operation also its trailing read) and
nothing more, and the error code is discarded: the function returns no value,
and the registers and the bus log after the call are the same for any two
drivers that fail at the same transactions with different error codes. -/
theorem set_rail_failure_discarded (r : Rail) (en : Bool) (s t : Expander)
    (hregs : t.regs = s.regs) (hcount : t.count = s.count) (hlog : t.log = s.log)
    (hpat : ∀ n, t.outcome n = ESP_OK ↔ s.outcome n = ESP_OK) :
    (∃ w, (set_rail r en s).log = s.log ++ rail_trace r w) ∧
    (set_rail r en t).regs = (set_rail r en s).regs ∧
    (set_rail r en t).log = (set_rail r en s).log := by
  refine ⟨?_, set_rail_error_code_irrelevant r en s t hregs hcount hlog hpat⟩
  by_cases h0 : s.outcome s.count = ESP_OK
  · exact ⟨_, set_rail_log r en s h0⟩
  · exact ⟨_, set_rail_log_read_failed r en s h0⟩

/-- Witness for C18 (amended): charge enable with a driver that fails every
transaction with `ESP_FAIL`, against one that fails them with
`ESP_ERR_INVALID_STATE`. -/
theorem set_rail_failure_discarded_witness :
    (∃ w, (set_rail Rail.charge true
        { regs := fun _ _ => 0x09, outcome := fun _ => ESP_FAIL, count := 0, log := [] }).log =
      ({ regs := fun _ _ => 0x09, outcome := fun _ => ESP_FAIL, count := 0, log := [] } :
        Expander).log ++ rail_trace Rail.charge w) ∧
    (set_rail Rail.charge true
        { regs := fun _ _ => 0x09, outcome := fun _ => ESP_ERR_INVALID_STATE, count := 0,
          log := [] }).regs =
      (set_rail Rail.charge true
        { regs := fun _ _ => 0x09, outcome := fun _ => ESP_FAIL, count := 0, log := [] }).regs ∧
    (set_rail Rail.charge true
        { regs := fun _ _ => 0x09, outcome := fun _ => ESP_ERR_INVALID_STATE, count := 0,
          log := [] }).log =
      (set_rail Rail.charge true
        { regs := fun _ _ => 0x09, outcome := fun _ => ESP_FAIL, count := 0, log := [] }).log :=
  set_rail_failure_discarded Rail.charge true
    { regs := fun _ _ => 0x09, outcome := fun _ => ESP_FAIL, count := 0, log := [] }
    { regs := fun _ _ => 0x09, outcome := fun _ => ESP_ERR_INVALID_STATE, count := 0, log := [] }
    rfl rfl rfl
    (by intro n; show (ESP_ERR_INVALID_STATE = ESP_OK ↔ ESP_FAIL = ESP_OK); decide)

/-! ## Claims on the expander bring-up -/

theorem i2c_master_bus_add_device_log (bus_handle : i2c_master_bus_handle_t)
    (cfg : i2c_device_config_t) (d : Dev) (s : Expander) :
    (i2c_master_bus_add_device bus_handle cfg d s).2.log =
      s.log ++ [I2cEvent.bus_add_device bus_handle cfg d] := rfl

theorem i2c_master_bus_add_device_count (bus_handle : i2c_master_bus_handle_t)
    (cfg : i2c_device_config_t) (d : Dev) (s : Expander) :
    (i2c_master_bus_add_device bus_handle cfg d s).2.count = s.count + 1 := rfl

theorem i2c_master_bus_add_device_outcome (bus_handle : i2c_master_bus_handle_t)
    (cfg : i2c_device_config_t) (d : Dev) (s : Expander) :
    (i2c_master_bus_add_device bus_handle cfg d s).2.outcome = s.outcome := rfl

theorem i2c_master_bus_add_device_status (bus_handle : i2c_master_bus_handle_t)
    (cfg : i2c_device_config_t) (d : Dev) (s : Expander) :
    (i2c_master_bus_add_device bus_handle cfg d s).1 = s.outcome s.count := rfl

/-- When the first attachment fails the bring-up aborts right after it. -/
theorem pi4ioe_init_first_attach_fails (bus_handle : i2c_master_bus_handle_t) (s : Expander)
    (h0 : s.outcome s.count ≠ ESP_OK) :
    (bsp_io_expander_pi4ioe_init bus_handle s).is_aborted = true ∧
    (bsp_io_expander_pi4ioe_init bus_handle s).state.log =
      s.log ++ [attach_event bus_handle 0x43 Dev.i2c_dev_handle_pi4ioe1] := by
  simp [bsp_io_expander_pi4ioe_init, ESP_ERROR_CHECK, i2c_master_bus_add_device, h0,
    Run.is_aborted, Run.state, attach_event, I2C_DEV_ADDR_PI4IOE1]

/-- When the second attachment fails the bring-up aborts right after it,
whatever the outcomes of the register transactions on expander 1. -/
theorem pi4ioe_init_second_attach_fails (bus_handle : i2c_master_bus_handle_t)
    (s : Expander) (h0 : s.outcome s.count = ESP_OK) (h8 : s.outcome (s.count + 8) ≠ ESP_OK) :
    (bsp_io_expander_pi4ioe_init bus_handle s).is_aborted = true ∧
    (bsp_io_expander_pi4ioe_init bus_handle s).state.log =
      s.log ++ [attach_event bus_handle 0x43 Dev.i2c_dev_handle_pi4ioe1] ++ pi4ioe1_sequence ++
        [attach_event bus_handle 0x44 Dev.i2c_dev_handle_pi4ioe2] := by
  have hc : s.count + 1 + 1 + 1 + 1 + 1 + 1 + 1 + 1 = s.count + 8 := by omega
  simp only [bsp_io_expander_pi4ioe_init, ESP_ERROR_CHECK, i2c_master_bus_add_device_status,
    i2c_master_bus_add_device_log, i2c_master_bus_add_device_count,
    i2c_master_bus_add_device_outcome, i2c_master_transmit_log, i2c_master_transmit_count,
    i2c_master_transmit_outcome, i2c_master_transmit_receive_log,
    i2c_master_transmit_receive_count, i2c_master_transmit_receive_outcome, h0, hc, h8]
  simp [Run.is_aborted, Run.state, attach_event, pi4ioe1_sequence, I2C_DEV_ADDR_PI4IOE1,
    I2C_DEV_ADDR_PI4IOE2, PI4IO_REG_CHIP_RESET, PI4IO_REG_IO_DIR, PI4IO_REG_OUT_H_IM,
    PI4IO_REG_PULL_SEL, PI4IO_REG_PULL_EN, PI4IO_REG_OUT_SET, h8,
    i2c_master_bus_add_device_log, i2c_master_transmit_log, i2c_master_transmit_receive_log]

/-- When both attachments succeed the bring-up returns after issuing every
transaction of both sequences, whatever the outcomes of the register
transactions. -/
theorem pi4ioe_init_attached (bus_handle : i2c_master_bus_handle_t)
    (s : Expander) (h0 : s.outcome s.count = ESP_OK) (h8 : s.outcome (s.count + 8) = ESP_OK) :
    (bsp_io_expander_pi4ioe_init bus_handle s).is_aborted = false ∧
    (bsp_io_expander_pi4ioe_init bus_handle s).state.log =
      s.log ++ [attach_event bus_handle 0x43 Dev.i2c_dev_handle_pi4ioe1] ++ pi4ioe1_sequence ++
        [attach_event bus_handle 0x44 Dev.i2c_dev_handle_pi4ioe2] ++ pi4ioe2_sequence := by
  have hc : s.count + 1 + 1 + 1 + 1 + 1 + 1 + 1 + 1 = s.count + 8 := by omega
  simp only [bsp_io_expander_pi4ioe_init, ESP_ERROR_CHECK, i2c_master_bus_add_device_status,
    i2c_master_bus_add_device_log, i2c_master_bus_add_device_count,
    i2c_master_bus_add_device_outcome, i2c_master_transmit_log, i2c_master_transmit_count,
    i2c_master_transmit_outcome, i2c_master_transmit_receive_log,
    i2c_master_transmit_receive_count, i2c_master_transmit_receive_outcome, h0, hc, h8]
  simp [Run.is_aborted, Run.state, attach_event, pi4ioe1_sequence, pi4ioe2_sequence,
    I2C_DEV_ADDR_PI4IOE1, I2C_DEV_ADDR_PI4IOE2, PI4IO_REG_CHIP_RESET, PI4IO_REG_IO_DIR,
    PI4IO_REG_OUT_H_IM, PI4IO_REG_PULL_SEL, PI4IO_REG_PULL_EN, PI4IO_REG_OUT_SET,
    PI4IO_REG_IN_DEF_STA, PI4IO_REG_INT_MASK, h8,
    i2c_master_bus_add_device_log, i2c_master_transmit_log, i2c_master_transmit_receive_log]

/-- C19 (as stated, refuted): when the first register write of the bring-up
(transaction 1, the reset write to expander 1) fails and every other
transaction succeeds, the function does not abort. -/
theorem pi4ioe_init_register_failure_not_fatal :
    ¬ (∀ (bus_handle : i2c_master_bus_handle_t) (s : Expander) (k : Nat), k < 18 →
        (∀ j, j < k → s.outcome (s.count + j) = ESP_OK) →
        s.outcome (s.count + k) ≠ ESP_OK →
        (bsp_io_expander_pi4ioe_init bus_handle s).is_aborted = true ∧
        (bsp_io_expander_pi4ioe_init bus_handle s).state.log.length =
          s.log.length + (k + 1)) := by
  intro h
  have h1 := (h (some 1)
    { regs := fun _ _ => 0, outcome := fun n => if n = 1 then ESP_FAIL else ESP_OK,
      count := 0, log := [] } 1 (by decide)
    (by intro j hj; have hj0 : j = 0 := by omega
        subst hj0; decide)
    (by decide)).1
  have h2 := (pi4ioe_init_attached (some 1)
    { regs := fun _ _ => 0, outcome := fun n => if n = 1 then ESP_FAIL else ESP_OK,
      count := 0, log := [] } (by decide) (by decide)).1
  rw [h2] at h1
  exact absurd h1 (by decide)

/-- C19 (amended): the bring-up aborts only when attaching a device fails.
When the first attachment fails it aborts right after it; when the second
attachment fails it aborts right after it, the register transactions of
expander 1 having all been issued; when both attachments succeed it returns
after issuing every register transaction of both chips, whichever of them
failed. -/
theorem pi4ioe_init_aborts_on_attach_only (bus_handle : i2c_master_bus_handle_t)
    (s : Expander) :
    (s.outcome s.count ≠ ESP_OK →
      (bsp_io_expander_pi4ioe_init bus_handle s).is_aborted = true ∧
      (bsp_io_expander_pi4ioe_init bus_handle s).state.log =
        s.log ++ [attach_event bus_handle 0x43 Dev.i2c_dev_handle_pi4ioe1]) ∧
    (s.outcome s.count = ESP_OK → s.outcome (s.count + 8) ≠ ESP_OK →
      (bsp_io_expander_pi4ioe_init bus_handle s).is_aborted = true ∧
      (bsp_io_expander_pi4ioe_init bus_handle s).state.log =
        s.log ++ [attach_event bus_handle 0x43 Dev.i2c_dev_handle_pi4ioe1] ++
          pi4ioe1_sequence ++ [attach_event bus_handle 0x44 Dev.i2c_dev_handle_pi4ioe2]) ∧
    (s.outcome s.count = ESP_OK → s.outcome (s.count + 8) = ESP_OK →
      (bsp_io_expander_pi4ioe_init bus_handle s).is_aborted = false ∧
      (bsp_io_expander_pi4ioe_init bus_handle s).state.log =
        s.log ++ [attach_event bus_handle 0x43 Dev.i2c_dev_handle_pi4ioe1] ++
          pi4ioe1_sequence ++ [attach_event bus_handle 0x44 Dev.i2c_dev_handle_pi4ioe2] ++
          pi4ioe2_sequence) :=
  ⟨pi4ioe_init_first_attach_fails bus_handle s,
   pi4ioe_init_second_attach_fails bus_handle s,
   pi4ioe_init_attached bus_handle s⟩

/-- Witness for C19 (amended): a driver that fails every register
transaction and succeeds on both attachments. -/
theorem pi4ioe_init_aborts_on_attach_only_witness :
    (bsp_io_expander_pi4ioe_init (some 1)
      { regs := fun _ _ => 0, outcome := fun n => if n = 0 ∨ n = 8 then ESP_OK else ESP_FAIL,
        count := 0, log := [] }).is_aborted = false ∧
    (bsp_io_expander_pi4ioe_init (some 1)
      { regs := fun _ _ => 0, outcome := fun n => if n = 0 ∨ n = 8 then ESP_OK else ESP_FAIL,
        count := 0, log := [] }).state.log =
      [] ++ [attach_event (some 1) 0x43 Dev.i2c_dev_handle_pi4ioe1] ++
        pi4ioe1_sequence ++ [attach_event (some 1) 0x44 Dev.i2c_dev_handle_pi4ioe2] ++
        pi4ioe2_sequence :=
  (pi4ioe_init_aborts_on_attach_only (some 1)
    { regs := fun _ _ => 0, outcome := fun n => if n = 0 ∨ n = 8 then ESP_OK else ESP_FAIL,
      count := 0, log := [] }).2.2 (by decide) (by decide)

/-- C20 (as stated, refuted): after a bring-up on healthy chips, the
transactions addressed to expander 2 are not the seven of the stated
sequence: there are nine of them. -/
theorem pi4ioe2_sequence_not_as_stated :
    ¬ (∀ (d : Dev) (bus_handle : i2c_master_bus_handle_t) (s : Expander),
        s.outcome s.count = ESP_OK → s.outcome (s.count + 8) = ESP_OK → s.log = [] →
        spec_chip_sequence d
          (events_to d (bsp_io_expander_pi4ioe_init bus_handle s).state.log)) := by
  intro h
  obtain ⟨dir, him, psel, pen, out, hseq⟩ :=
    h Dev.i2c_dev_handle_pi4ioe2 (some 1) (Expander.healthy (fun _ _ => 0)) rfl rfl rfl
  rw [(pi4ioe_init_attached (some 1) (Expander.healthy (fun _ _ => 0)) rfl rfl).2] at hseq
  have hlen := congrArg List.length hseq
  have hnine : (events_to Dev.i2c_dev_handle_pi4ioe2
      ((Expander.healthy (fun _ _ => 0)).log ++
        [attach_event (some 1) 0x43 Dev.i2c_dev_handle_pi4ioe1] ++ pi4ioe1_sequence ++
        [attach_event (some 1) 0x44 Dev.i2c_dev_handle_pi4ioe2] ++ pi4ioe2_sequence)).length
      = 9 := by decide
  rw [hnine] at hlen
  simp at hlen

/-- C20 (amended): when both attachments succeed, the bring-up attaches
expander 1 (7-bit address 0x43, 400 kHz) and issues to it exactly the stated
seven transactions, then attaches expander 2 (7-bit address 0x44, 400 kHz) and
issues to it the same kind of sequence with two more writes, to the input
default state register (0x09) and to the interrupt mask register (0x11),
between the pull-enable write and the final write to the output register. -/
theorem pi4ioe_init_sequences (bus_handle : i2c_master_bus_handle_t) (s : Expander)
    (h0 : s.outcome s.count = ESP_OK) (h8 : s.outcome (s.count + 8) = ESP_OK) :
    (bsp_io_expander_pi4ioe_init bus_handle s).state.log =
      s.log ++ [attach_event bus_handle 0x43 Dev.i2c_dev_handle_pi4ioe1] ++
        pi4ioe1_sequence ++ [attach_event bus_handle 0x44 Dev.i2c_dev_handle_pi4ioe2] ++
        pi4ioe2_sequence ∧
    spec_chip_sequence Dev.i2c_dev_handle_pi4ioe1 pi4ioe1_sequence ∧
    (∃ dir him psel pen out, pi4ioe2_sequence =
      [I2cEvent.transmit Dev.i2c_dev_handle_pi4ioe2 [0x01, 0xFF],
       I2cEvent.transmit_receive Dev.i2c_dev_handle_pi4ioe2 [0x01] 1,
       I2cEvent.transmit Dev.i2c_dev_handle_pi4ioe2 [0x03, dir],
       I2cEvent.transmit Dev.i2c_dev_handle_pi4ioe2 [0x07, him],
       I2cEvent.transmit Dev.i2c_dev_handle_pi4ioe2 [0x0D, psel],
       I2cEvent.transmit Dev.i2c_dev_handle_pi4ioe2 [0x0B, pen],
       I2cEvent.transmit Dev.i2c_dev_handle_pi4ioe2 [0x09, 0b01000000],
       I2cEvent.transmit Dev.i2c_dev_handle_pi4ioe2 [0x11, 0b10111111],
       I2cEvent.transmit Dev.i2c_dev_handle_pi4ioe2 [0x05, out]]) :=
  ⟨(pi4ioe_init_attached bus_handle s h0 h8).2,
   ⟨_, _, _, _, _, rfl⟩, ⟨_, _, _, _, _, rfl⟩⟩

/-- Witness for C20 (amended): healthy chips and bus handle 1. -/
theorem pi4ioe_init_sequences_witness :
    (bsp_io_expander_pi4ioe_init (some 1) (Expander.healthy (fun _ _ => 0))).state.log =
      (Expander.healthy (fun _ _ => 0)).log ++
        [attach_event (some 1) 0x43 Dev.i2c_dev_handle_pi4ioe1] ++
        pi4ioe1_sequence ++ [attach_event (some 1) 0x44 Dev.i2c_dev_handle_pi4ioe2] ++
        pi4ioe2_sequence ∧
    spec_chip_sequence Dev.i2c_dev_handle_pi4ioe1 pi4ioe1_sequence ∧
    (∃ dir him psel pen out, pi4ioe2_sequence =
      [I2cEvent.transmit Dev.i2c_dev_handle_pi4ioe2 [0x01, 0xFF],
       I2cEvent.transmit_receive Dev.i2c_dev_handle_pi4ioe2 [0x01] 1,
       I2cEvent.transmit Dev.i2c_dev_handle_pi4ioe2 [0x03, dir],
       I2cEvent.transmit Dev.i2c_dev_handle_pi4ioe2 [0x07, him],
       I2cEvent.transmit Dev.i2c_dev_handle_pi4ioe2 [0x0D, psel],
       I2cEvent.transmit Dev.i2c_dev_handle_pi4ioe2 [0x0B, pen],
       I2cEvent.transmit Dev.i2c_dev_handle_pi4ioe2 [0x09, 0b01000000],
       I2cEvent.transmit Dev.i2c_dev_handle_pi4ioe2 [0x11, 0b10111111],
       I2cEvent.transmit Dev.i2c_dev_handle_pi4ioe2 [0x05, out]]) :=
  pi4ioe_init_sequences (some 1) (Expander.healthy (fun _ _ => 0)) rfl rfl

/-! ## Claims on the initial values and the direction masks -/

/-- C21 (code evaluated at the failing input): the bring-up writes 0x76 to
the output register of expander 1, whose set bits are exactly the pins the
comment names (1, 2, 4, 5, 6), and 0x09 to the output register of expander 2,
whose set bits are pins 0 and 3 only: bit 7, which the comment names as driven
high, is clear. -/
theorem init_output_values :
    init_register_value Dev.i2c_dev_handle_pi4ioe1 0x05 = some 0b01110110 ∧
    (∀ i, i < 8 → ((0b01110110 : Nat).testBit i = true ↔
      i ∈ documented_high Dev.i2c_dev_handle_pi4ioe1)) ∧
    init_register_value Dev.i2c_dev_handle_pi4ioe2 0x05 = some 0b00001001 ∧
    (0b00001001 : Nat).testBit 0 = true ∧ (0b00001001 : Nat).testBit 3 = true ∧
    7 ∈ documented_high Dev.i2c_dev_handle_pi4ioe2 ∧ (0b00001001 : Nat).testBit 7 = false := by
  refine ⟨by decide, by decide, by decide, by decide, by decide, by decide, by decide⟩

/-- C26: the direction masks that the bring-up writes (register 0x03, a set
bit meaning output) have a 1 at every bit that a rail operation, the power-off
pulse or the touch reset writes (expander 1: bits 0, 2, 4, 5; expander 2:
bits 0, 3, 4, 5, 7) and a 0 at every bit that a detect operation reads
(expander 1 bit 7, expander 2 bit 6). -/
theorem direction_masks_match_use :
    ∃ m1 m2, init_register_value Dev.i2c_dev_handle_pi4ioe1 0x03 = some m1 ∧
      init_register_value Dev.i2c_dev_handle_pi4ioe2 0x03 = some m2 ∧
      (∀ r : Rail, (if wiring_chip r = Dev.i2c_dev_handle_pi4ioe1 then m1 else m2).testBit
        (wiring_bit r) = true) ∧
      (m1.testBit 0 = true ∧ m1.testBit 2 = true ∧ m1.testBit 4 = true ∧
        m1.testBit 5 = true) ∧
      (m2.testBit 0 = true ∧ m2.testBit 3 = true ∧ m2.testBit 4 = true ∧
        m2.testBit 5 = true ∧ m2.testBit 7 = true) ∧
      m1.testBit 7 = false ∧ m2.testBit 6 = false := by
  refine ⟨0b01111111, 0b10111001, by decide, by decide, ?_, by decide, by decide,
    by decide, by decide⟩
  intro r
  cases r <;> decide

/-! ## Claims on the transactions of a rail operation -/

/-- C22 (as stated, refuted): `bsp_set_wifi_power_enable` issues three bus
transactions, not two: after the write it reads the output register again. -/
theorem wifi_power_three_transactions :
    ¬ (∀ (r : Rail) (en : Bool) (s : Expander), ∃ w,
        (set_rail r en s).log =
          s.log ++ [I2cEvent.transmit_receive (wiring_chip r) [0x05] 1,
                    I2cEvent.transmit (wiring_chip r) [0x05, w]]) := by
  intro h
  obtain ⟨w, hw⟩ := h Rail.wifi_power true (Expander.healthy (fun _ _ => 0))
  rw [set_rail_log Rail.wifi_power true _ rfl] at hw
  have hlen := congrArg List.length hw
  simp [rail_trace, Expander.healthy] at hlen

/-- C22 (amended): every rail operation issues, whatever the outcomes, one
1-byte transmit-receive that reads the output register (0x05) of its chip and
then one 2-byte transmit (register address 0x05 followed by the modified byte)
to the same chip; these are its only transactions, except that the Wi-Fi power
operation ends with a third one, a second 1-byte read of the same register. -/
theorem set_rail_transactions (r : Rail) (en : Bool) (s : Expander) :
    ∃ w, (set_rail r en s).log =
      s.log ++ [I2cEvent.transmit_receive (wiring_chip r) [0x05] 1,
                I2cEvent.transmit (wiring_chip r) [0x05, w]] ++
        (if r = Rail.wifi_power then [I2cEvent.transmit_receive (wiring_chip r) [0x05] 1]
         else []) := by
  by_cases h0 : s.outcome s.count = ESP_OK
  · refine ⟨rail_byte r en (s.regs (wiring_chip r) PI4IO_REG_OUT_SET), ?_⟩
    rw [set_rail_log r en s h0]
    simp [rail_trace, PI4IO_REG_OUT_SET]
  · refine ⟨rail_byte r en 0, ?_⟩
    rw [set_rail_log_read_failed r en s h0]
    simp [rail_trace, PI4IO_REG_OUT_SET]

/-- Register file after a rail operation whose read fails and whose write
succeeds. -/
theorem set_rail_regs_read_failed (r : Rail) (en : Bool) (s : Expander)
    (hread : s.outcome s.count ≠ ESP_OK) (hwrite : s.outcome (s.count + 1) = ESP_OK) :
    (set_rail r en s).regs = fun d a =>
      if d = wiring_chip r ∧ a = PI4IO_REG_OUT_SET then rail_byte r en 0
      else s.regs d a := by
  cases r <;> cases en <;>
    simp [set_rail, bsp_set_charge_qc_en, bsp_set_charge_en, bsp_set_usb_5v_en,
      bsp_set_ext_5v_en, bsp_set_ext_antenna_enable, bsp_set_wifi_power_enable,
      bsp_set_touchpad_power_en, i2c_master_transmit, i2c_master_transmit_receive, hread,
      hwrite, rail_byte, off_level, wiring_chip, wiring_bit, PI4IO_REG_OUT_SET] <;>
    split_ifs <;> simp

/-- The byte a rail operation computes from a zero read buffer. -/
theorem rail_byte_zero (r : Rail) (en : Bool) :
    rail_byte r en 0 =
      if r = Rail.charge_qc then (if en then 0x00 else 0x20)
      else (if en then 1 <<< wiring_bit r else 0x00) := by
  cases r <;> cases en <;> decide

/-- C25: if the read transaction of a rail operation fails and leaves the
reply buffer as initialised (0x00), the operation still issues its write, and
the written byte has every bit other than the target bit cleared: a
non-inverted operation writes `1 << bit` for true and 0x00 for false, charge-QC
writes 0x00 for true and 0x20 for false; when the write succeeds the output
register of that chip holds this byte, so every other rail of the chip is at 0
whatever its previous value. -/
theorem set_rail_read_failure_clobbers (r : Rail) (en : Bool) (s : Expander)
    (hread : s.outcome s.count ≠ ESP_OK) :
    ∃ w, w = (if r = Rail.charge_qc then (if en then 0x00 else 0x20)
              else (if en then 1 <<< wiring_bit r else 0x00)) ∧
      (set_rail r en s).log = s.log ++ rail_trace r w ∧
      (∀ i, i ≠ wiring_bit r → w.testBit i = false) ∧
      (s.outcome (s.count + 1) = ESP_OK →
        (set_rail r en s).regs (wiring_chip r) 0x05 = w) := by
  refine ⟨rail_byte r en 0, rail_byte_zero r en, set_rail_log_read_failed r en s hread, ?_, ?_⟩
  · intro i hi
    rw [testBit_rail_byte r en (by decide : (0 : Nat) < 256) i]
    simp [hi]
  · intro hwrite
    rw [set_rail_regs_read_failed r en s hread hwrite]
    simp [PI4IO_REG_OUT_SET]

/-- Witness for C25: USB 5V enable on an expander 2 whose output register
holds 0xA9, with a driver whose reads fail and whose writes succeed. -/
theorem set_rail_read_failure_clobbers_witness :
    ∃ w, w = (if Rail.usb_5v = Rail.charge_qc then (if true then 0x00 else 0x20)
              else (if true then 1 <<< wiring_bit Rail.usb_5v else 0x00)) ∧
      (set_rail Rail.usb_5v true
        { regs := fun _ _ => 0xA9, outcome := fun n => if n = 0 then ESP_FAIL else ESP_OK,
          count := 0, log := [] }).log =
        ({ regs := fun _ _ => 0xA9, outcome := fun n => if n = 0 then ESP_FAIL else ESP_OK,
           count := 0, log := [] } : Expander).log ++ rail_trace Rail.usb_5v w ∧
      (∀ i, i ≠ wiring_bit Rail.usb_5v → w.testBit i = false) ∧
      (({ regs := fun _ _ => 0xA9, outcome := fun n => if n = 0 then ESP_FAIL else ESP_OK,
          count := 0, log := [] } : Expander).outcome
          (({ regs := fun _ _ => 0xA9, outcome := fun n => if n = 0 then ESP_FAIL else ESP_OK,
              count := 0, log := [] } : Expander).count + 1) = ESP_OK →
        (set_rail Rail.usb_5v true
          { regs := fun _ _ => 0xA9, outcome := fun n => if n = 0 then ESP_FAIL else ESP_OK,
            count := 0, log := [] }).regs (wiring_chip Rail.usb_5v) 0x05 = w) :=
  set_rail_read_failure_clobbers Rail.usb_5v true
    { regs := fun _ _ => 0xA9, outcome := fun n => if n = 0 then ESP_FAIL else ESP_OK,
      count := 0, log := [] } (by decide)

/-! ## Claims on the register after the pulse sequences -/

/-- Register file after a power-off pulse in which no transaction fails. -/
theorem poweroff_regs (p : Nat) (s : Expander) (hok : ∀ n, s.outcome n = ESP_OK)
    (hb : s.regs Dev.i2c_dev_handle_pi4ioe2 0x05 < 256) :
    (bsp_generate_poweroff_signal p s).regs = fun d a =>
      if d = Dev.i2c_dev_handle_pi4ioe2 ∧ a = 0x05 then
        clrbit (setbit (s.regs Dev.i2c_dev_handle_pi4ioe2 0x05) 4) 4
      else s.regs d a := by
  have h1 := setbit_clrbit_setbit hb (by decide : 4 < 8)
  funext d a
  by_cases h : d = Dev.i2c_dev_handle_pi4ioe2 ∧ a = 5
  · simp [bsp_generate_poweroff_signal, poweroff_loop, i2c_master_transmit,
      i2c_master_transmit_receive, vTaskDelay, hok, PI4IO_REG_OUT_SET, h, h1]
  · simp [bsp_generate_poweroff_signal, poweroff_loop, i2c_master_transmit,
      i2c_master_transmit_receive, vTaskDelay, hok, PI4IO_REG_OUT_SET, h]

/-- Register file after a touch reset in which no transaction fails. -/
theorem reset_tp_regs (p : Nat) (s : Expander) (hok : ∀ n, s.outcome n = ESP_OK) :
    (bsp_reset_tp p s).regs = fun d a =>
      if d = Dev.i2c_dev_handle_pi4ioe1 ∧ a = 0x05 then
        setbit (setbit (s.regs Dev.i2c_dev_handle_pi4ioe1 0x05) 4) 5
      else s.regs d a := by
  funext d a
  by_cases h : d = Dev.i2c_dev_handle_pi4ioe1 ∧ a = 5
  · simp [bsp_reset_tp, gpio_reset_pin, i2c_master_transmit, i2c_master_transmit_receive,
      vTaskDelay, hok, PI4IO_REG_OUT_SET, h]
  · simp [bsp_reset_tp, gpio_reset_pin, i2c_master_transmit, i2c_master_transmit_receive,
      vTaskDelay, hok, PI4IO_REG_OUT_SET, h]

/-- C27: with no failing transaction and a tick period that divides 100 ms,
for every byte `b` of expander-2's output register, the power-off pulse reads
the register exactly once, every byte it writes equals `b` outside bit 4, the
register ends equal to `b` with bit 4 cleared, and every other register is
unchanged. -/
theorem poweroff_frame (p : Nat) (s : Expander) (hp : p ∣ 100)
    (hok : ∀ n, s.outcome n = ESP_OK)
    (hb : s.regs Dev.i2c_dev_handle_pi4ioe2 0x05 < 256) :
    ∃ w1 w0,
      (bsp_generate_poweroff_signal p s).log =
        s.log ++ [I2cEvent.transmit_receive Dev.i2c_dev_handle_pi4ioe2 [0x05] 1,
          I2cEvent.transmit Dev.i2c_dev_handle_pi4ioe2 [0x05, w1], I2cEvent.delay_ms 100,
          I2cEvent.transmit Dev.i2c_dev_handle_pi4ioe2 [0x05, w0], I2cEvent.delay_ms 100,
          I2cEvent.transmit Dev.i2c_dev_handle_pi4ioe2 [0x05, w1], I2cEvent.delay_ms 100,
          I2cEvent.transmit Dev.i2c_dev_handle_pi4ioe2 [0x05, w0], I2cEvent.delay_ms 100,
          I2cEvent.transmit Dev.i2c_dev_handle_pi4ioe2 [0x05, w1], I2cEvent.delay_ms 100,
          I2cEvent.transmit Dev.i2c_dev_handle_pi4ioe2 [0x05, w0], I2cEvent.delay_ms 100] ∧
      (∀ i, i ≠ 4 → w1.testBit i = (s.regs Dev.i2c_dev_handle_pi4ioe2 0x05).testBit i) ∧
      (∀ i, i ≠ 4 → w0.testBit i = (s.regs Dev.i2c_dev_handle_pi4ioe2 0x05).testBit i) ∧
      (∀ i, ((bsp_generate_poweroff_signal p s).regs Dev.i2c_dev_handle_pi4ioe2 0x05).testBit i =
        if i = 4 then false else (s.regs Dev.i2c_dev_handle_pi4ioe2 0x05).testBit i) ∧
      (∀ d a, ¬ (d = Dev.i2c_dev_handle_pi4ioe2 ∧ a = 0x05) →
        (bsp_generate_poweroff_signal p s).regs d a = s.regs d a) := by
  have hbuf : (i2c_master_transmit_receive Dev.i2c_dev_handle_pi4ioe2 [PI4IO_REG_OUT_SET, 0] 1
      [0] 1 s).2.1 = [s.regs Dev.i2c_dev_handle_pi4ioe2 0x05] := by
    rw [i2c_master_transmit_receive_buf]
    simp [hok, PI4IO_REG_OUT_SET]
  have hw0 : ∀ i, (clrbit (setbit (s.regs Dev.i2c_dev_handle_pi4ioe2 0x05) 4) 4).testBit i =
      if i = 4 then false else (s.regs Dev.i2c_dev_handle_pi4ioe2 0x05).testBit i := by
    intro i
    rw [testBit_clrbit (setbit_lt _ _), testBit_setbit hb (by decide)]
    by_cases hi : i = 4 <;> simp [hi]
  refine ⟨setbit (s.regs Dev.i2c_dev_handle_pi4ioe2 0x05) 4,
    clrbit (setbit (s.regs Dev.i2c_dev_handle_pi4ioe2 0x05) 4) 4,
    poweroff_log_of_buffer p s hp _ hb hbuf, ?_, ?_, ?_, ?_⟩
  · intro i hi
    rw [testBit_setbit hb (by decide)]
    simp [hi]
  · intro i hi
    rw [hw0 i]
    simp [hi]
  · intro i
    rw [poweroff_regs p s hok hb]
    simpa using hw0 i
  · intro d a hda
    rw [poweroff_regs p s hok hb]
    simp only [hda, if_false]

/-- Witness for C27: a 10 ms tick and a healthy expander 2 whose output
register holds 0x99. -/
theorem poweroff_frame_witness :
    ∃ w1 w0,
      (bsp_generate_poweroff_signal 10 (Expander.healthy (fun _ _ => 0x99))).log =
        (Expander.healthy (fun _ _ => 0x99)).log ++
         [I2cEvent.transmit_receive Dev.i2c_dev_handle_pi4ioe2 [0x05] 1,
          I2cEvent.transmit Dev.i2c_dev_handle_pi4ioe2 [0x05, w1], I2cEvent.delay_ms 100,
          I2cEvent.transmit Dev.i2c_dev_handle_pi4ioe2 [0x05, w0], I2cEvent.delay_ms 100,
          I2cEvent.transmit Dev.i2c_dev_handle_pi4ioe2 [0x05, w1], I2cEvent.delay_ms 100,
          I2cEvent.transmit Dev.i2c_dev_handle_pi4ioe2 [0x05, w0], I2cEvent.delay_ms 100,
          I2cEvent.transmit Dev.i2c_dev_handle_pi4ioe2 [0x05, w1], I2cEvent.delay_ms 100,
          I2cEvent.transmit Dev.i2c_dev_handle_pi4ioe2 [0x05, w0], I2cEvent.delay_ms 100] ∧
      (∀ i, i ≠ 4 → w1.testBit i =
        ((Expander.healthy (fun _ _ => 0x99)).regs Dev.i2c_dev_handle_pi4ioe2 0x05).testBit i) ∧
      (∀ i, i ≠ 4 → w0.testBit i =
        ((Expander.healthy (fun _ _ => 0x99)).regs Dev.i2c_dev_handle_pi4ioe2 0x05).testBit i) ∧
      (∀ i, ((bsp_generate_poweroff_signal 10 (Expander.healthy (fun _ _ => 0x99))).regs
          Dev.i2c_dev_handle_pi4ioe2 0x05).testBit i =
        if i = 4 then false
        else ((Expander.healthy (fun _ _ => 0x99)).regs
          Dev.i2c_dev_handle_pi4ioe2 0x05).testBit i) ∧
      (∀ d a, ¬ (d = Dev.i2c_dev_handle_pi4ioe2 ∧ a = 0x05) →
        (bsp_generate_poweroff_signal 10 (Expander.healthy (fun _ _ => 0x99))).regs d a =
          (Expander.healthy (fun _ _ => 0x99)).regs d a) :=
  poweroff_frame 10 (Expander.healthy (fun _ _ => 0x99)) (by decide) (fun _ => rfl)
    (by decide)

/-- Setting bits 4 and 5 of a byte is the bitwise or with 0x30. -/
theorem setbit_4_5_eq_or {b : Nat} (hb : b < 256) : setbit (setbit b 4) 5 = b ||| 0x30 := by
  apply Nat.eq_of_testBit_eq
  intro i
  have h48 : (0x30 : Nat) = 2 ^ 4 ||| 2 ^ 5 := by decide
  rw [testBit_setbit (setbit_lt _ _) (by decide), testBit_setbit hb (by decide), h48,
    Nat.testBit_or, Nat.testBit_or, Nat.testBit_two_pow, Nat.testBit_two_pow]
  by_cases h4 : i = 4
  · simp [h4]
  · by_cases h5 : i = 5
    · simp [h5]
    · have h4' : ¬ 4 = i := fun h => h4 h.symm
      have h5' : ¬ 5 = i := fun h => h5 h.symm
      simp [h4, h5, h4', h5']

/-- C28: with no failing transaction, for every byte `b` of expander-1's
output register, `bsp_reset_tp` leaves the register equal to `b | 0x30`: bits
4 and 5 end set whatever their previous value and the other bits are those of
`b`, every other register being unchanged; in particular after
`bsp_set_touchpad_power_en(false)` has cleared bit 5, a touch reset sets it
again. -/
theorem reset_tp_final_register (p : Nat) (s : Expander) (hok : ∀ n, s.outcome n = ESP_OK)
    (hb : s.regs Dev.i2c_dev_handle_pi4ioe1 0x05 < 256) :
    (bsp_reset_tp p s).regs Dev.i2c_dev_handle_pi4ioe1 0x05 =
      s.regs Dev.i2c_dev_handle_pi4ioe1 0x05 ||| 0x30 ∧
    (∀ i, ((bsp_reset_tp p s).regs Dev.i2c_dev_handle_pi4ioe1 0x05).testBit i =
      if i = 4 ∨ i = 5 then true else (s.regs Dev.i2c_dev_handle_pi4ioe1 0x05).testBit i) ∧
    (∀ d a, ¬ (d = Dev.i2c_dev_handle_pi4ioe1 ∧ a = 0x05) →
      (bsp_reset_tp p s).regs d a = s.regs d a) ∧
    ((bsp_set_touchpad_power_en false s).regs Dev.i2c_dev_handle_pi4ioe1 0x05).testBit 5
      = false ∧
    ((bsp_reset_tp p (bsp_set_touchpad_power_en false s)).regs
      Dev.i2c_dev_handle_pi4ioe1 0x05).testBit 5 = true := by
  have hreg : (bsp_reset_tp p s).regs Dev.i2c_dev_handle_pi4ioe1 0x05 =
      setbit (setbit (s.regs Dev.i2c_dev_handle_pi4ioe1 0x05) 4) 5 := by
    rw [reset_tp_regs p s hok]; simp
  have hoff : (bsp_set_touchpad_power_en false s).regs Dev.i2c_dev_handle_pi4ioe1 0x05 =
      rail_byte Rail.touchpad_power false (s.regs Dev.i2c_dev_handle_pi4ioe1 0x05) := by
    have h := set_rail_regs Rail.touchpad_power false s (hok _) (hok _)
    simp only [set_rail] at h
    rw [h]
    simp [wiring_chip, PI4IO_REG_OUT_SET]
  have hok2 : ∀ n, (bsp_set_touchpad_power_en false s).outcome n = ESP_OK := by
    intro n
    have h := set_rail_outcome Rail.touchpad_power false s
    simp only [set_rail] at h
    rw [h]; exact hok n
  refine ⟨?_, ?_, ?_, ?_, ?_⟩
  · rw [hreg, setbit_4_5_eq_or hb]
  · intro i
    rw [hreg, testBit_setbit (setbit_lt _ _) (by decide), testBit_setbit hb (by decide)]
    by_cases h4 : i = 4
    · simp [h4]
    · by_cases h5 : i = 5 <;> simp [h4, h5]
  · intro d a hda
    rw [reset_tp_regs p s hok]
    simp only [hda, if_false]
  · rw [hoff, testBit_rail_byte Rail.touchpad_power false hb]
    simp [wiring_bit, off_level]
  · rw [reset_tp_regs p _ hok2]
    simp only [true_and, if_true]
    rw [testBit_setbit (setbit_lt _ _) (by decide)]
    simp

/-- Witness for C28: a 10 ms tick and a healthy expander 1 whose output
register holds 0x76. -/
theorem reset_tp_final_register_witness :
    (bsp_reset_tp 10 (Expander.healthy (fun _ _ => 0x76))).regs Dev.i2c_dev_handle_pi4ioe1 0x05 =
      (Expander.healthy (fun _ _ => 0x76)).regs Dev.i2c_dev_handle_pi4ioe1 0x05 ||| 0x30 ∧
    (∀ i, ((bsp_reset_tp 10 (Expander.healthy (fun _ _ => 0x76))).regs
        Dev.i2c_dev_handle_pi4ioe1 0x05).testBit i =
      if i = 4 ∨ i = 5 then true
      else ((Expander.healthy (fun _ _ => 0x76)).regs
        Dev.i2c_dev_handle_pi4ioe1 0x05).testBit i) ∧
    (∀ d a, ¬ (d = Dev.i2c_dev_handle_pi4ioe1 ∧ a = 0x05) →
      (bsp_reset_tp 10 (Expander.healthy (fun _ _ => 0x76))).regs d a =
        (Expander.healthy (fun _ _ => 0x76)).regs d a) ∧
    ((bsp_set_touchpad_power_en false (Expander.healthy (fun _ _ => 0x76))).regs
      Dev.i2c_dev_handle_pi4ioe1 0x05).testBit 5 = false ∧
    ((bsp_reset_tp 10 (bsp_set_touchpad_power_en false
      (Expander.healthy (fun _ _ => 0x76)))).regs
      Dev.i2c_dev_handle_pi4ioe1 0x05).testBit 5 = true :=
  reset_tp_final_register 10 (Expander.healthy (fun _ _ => 0x76)) (fun _ => rfl) (by decide)

/-! ## Claims on two rail operations -/

/-- A rail operation other than the Wi-Fi one is its read step followed by
its write step. -/
theorem set_rail_eq_steps (r : Rail) (en : Bool) (s : Expander) (hr : r ≠ Rail.wifi_power) :
    set_rail r en s = rail_write_step r en (rail_read_step r s).1 (rail_read_step r s).2 := by
  cases r <;> cases en <;>
    first
    | exact absurd rfl hr
    | (simp [set_rail, bsp_set_charge_qc_en, bsp_set_charge_en, bsp_set_usb_5v_en,
        bsp_set_ext_5v_en, bsp_set_ext_antenna_enable, bsp_set_touchpad_power_en,
        rail_write_step, rail_read_step, i2c_master_transmit, i2c_master_transmit_receive,
        rail_byte, off_level, wiring_chip, wiring_bit, PI4IO_REG_OUT_SET])

/-- The byte both orders of two rail operations on distinct bits produce. -/
theorem testBit_rail_byte_two (r1 r2 : Rail) (e1 e2 : Bool) {b : Nat} (hb : b < 256)
    (hbit : wiring_bit r1 ≠ wiring_bit r2) (i : Nat) :
    (rail_byte r2 e2 (rail_byte r1 e1 b)).testBit i =
      if i = wiring_bit r1 then (e1 != off_level r1)
      else if i = wiring_bit r2 then (e2 != off_level r2) else b.testBit i := by
  rw [testBit_rail_byte r2 e2 (rail_byte_lt _ _ _), testBit_rail_byte r1 e1 hb]
  by_cases h1 : i = wiring_bit r1
  · have h2 : ¬ i = wiring_bit r2 := fun h => hbit (h1.symm.trans h)
    simp [h1, hbit]
  · simp [h1]

/-- Output register of the common chip after two rail operations in a row
when no transaction fails. -/
theorem set_rail_twice_regs (r1 r2 : Rail) (e1 e2 : Bool) (s : Expander)
    (hok : ∀ n, s.outcome n = ESP_OK) (hchip : wiring_chip r1 = wiring_chip r2) :
    (set_rail r2 e2 (set_rail r1 e1 s)).regs (wiring_chip r1) PI4IO_REG_OUT_SET =
      rail_byte r2 e2 (rail_byte r1 e1 (s.regs (wiring_chip r1) PI4IO_REG_OUT_SET)) := by
  have ho : ∀ n, (set_rail r1 e1 s).outcome n = ESP_OK := by
    intro n; rw [set_rail_outcome]; exact hok n
  rw [set_rail_regs r2 e2 _ (ho _) (ho _), set_rail_regs r1 e1 s (hok _) (hok _)]
  simp [hchip]

/-- C29: with no failing transaction, two rail operations that target
distinct bits of the same chip's output register, run one after the other
with any arguments, give the same register byte in either order; in it both
target bits are at the requested level (the argument, inverted for charge-QC)
and the other six bits are those of the initial byte; a rail operation leaves
the output register of the other chip unchanged. -/
theorem set_rail_commute (r1 r2 : Rail) (e1 e2 : Bool) (s : Expander)
    (hok : ∀ n, s.outcome n = ESP_OK) (hb : s.regs (wiring_chip r1) 0x05 < 256)
    (hchip : wiring_chip r1 = wiring_chip r2) (hbit : wiring_bit r1 ≠ wiring_bit r2) :
    (set_rail r2 e2 (set_rail r1 e1 s)).regs (wiring_chip r1) 0x05 =
      (set_rail r1 e1 (set_rail r2 e2 s)).regs (wiring_chip r1) 0x05 ∧
    (∀ i, ((set_rail r2 e2 (set_rail r1 e1 s)).regs (wiring_chip r1) 0x05).testBit i =
      if i = wiring_bit r1 then (e1 != off_level r1)
      else if i = wiring_bit r2 then (e2 != off_level r2)
      else (s.regs (wiring_chip r1) 0x05).testBit i) ∧
    (∀ d, d ≠ wiring_chip r1 → (set_rail r1 e1 s).regs d 0x05 = s.regs d 0x05) := by
  have h12 := set_rail_twice_regs r1 r2 e1 e2 s hok hchip
  have h21 := set_rail_twice_regs r2 r1 e2 e1 s hok hchip.symm
  rw [← hchip] at h21
  have h5 : PI4IO_REG_OUT_SET = 5 := rfl
  rw [h5] at h12 h21
  have hbits12 := testBit_rail_byte_two r1 r2 e1 e2 hb hbit
  have hbits21 := testBit_rail_byte_two r2 r1 e2 e1 hb (Ne.symm hbit)
  refine ⟨?_, ?_, ?_⟩
  · rw [h12, h21]
    apply Nat.eq_of_testBit_eq
    intro i
    rw [hbits12 i, hbits21 i]
    by_cases h1 : i = wiring_bit r1
    · have h2 : ¬ i = wiring_bit r2 := fun h => hbit (h1.symm.trans h)
      simp [h1, hbit]
    · simp [h1]
  · intro i
    rw [h12]
    exact hbits12 i
  · intro d hd
    rw [set_rail_regs r1 e1 s (hok _) (hok _)]
    simp [hd]

/-- Witness for C29: USB 5V enable and charge disable on a healthy expander 2
whose output register holds 0x09. -/
theorem set_rail_commute_witness :
    (set_rail Rail.charge false (set_rail Rail.usb_5v true
        (Expander.healthy (fun _ _ => 0x09)))).regs (wiring_chip Rail.usb_5v) 0x05 =
      (set_rail Rail.usb_5v true (set_rail Rail.charge false
        (Expander.healthy (fun _ _ => 0x09)))).regs (wiring_chip Rail.usb_5v) 0x05 ∧
    (∀ i, ((set_rail Rail.charge false (set_rail Rail.usb_5v true
        (Expander.healthy (fun _ _ => 0x09)))).regs (wiring_chip Rail.usb_5v) 0x05).testBit i =
      if i = wiring_bit Rail.usb_5v then (true != off_level Rail.usb_5v)
      else if i = wiring_bit Rail.charge then (false != off_level Rail.charge)
      else ((Expander.healthy (fun _ _ => 0x09)).regs
        (wiring_chip Rail.usb_5v) 0x05).testBit i) ∧
    (∀ d, d ≠ wiring_chip Rail.usb_5v →
      (set_rail Rail.usb_5v true (Expander.healthy (fun _ _ => 0x09))).regs d 0x05 =
        (Expander.healthy (fun _ _ => 0x09)).regs d 0x05) :=
  set_rail_commute Rail.usb_5v Rail.charge true false (Expander.healthy (fun _ _ => 0x09))
    (fun _ => rfl) (by decide) (by decide) (by decide)

/-- Output register after the interleaving in which both reads come before
both writes, when no transaction fails: the second write wins. -/
theorem reads_before_writes_regs (r1 r2 : Rail) (e1 e2 : Bool) (s : Expander)
    (hok : ∀ n, s.outcome n = ESP_OK) (hchip : wiring_chip r1 = wiring_chip r2) :
    (reads_before_writes r1 r2 e1 e2 s).regs (wiring_chip r1) 0x05 =
      rail_byte r2 e2 (s.regs (wiring_chip r1) 0x05) := by
  simp [reads_before_writes, rail_read_step, rail_write_step, i2c_master_transmit,
    i2c_master_transmit_receive, hok, hchip, PI4IO_REG_OUT_SET]

/-- C23: `bsp_set_usb_5v_en` and `bsp_set_charge_en` each consist of a read
step followed by a write step, and the interleaving of `bsp_set_usb_5v_en(true)`
and `bsp_set_charge_en(true)` on expander 2 in which both reads come before
both writes, started with no failing transaction from an output register in
which bit 3 is clear (so in particular from one in which bits 3 and 7 are both
clear), ends with bit 7 set and bit 3 clear: only one of the two bits is set,
whereas running the two operations one after the other sets both. -/
theorem lost_update_interleaving (s : Expander) (hok : ∀ n, s.outcome n = ESP_OK)
    (hb : s.regs Dev.i2c_dev_handle_pi4ioe2 0x05 < 256)
    (h3 : (s.regs Dev.i2c_dev_handle_pi4ioe2 0x05).testBit 3 = false) :
    (∀ (en : Bool) (t : Expander), bsp_set_usb_5v_en en t =
      rail_write_step Rail.usb_5v en (rail_read_step Rail.usb_5v t).1
        (rail_read_step Rail.usb_5v t).2) ∧
    (∀ (en : Bool) (t : Expander), bsp_set_charge_en en t =
      rail_write_step Rail.charge en (rail_read_step Rail.charge t).1
        (rail_read_step Rail.charge t).2) ∧
    ((reads_before_writes Rail.usb_5v Rail.charge true true s).regs
      Dev.i2c_dev_handle_pi4ioe2 0x05).testBit 7 = true ∧
    ((reads_before_writes Rail.usb_5v Rail.charge true true s).regs
      Dev.i2c_dev_handle_pi4ioe2 0x05).testBit 3 = false ∧
    ((bsp_set_charge_en true (bsp_set_usb_5v_en true s)).regs
      Dev.i2c_dev_handle_pi4ioe2 0x05).testBit 7 = true ∧
    ((bsp_set_charge_en true (bsp_set_usb_5v_en true s)).regs
      Dev.i2c_dev_handle_pi4ioe2 0x05).testBit 3 = true := by
  have hrace := reads_before_writes_regs Rail.usb_5v Rail.charge true true s hok rfl
  have hseq := set_rail_twice_regs Rail.usb_5v Rail.charge true true s hok rfl
  have hbits := testBit_rail_byte_two Rail.usb_5v Rail.charge true true hb (by decide)
  have hone := testBit_rail_byte Rail.charge true hb
  simp only [wiring_chip, set_rail, PI4IO_REG_OUT_SET] at hrace hseq hbits hone
  refine ⟨fun en t => set_rail_eq_steps Rail.usb_5v en t (by decide),
    fun en t => set_rail_eq_steps Rail.charge en t (by decide), ?_, ?_, ?_, ?_⟩
  · rw [hrace, hone]; simp [wiring_bit, off_level]
  · rw [hrace, hone]; simp [wiring_bit, off_level, h3]
  · rw [hseq, hbits]; simp [wiring_bit, off_level]
  · rw [hseq, hbits]; simp [wiring_bit, off_level]

/-- Witness for C23: a healthy expander 2 whose output register holds 0x01. -/
theorem lost_update_interleaving_witness :
    ((reads_before_writes Rail.usb_5v Rail.charge true true
      (Expander.healthy (fun _ _ => 0x01))).regs
      Dev.i2c_dev_handle_pi4ioe2 0x05).testBit 7 = true ∧
    ((reads_before_writes Rail.usb_5v Rail.charge true true
      (Expander.healthy (fun _ _ => 0x01))).regs
      Dev.i2c_dev_handle_pi4ioe2 0x05).testBit 3 = false ∧
    ((bsp_set_charge_en true (bsp_set_usb_5v_en true
      (Expander.healthy (fun _ _ => 0x01)))).regs
      Dev.i2c_dev_handle_pi4ioe2 0x05).testBit 7 = true ∧
    ((bsp_set_charge_en true (bsp_set_usb_5v_en true
      (Expander.healthy (fun _ _ => 0x01)))).regs
      Dev.i2c_dev_handle_pi4ioe2 0x05).testBit 3 = true :=
  (lost_update_interleaving (Expander.healthy (fun _ _ => 0x01)) (fun _ => rfl)
    (by decide) (by decide)).2.2

/-! ## Claims on the display backlight -/

/-- The two range checks of `bsp_display_brightness_set` clamp the argument to
the range from 0 to 100. -/
theorem brightness_clamp (x : Int) :
    (if (if x > 100 then 100 else x) < 0 then 0 else (if x > 100 then 100 else x)) =
      max 0 (min x 100) := by
  split_ifs <;> omega

/-- The duty computed from a percentage between 0 and 100: the product stays
in the range of `int` and the result is the integer quotient. -/
theorem duty_of_percent (p : Int) (h0 : 0 ≤ p) (h1 : p ≤ 100) :
    int32_wrap (4095 * p) = 4095 * p ∧
    ((uint32_of_int (Int.tdiv (int32_wrap (4095 * p)) 100) : Nat) : Int) = 4095 * p / 100 ∧
    uint32_of_int (Int.tdiv (int32_wrap (4095 * p)) 100) ≤ 4095 := by
  interval_cases p <;> decide

/-- Driver calls of `bsp_display_brightness_set`: the duty is set first, and
updated when setting it succeeded. -/
theorem brightness_set_calls (x : Int) (s : LedcState) :
    (bsp_display_brightness_set x s).2.calls =
      s.calls ++ LedcCall.ledc_set_duty ledc_mode_t.LEDC_LOW_SPEED_MODE LCD_LEDC_CH
        (uint32_of_int (Int.tdiv (int32_wrap (4095 * max 0 (min x 100))) 100)) ::
        (if s.outcome s.calls.length = ESP_OK then
          [LedcCall.ledc_update_duty ledc_mode_t.LEDC_LOW_SPEED_MODE LCD_LEDC_CH] else []) := by
  have hc := brightness_clamp x
  by_cases h0 : s.outcome s.calls.length = ESP_OK
  · by_cases h1 : s.outcome (s.calls.length + 1) = ESP_OK <;>
      simp [bsp_display_brightness_set, ledc_set_duty, ledc_update_duty,
        BSP_ERROR_CHECK_RETURN_ERR, h0, h1, hc]
  · simp [bsp_display_brightness_set, ledc_set_duty, ledc_update_duty,
      BSP_ERROR_CHECK_RETURN_ERR, h0, hc]

/-- C24: for every `brightness_percent`, `bsp_display_brightness_set` passes to
the LEDC driver, as the duty of its first call, `(4095 * p) / 100` in integer
division, where `p` is `brightness_percent` clamped to the range from 0 to 100;
the product does not leave the range of `int`, every argument of 100 or more
gives the full 12-bit duty 4095 and every argument of 0 or less gives duty
0; backlight on and off are the calls with 100 and with 0. -/
theorem brightness_set_duty (x : Int) (s : LedcState) :
    ∃ (p : Int) (d : Nat) (rest : List LedcCall),
      p = max 0 (min x 100) ∧ 0 ≤ p ∧ p ≤ 100 ∧
      int32_wrap (4095 * p) = 4095 * p ∧
      (d : Int) = 4095 * p / 100 ∧ d ≤ 4095 ∧
      (bsp_display_brightness_set x s).2.calls =
        s.calls ++
          LedcCall.ledc_set_duty ledc_mode_t.LEDC_LOW_SPEED_MODE LCD_LEDC_CH d :: rest ∧
      (100 ≤ x → d = 4095) ∧ (x ≤ 0 → d = 0) ∧
      bsp_display_backlight_on s = bsp_display_brightness_set 100 s ∧
      bsp_display_backlight_off s = bsp_display_brightness_set 0 s := by
  have h0 : (0 : Int) ≤ max 0 (min x 100) := by omega
  have h1 : max 0 (min x 100) ≤ (100 : Int) := by omega
  obtain ⟨hwrap, hduty, hle⟩ := duty_of_percent _ h0 h1
  refine ⟨max 0 (min x 100), _, _, rfl, h0, h1, hwrap, hduty, hle,
    brightness_set_calls x s, ?_, ?_, rfl, rfl⟩
  · intro hx
    have hp : max 0 (min x 100) = (100 : Int) := by omega
    rw [hp]; decide
  · intro hx
    have hp : max 0 (min x 100) = (0 : Int) := by omega
    rw [hp]; decide

/-! ## Claims on the public SD card handle -/

/-- No SD card call assigns the public global `bsp_sdcard`. -/
theorem sd_step_keeps_global (op : SdOp) (s : SdState) :
    (op.step s).bsp_sdcard = s.bsp_sdcard := by
  cases op with
  | init mount_point max_files =>
    simp only [SdOp.step, bsp_sdcard_init]
    by_cases hc : s.card = none
    · by_cases hp : s.pwr_ctrl_handle = none
      · by_cases h0 : s.outcome s.calls.length = ESP_OK
        · by_cases h1 : s.outcome (s.calls.length + 1) = ESP_OK <;>
            simp [hc, hp, h0, h1, sd_pwr_ctrl_new_on_chip_ldo, esp_vfs_fat_sdmmc_mount,
              sdmmc_card_print_info]
        · simp [hc, hp, h0, sd_pwr_ctrl_new_on_chip_ldo]
      · by_cases h0 : s.outcome s.calls.length = ESP_OK <;>
          simp [hc, hp, h0, esp_vfs_fat_sdmmc_mount, sdmmc_card_print_info]
    · simp [hc]
  | deinit mount_point =>
    cases mount_point <;> simp [SdOp.step, bsp_sdcard_deinit, esp_vfs_fat_sdcard_unmount]

theorem run_sd_ops_keeps_global (ops : List SdOp) (s : SdState) :
    (run_sd_ops ops s).bsp_sdcard = s.bsp_sdcard := by
  induction ops generalizing s with
  | nil => rfl
  | cons op rest ih =>
    have h := ih (op.step s)
    rw [sd_step_keeps_global] at h
    exact h

/-- C30: the public global `bsp_sdcard` is null in every state reached from
program start by any sequence of SD card init and deinit calls, whatever the
drivers return; in particular a `bsp_sdcard_init` that succeeds in such a
state leaves the mounted card in the file-private `card`, which is then
non-null, and leaves `bsp_sdcard` null. -/
theorem bsp_sdcard_stays_null (outcome : Nat → esp_err_t) (ops : List SdOp)
    (mount_point : mount_point_t) (max_files : Nat) :
    (run_sd_ops ops (SdState.boot outcome)).bsp_sdcard = none ∧
    ((bsp_sdcard_init mount_point max_files
        (run_sd_ops ops (SdState.boot outcome))).1 = ESP_OK →
      (bsp_sdcard_init mount_point max_files
        (run_sd_ops ops (SdState.boot outcome))).2.card ≠ none ∧
      (bsp_sdcard_init mount_point max_files
        (run_sd_ops ops (SdState.boot outcome))).2.bsp_sdcard = none) := by
  have hnull : (run_sd_ops ops (SdState.boot outcome)).bsp_sdcard = none :=
    run_sd_ops_keeps_global ops _
  refine ⟨hnull, fun hok => ⟨bsp_sdcard_init_ok_card _ _ _ hok, ?_⟩⟩
  have h := sd_step_keeps_global (SdOp.init mount_point max_files)
    (run_sd_ops ops (SdState.boot outcome))
  simp only [SdOp.step] at h
  rw [h, hnull]

/-- Witness for C30: a first init from the boot state with drivers that
succeed. -/
theorem bsp_sdcard_stays_null_witness :
    (bsp_sdcard_init (some "/sdcard") 5
        (run_sd_ops [] (SdState.boot (fun _ => ESP_OK)))).2.card ≠ none ∧
    (bsp_sdcard_init (some "/sdcard") 5
        (run_sd_ops [] (SdState.boot (fun _ => ESP_OK)))).2.bsp_sdcard = none :=
  (bsp_sdcard_stays_null (fun _ => ESP_OK) [] (some "/sdcard") 5).2 (by decide)

end Tab5
